import Mathlib

/-!
Smart-farm simulation core (`Project2/FileName.cpp`)

A shallow embedding of the simulation and geometry core of the farm program.

Conventions of the embedding

* `float` values are exact rationals (`ℚ`); float literals such as `0.8f` are the
  decimal they denote.  Rounding, infinities and NaN are outside the model.
* `sin`, `cos` and `sqrt` come from the C library; they are carried in a `Libm`
  record and every result holds for an arbitrary such record, except where a
  theorem states an assumption on it (the cylinder frame needs an exact `sqrt`).
* Random draws (`std::mt19937` pushed through a distribution) are supplied by an
  oracle: one record of draws per loop iteration.  The support of every
  distribution is stated as an explicit validity predicate.
* Console logging (and the static counters that only throttle logging) is dropped.
-/

namespace Farm

/-! ## Numeric helpers -/

/-- The libm functions called by the program. -/
structure Libm where
  sin : ℚ → ℚ
  cos : ℚ → ℚ
  sqrt : ℚ → ℚ

/-- The `clamp` template of the source: `(v < lo) ? lo : (hi < v) ? hi : v`. -/
def clamp (v lo hi : ℚ) : ℚ :=
  if v < lo then lo else if hi < v then hi else v

/-- A `glm::vec2`. -/
structure Vec2 where
  x : ℚ
  y : ℚ
deriving DecidableEq

/-- A `glm::vec3`; colours use the same type with `x y z` read as `r g b`. -/
structure Vec3 where
  x : ℚ
  y : ℚ
  z : ℚ
deriving DecidableEq

namespace Vec3

def zero : Vec3 := ⟨0, 0, 0⟩

def add (a b : Vec3) : Vec3 := ⟨a.x + b.x, a.y + b.y, a.z + b.z⟩

def sub (a b : Vec3) : Vec3 := ⟨a.x - b.x, a.y - b.y, a.z - b.z⟩

/-- Scalar multiple `s * v` (also `v * s`, `v *= s`). -/
def smul (s : ℚ) (v : Vec3) : Vec3 := ⟨s * v.x, s * v.y, s * v.z⟩

def dot (a b : Vec3) : ℚ := a.x * b.x + a.y * b.y + a.z * b.z

def cross (a b : Vec3) : Vec3 :=
  ⟨a.y * b.z - b.y * a.z, a.z * b.x - b.z * a.x, a.x * b.y - b.x * a.y⟩

/-- The function `glm::normalize`: `v * inversesqrt(dot(v, v))`. -/
def normalize (m : Libm) (v : Vec3) : Vec3 := smul (1 / m.sqrt (dot v v)) v

/-- The test `glm::length(v) < c` for a threshold `c ≥ 0`.  In exact arithmetic
`sqrt(dot(v,v)) < c` is `dot(v,v) < c*c` (see `lengthLt_iff_sqrt`); the embedding
evaluates the latter so that the test stays decidable over `ℚ`. -/
def lengthLt (v : Vec3) (c : ℚ) : Bool := decide (dot v v < c * c)

instance : Add Vec3 := ⟨add⟩
instance : Sub Vec3 := ⟨sub⟩

end Vec3

namespace Vec2

/-- The function `glm::normalize` on `vec2`. -/
def normalize (m : Libm) (v : Vec2) : Vec2 :=
  let s := 1 / m.sqrt (v.x * v.x + v.y * v.y)
  ⟨s * v.x, s * v.y⟩

end Vec2

/-! ## Data model -/

/-- A mesh vertex (`struct Vertex`). -/
structure Vertex where
  x : ℚ
  y : ℚ
  z : ℚ
  r : ℚ
  g : ℚ
  b : ℚ
  nx : ℚ
  ny : ℚ
  nz : ℚ
  u : ℚ := 0
  v : ℚ := 0
  materialType : ℚ := 0
deriving DecidableEq

/-- The CPU side of `struct RenderObject`: the vertex and index vectors. -/
structure RenderObject where
  vertices : List Vertex := []
  indices : List Nat := []
deriving DecidableEq

/-- Weather state (`struct WeatherSystem`) with the constructor defaults. -/
structure WeatherSystem where
  temperature : ℚ := 22
  humidity : ℚ := 65
  windSpeed : ℚ := 5
  cloudCoverage : ℚ := 0.3
  precipitation : ℚ := 0
  weatherType : Int := 0
  fogColor : Vec3 := ⟨0.8, 0.8, 0.9⟩
  fogDensity : ℚ := 0.02
deriving DecidableEq

/-- A sensor (`struct SensorData`) with the constructor defaults. -/
structure SensorData where
  position : Vec3 := Vec3.zero
  temperature : ℚ := 22
  humidity : ℚ := 60
  soilMoisture : ℚ := 45
  lightLevel : ℚ := 700
  pH : ℚ := 6.8
  nitrogenLevel : ℚ := 50
  phosphorusLevel : ℚ := 30
  potassiumLevel : ℚ := 40
  statusColor : Vec3 := ⟨0.2, 1.0, 0.3⟩
  dataHeight : Fin 7 → ℚ := fun _ => 0.5
  isActive : Bool := true

/-- A plant (`struct DetailedPlant`) with the constructor defaults. -/
structure DetailedPlant where
  position : Vec3 := Vec3.zero
  height : ℚ := 1.2
  stemRadius : ℚ := 0.03
  leafCount : Int := 8
  leafSize : ℚ := 0.15
  leafAngle : ℚ := 45
  windPhase : ℚ := 0
  healthFactor : ℚ := 0.9
  stemColor : Vec3 := ⟨0.4, 0.6, 0.2⟩
  leafColor : Vec3 := ⟨0.2, 0.8, 0.1⟩
  plantType : Int := 0
  growthStage : ℚ := 0.8
  hasFlowers : Bool := false
  hasFruits : Bool := false
  leafPositions : List Vec3 := []
  leafSizes : List ℚ := []
  branchPositions : List Vec3 := []
  rootSpread : ℚ := 0.5
  diseaseLevel : Int := 0
  waterNeed : ℚ := 0.6
  flowerColor : Vec3 := ⟨1.0, 0.8, 0.2⟩
  fruitColor : Vec3 := ⟨0.8, 0.2, 0.1⟩
  isPestInfected : Bool := false
deriving DecidableEq

/-- A building (`struct Building`); the constructor sets both flags. -/
structure Building where
  position : Vec3
  size : Vec3
  name : String
  color : Vec3
  hasDoor : Bool := true
  hasWindows : Bool := true
  doorPos : Vec3 := Vec3.zero
  windowPositions : List Vec3 := []
deriving DecidableEq

/-- A cubic Bezier path (`struct BezierPath`) with the constructor defaults. -/
structure BezierPath where
  controlPoints : List Vec3 := []
  pathColor : Vec3 := ⟨0.8, 0.6, 0.2⟩
  pathWidth : ℚ := 0.2
  segments : Int := 20
deriving DecidableEq

/-- Aggregate automation status (`struct FarmStatus`) with the constructor defaults. -/
structure FarmStatus where
  healthyPlants : Int := 0
  sickPlants : Int := 0
  alertSensors : Int := 0
  avgTemperature : ℚ := 22
  avgHumidity : ℚ := 65
  avgSoilMoisture : ℚ := 50
  autoIrrigation : Bool := true
  pestControl : Bool := false
  autoFertilizer : Bool := false
  autoHarvest : Bool := false
  nightLighting : Bool := false
  climateControl : Bool := true
  waterUsage : ℚ := 0
  powerConsumption : ℚ := 0
  fertilizerLevel : ℚ := 75
  harvestYield : ℚ := 0
  irrigationIntensity : Int := 3
  automationLevel : Int := 2
  plantingMode : Int := 1
  irrigationActive : Bool := false
  waterPressure : ℚ := 85
  waterTankLevel : ℚ := 75
  activeNozzles : Int := 0
  irrigationEfficiency : ℚ := 88
deriving DecidableEq

/-! ## Bezier evaluation -/

/-- The method `BezierPath::calculateBezierPoint`. -/
def BezierPath.calculateBezierPoint (path : BezierPath) (t : ℚ) : Vec3 :=
  match path.controlPoints with
  | p0 :: p1 :: p2 :: p3 :: _ =>
    let u := 1 - t
    let tt := t * t
    let uu := u * u
    let uuu := uu * u
    let ttt := tt * t
    let p := Vec3.smul uuu p0
    let p := p + Vec3.smul (3 * uu * t) p1
    let p := p + Vec3.smul (3 * u * tt) p2
    let p := p + Vec3.smul ttt p3
    p
  | _ => Vec3.zero

/-! ## Global state -/

/-- The mutable globals of the program that the scene generator and the
simulation read or write, together with the two `static` locals of
`updateFarmSimulation` (`weatherTimer`, `lastSensorUpdate`) and the two UI display
flags. -/
structure World where
  weather : WeatherSystem := {}
  farmStatus : FarmStatus := {}
  sensors : List SensorData := []
  plants : List DetailedPlant := []
  buildings : List Building := []
  paths : List BezierPath := []
  renderObjects : List RenderObject := []
  systemTime : ℚ := 0
  windDirection : Vec2 := ⟨1, 0.3⟩
  windStrength : ℚ := 0.4
  dayNightCycle : ℚ := 0
  lightPos : Vec3 := ⟨10, 15, 10⟩
  lightColor : Vec3 := ⟨1, 0.95, 0.8⟩
  weatherTimer : ℚ := 0
  lastSensorUpdate : ℚ := 0
  showUI : Bool := true
  showDetailedStats : Bool := false

/-! ## Simulation step: weather, day/night, wind -/

/-- The `switch (weather.weatherType)` block of `updateFarmSimulation`. -/
def updateWeather (m : Libm) (w : World) : World :=
  let t := w.systemTime
  if w.weather.weatherType = 0 then
    { w with
      weather := { w.weather with
        cloudCoverage := 0.1 + m.sin (t * 0.1) * 0.1
        precipitation := 0
        fogDensity := 0.005
        fogColor := ⟨0.9, 0.9, 1.0⟩ }
      windStrength := 0.3 + m.sin (t * 0.5) * 0.2 }
  else if w.weather.weatherType = 1 then
    { w with
      weather := { w.weather with
        cloudCoverage := 0.5 + m.sin (t * 0.15) * 0.2
        precipitation := 0
        fogDensity := 0.01
        fogColor := ⟨0.8, 0.8, 0.9⟩ }
      windStrength := 0.5 + m.sin (t * 0.8) * 0.3 }
  else if w.weather.weatherType = 2 then
    { w with
      weather := { w.weather with
        cloudCoverage := clamp (0.8 + m.sin (t * 0.2) * 0.15) 0.7 0.95
        precipitation := clamp (0.6 + m.sin (t * 1.2) * 0.3) 0.4 0.9
        fogDensity := 0.025
        fogColor := ⟨0.65, 0.65, 0.75⟩ }
      windStrength := clamp (0.7 + m.sin (t * 1.0) * 0.4) 0.5 1.1 }
  else if w.weather.weatherType = 3 then
    { w with
      weather := { w.weather with
        cloudCoverage := clamp (0.95 + m.sin (t * 0.3) * 0.05) 0.9 1.0
        precipitation := clamp (0.85 + m.sin (t * 2.0) * 0.15) 0.7 1.0
        fogDensity := 0.04
        fogColor := ⟨0.4, 0.4, 0.55⟩ }
      windStrength := clamp (1.5 + m.sin (t * 1.5) * 0.8) 1.0 2.3 }
  else w

/-- Day/night phase: `dayNightCycle += deltaTime / 90; if (> 1) -= 1`. -/
def updateDayNight (deltaTime : ℚ) (w : World) : World :=
  let d := w.dayNightCycle + deltaTime / 90
  { w with dayNightCycle := if d > 1 then d - 1 else d }

/-- Wind direction: two phased sinusoids, normalised. -/
def updateWind (m : Libm) (w : World) : World :=
  let t := w.systemTime
  { w with
    windDirection := Vec2.normalize m
      ⟨m.cos (t * 0.3) + m.sin (t * 0.8) * 0.5, m.sin (t * 0.4) + m.cos (t * 1.1) * 0.4⟩ }

/-! ## Simulation step: sensor tick -/

/-- The eight `variation(gen)` draws one sensor consumes in a tick, in source
order; `variation` is uniform on `[-1, 1]`. -/
structure SensorDraws where
  vTemp : ℚ
  vHumid : ℚ
  vSoil : ℚ
  vPH : ℚ
  vN : ℚ
  vP : ℚ
  vK : ℚ
  vLight : ℚ

/-- Support of the `variation` distribution. -/
def SensorDraws.Valid (d : SensorDraws) : Prop :=
  (-1 ≤ d.vTemp ∧ d.vTemp ≤ 1) ∧ (-1 ≤ d.vHumid ∧ d.vHumid ≤ 1) ∧
  (-1 ≤ d.vSoil ∧ d.vSoil ≤ 1) ∧ (-1 ≤ d.vPH ∧ d.vPH ≤ 1) ∧
  (-1 ≤ d.vN ∧ d.vN ≤ 1) ∧ (-1 ≤ d.vP ∧ d.vP ≤ 1) ∧
  (-1 ≤ d.vK ∧ d.vK ≤ 1) ∧ (-1 ≤ d.vLight ∧ d.vLight ≤ 1)

/-- Temperature, humidity and soil drift of one sensor (random perturbation,
day/night swing, rain effect, the two early clamps and evaporation). -/
def sensorDrift (weatherType : Int) (dayFactor : ℚ) (d : SensorDraws) (s : SensorData) :
    SensorData :=
  let rain : Bool := decide (weatherType ≥ 2)
  let temperature := s.temperature + d.vTemp * 0.8
  let temperature := temperature + (dayFactor - 0.5) * 3
  let temperature := if rain then temperature - 2 else temperature
  let humidity := if rain then s.humidity + 15 else s.humidity
  let soilMoisture := if rain then s.soilMoisture + 10 else s.soilMoisture
  let temperature := clamp temperature 12 40
  let humidity := humidity + d.vHumid * 2
  let humidity := clamp humidity 25 95
  let soilMoisture := soilMoisture + d.vSoil * 1.5
  let soilMoisture := soilMoisture - dayFactor * 0.5
  { s with temperature := temperature, humidity := humidity, soilMoisture := soilMoisture }

/-- Irrigation effect: fires when `autoIrrigation` is on and the drifted soil
moisture is below 40. -/
def applyIrrigation (fs : FarmStatus) (s : SensorData) : FarmStatus × SensorData :=
  let needsIrrigation : Bool := decide (s.soilMoisture < 40)
  if fs.autoIrrigation && needsIrrigation then
    let irrigationEffect : ℚ := 8 + (fs.irrigationIntensity : ℚ) * 5
    ({ fs with
        waterUsage := fs.waterUsage + 0.2 * (fs.irrigationIntensity : ℚ)
        irrigationActive := true
        activeNozzles := fs.activeNozzles + 1
        waterTankLevel := clamp (fs.waterTankLevel - 0.1 * (fs.irrigationIntensity : ℚ)) 10 100 },
     { s with soilMoisture := s.soilMoisture + irrigationEffect })
  else (fs, s)

/-- Fertiliser effect on the N/P/K channels. -/
def applyFertilizer (fs : FarmStatus) (s : SensorData) : FarmStatus × SensorData :=
  if fs.autoFertilizer && decide (fs.fertilizerLevel > 10) then
    let needsFertilizer : Bool :=
      decide (s.nitrogenLevel < 60) || decide (s.phosphorusLevel < 60) ||
        decide (s.potassiumLevel < 60)
    if needsFertilizer then
      ({ fs with fertilizerLevel := fs.fertilizerLevel - 0.5 },
       { s with
          nitrogenLevel := s.nitrogenLevel + 8
          phosphorusLevel := s.phosphorusLevel + 6
          potassiumLevel := s.potassiumLevel + 7 })
    else (fs, s)
  else (fs, s)

/-- Climate control: four consecutive `if`s pulling temperature and humidity. -/
def applyClimate (fs : FarmStatus) (s : SensorData) : SensorData :=
  if fs.climateControl then
    let temperature := if s.temperature > 28 then s.temperature - 3 else s.temperature
    let temperature := if temperature < 20 then temperature + 3 else temperature
    let humidity := if s.humidity < 55 then s.humidity + 5 else s.humidity
    let humidity := if humidity > 75 then humidity - 5 else humidity
    { s with temperature := temperature, humidity := humidity }
  else s

/-- Final clamps of the tick: soil, pH, N/P/K and the recomputed light level. -/
def sensorSettle (dayFactor : ℚ) (d : SensorDraws) (s : SensorData) : SensorData :=
  { s with
    soilMoisture := clamp s.soilMoisture 15 85
    pH := clamp (s.pH + d.vPH * 0.1) 5 8.5
    nitrogenLevel := clamp (s.nitrogenLevel + d.vN * 2) 10 90
    phosphorusLevel := clamp (s.phosphorusLevel + d.vP * 1.5) 10 90
    potassiumLevel := clamp (s.potassiumLevel + d.vK * 2) 10 90
    lightLevel := clamp (200 + dayFactor * 1000 + d.vLight * 100) 100 1400 }

/-- The seven visualisation heights as recomputed by the tick. -/
def tickHeights (s : SensorData) : Fin 7 → ℚ
  | 0 => (s.temperature - 10) / 35 * 2.5
  | 1 => s.humidity / 100 * 2.5
  | 2 => s.soilMoisture / 100 * 2.5
  | 3 => (s.pH - 4.5) / 4.5 * 2.5
  | 4 => s.nitrogenLevel / 100 * 2.5
  | 5 => s.phosphorusLevel / 100 * 2.5
  | 6 => s.potassiumLevel / 100 * 2.5

/-- The status-light colour chosen by the tick. -/
def tickStatusColor (s : SensorData) : Vec3 :=
  let tempAlert : Bool := decide (s.temperature > 35) || decide (s.temperature < 15)
  let humidAlert : Bool := decide (s.humidity < 30)
  let soilAlert : Bool := decide (s.soilMoisture < 25)
  let pHAlert : Bool := decide (s.pH < 5.8) || decide (s.pH > 7.8)
  let nutrientAlert : Bool := decide (s.nitrogenLevel < 30) || decide (s.phosphorusLevel < 20)
  if tempAlert || humidAlert || soilAlert || pHAlert || nutrientAlert then
    ⟨1.0, 0.2, 0.2⟩
  else if decide (s.temperature > 32) || decide (s.humidity < 40) ||
      decide (s.soilMoisture < 35) then
    ⟨1.0, 0.8, 0.0⟩
  else
    ⟨0.2, 1.0, 0.3⟩

/-- Heights and status light, recomputed from the settled channels. -/
def sensorDisplay (s : SensorData) : SensorData :=
  { s with dataHeight := tickHeights s, statusColor := tickStatusColor s }

/-- The body of `for (auto& sensor : sensors)` for one sensor. -/
def sensorTick (weatherType : Int) (dayFactor : ℚ) (d : SensorDraws) (fs : FarmStatus)
    (s : SensorData) : FarmStatus × SensorData :=
  let s1 := sensorDrift weatherType dayFactor d s
  let r2 := applyIrrigation fs s1
  let r3 := applyFertilizer r2.1 r2.2
  let s4 := applyClimate r3.1 r3.2
  let s5 := sensorSettle dayFactor d s4
  (r3.1, sensorDisplay s5)

/-- The sensor loop; `rnd i` holds the draws of the sensor with index `i`. -/
def sensorLoop (weatherType : Int) (dayFactor : ℚ) (rnd : Nat → SensorDraws) :
    Nat → FarmStatus → List SensorData → FarmStatus × List SensorData
  | _, fs, [] => (fs, [])
  | i, fs, s :: rest =>
    let r := sensorTick weatherType dayFactor (rnd i) fs s
    let r2 := sensorLoop weatherType dayFactor rnd (i + 1) r.1 rest
    (r2.1, r.2 :: r2.2)

/-- The rate-limited sensor section of `updateFarmSimulation`. -/
def updateSensors (m : Libm) (rnd : Nat → SensorDraws) (w : World) : World :=
  if w.systemTime - w.lastSensorUpdate > 2 then
    let dayFactor := (m.sin (w.dayNightCycle * 2 * 3.14159) + 1) * 0.5
    let r := sensorLoop w.weather.weatherType dayFactor rnd 0 w.farmStatus w.sensors
    { w with lastSensorUpdate := w.systemTime, farmStatus := r.1, sensors := r.2 }
  else w

/-! ## Simulation step: plant tick -/

/-- The golden-angle leaf layout loop (the same loop body appears in
`initializeDetailedPlants` and in `updateFarmSimulation`): the new
`leafPositions` and `leafSizes` of plant `p`. -/
def leafLayout (m : Libm) (p : DetailedPlant) : List Vec3 × List ℚ :=
  let js := List.range p.leafCount.toNat
  (js.map fun (j : Nat) =>
      let heightRatio : ℚ := ((j : ℚ) + 1) / ((p.leafCount : ℚ) + 1)
      let angle : ℚ := (j : ℚ) * 137.5 * 3.14159 / 180
      p.position + Vec3.mk
        (m.cos angle * p.leafSize * (1 + heightRatio * 0.5))
        (p.height * heightRatio * p.growthStage)
        (m.sin angle * p.leafSize * (1 + heightRatio * 0.5)),
   js.map fun (j : Nat) =>
      let heightRatio : ℚ := ((j : ℚ) + 1) / ((p.leafCount : ℚ) + 1)
      p.leafSize * (0.7 + heightRatio * 0.5) * p.healthFactor)

/-- Weather growth multiplier chosen at the top of the plant loop body. -/
def weatherEffectOf (weatherType : Int) : ℚ :=
  if weatherType = 0 then 1.01
  else if weatherType = 1 then 1.005
  else if weatherType = 2 then 1.002
  else if weatherType = 3 then 0.995
  else 1.0

/-- Running state of one plant-loop iteration: the status record, the local
`weatherEffect` and the plant. -/
structure PlantStep where
  fs : FarmStatus
  weatherEffect : ℚ
  plant : DetailedPlant

/-- Pest control cure. -/
def plantPest (st : PlantStep) : PlantStep :=
  if st.fs.pestControl && st.plant.isPestInfected then
    { st with plant := { st.plant with
        isPestInfected := false
        healthFactor := min 1 (st.plant.healthFactor + 0.15) } }
  else st

/-- Fertiliser boost. -/
def plantFertilize (st : PlantStep) : PlantStep :=
  if st.fs.autoFertilizer && decide (st.fs.fertilizerLevel > 20) then
    { st with plant := { st.plant with
        healthFactor := min 1 (st.plant.healthFactor + 0.005)
        growthStage := min 1 (st.plant.growthStage + 0.002) } }
  else st

/-- Night lighting bonus. -/
def plantNight (deltaTime : ℚ) (st : PlantStep) : PlantStep :=
  if st.fs.nightLighting then
    { st with
      weatherEffect := st.weatherEffect * 1.08
      plant := { st.plant with growthStage := st.plant.growthStage + deltaTime * 0.001 } }
  else st

/-- Auto-harvest of a mature plant. -/
def plantHarvest (st : PlantStep) : PlantStep :=
  if st.fs.autoHarvest && decide (st.plant.growthStage > 0.9) &&
      decide (st.plant.healthFactor > 0.75) then
    { st with
      fs := { st.fs with harvestYield := st.fs.harvestYield + 0.5 }
      plant := { st.plant with growthStage := 0.2, healthFactor := 0.8 } }
  else st

/-- Climate control floor on the multiplier and small health bonus. -/
def plantClimate (st : PlantStep) : PlantStep :=
  if st.fs.climateControl then
    { st with
      weatherEffect := max st.weatherEffect 1.05
      plant := { st.plant with healthFactor := min 1 (st.plant.healthFactor + 0.0005) } }
  else st

/-- Health scaling, growth, leaf colour, leaf re-layout and flower/fruit flags. -/
def plantGrow (m : Libm) (deltaTime : ℚ) (st : PlantStep) : DetailedPlant :=
  let p := st.plant
  let healthFactor := clamp (p.healthFactor * st.weatherEffect) 0.4 1.0
  let growthStage := clamp (p.growthStage + deltaTime * 0.002 * healthFactor) 0.0 1.0
  let healthEffect := healthFactor * growthStage
  let p := { p with
    healthFactor := healthFactor
    growthStage := growthStage
    leafColor := ⟨0.1 + (1 - healthEffect) * 0.2, 0.3 + healthEffect * 0.5, 0.1⟩ }
  let p :=
    if (p.leafPositions.length : Int) ≠ p.leafCount then
      { p with leafPositions := (leafLayout m p).1, leafSizes := (leafLayout m p).2 }
    else p
  if p.plantType = 2 then
    { p with
      hasFlowers := decide (p.growthStage > 0.6)
      hasFruits := decide (p.growthStage > 0.8) && decide (p.healthFactor > 0.7) }
  else if p.plantType = 0 then
    { p with hasFlowers := decide (p.growthStage > 0.8) }
  else if p.plantType = 1 then
    { p with hasFlowers := decide (p.growthStage > 0.7) }
  else p

/-- The state of a plant-loop iteration after the five conditional automation
effects, just before the health scaling. -/
def plantEffects (weatherType : Int) (deltaTime : ℚ) (fs : FarmStatus) (p : DetailedPlant) :
    PlantStep :=
  plantClimate (plantHarvest (plantNight deltaTime (plantFertilize (plantPest
    ⟨fs, weatherEffectOf weatherType, p⟩))))

/-- The body of `for (auto& plant : plants)` for one plant. -/
def plantTick (m : Libm) (weatherType : Int) (deltaTime : ℚ) (fs : FarmStatus)
    (p : DetailedPlant) : FarmStatus × DetailedPlant :=
  let st := plantEffects weatherType deltaTime fs p
  (st.fs, plantGrow m deltaTime st)

/-- The plant loop, threading `farmStatus` through the plants in order. -/
def plantLoop (m : Libm) (weatherType : Int) (deltaTime : ℚ) :
    FarmStatus → List DetailedPlant → FarmStatus × List DetailedPlant
  | fs, [] => (fs, [])
  | fs, p :: rest =>
    let r := plantTick m weatherType deltaTime fs p
    let r2 := plantLoop m weatherType deltaTime r.1 rest
    (r2.1, r.2 :: r2.2)

/-- The plant section of `updateFarmSimulation` (runs every frame). -/
def updatePlants (m : Libm) (deltaTime : ℚ) (w : World) : World :=
  let r := plantLoop m w.weather.weatherType deltaTime w.farmStatus w.plants
  { w with farmStatus := r.1, plants := r.2 }

/-! ## Simulation step: light -/

/-- The function `glm::mix(a, b, t) = a * (1 - t) + b * t`. -/
def mix (a b : Vec3) (t : ℚ) : Vec3 := Vec3.smul (1 - t) a + Vec3.smul t b

/-- Sun position and light colour. -/
def updateLight (m : Libm) (w : World) : World :=
  let sunAngle := w.dayNightCycle * 2 * 3.14159
  let lightPos : Vec3 :=
    ⟨m.cos sunAngle * 25, 5 + m.sin sunAngle * 15, m.sin sunAngle * 15⟩
  let dayIntensity := clamp (lightPos.y / 20) 0 1
  let lightColor : Vec3 :=
    if dayIntensity > 0.1 then mix ⟨1.0, 0.7, 0.4⟩ ⟨1.0, 0.95, 0.8⟩ dayIntensity
    else ⟨0.3, 0.4, 0.8⟩
  let lightColor :=
    if w.weather.weatherType = 1 then Vec3.smul 0.9 lightColor
    else if w.weather.weatherType = 2 then Vec3.smul 0.7 lightColor
    else if w.weather.weatherType = 3 then Vec3.smul 0.5 lightColor
    else lightColor
  { w with lightPos := lightPos, lightColor := lightColor }

/-- The function `updateFarmSimulation(deltaTime)`.  `rnd i` are the draws the
sensor with index `i` consumes if the sensor section runs in this call. -/
def updateFarmSimulation (m : Libm) (rnd : Nat → SensorDraws) (deltaTime : ℚ) (w : World) :
    World :=
  let w := { w with weatherTimer := w.weatherTimer + deltaTime }
  let w := updateWeather m w
  let w := updateDayNight deltaTime w
  let w := updateWind m w
  let w := updateSensors m rnd w
  let w := updatePlants m deltaTime w
  updateLight m w

/-! ## Scene generation: sensors -/

/-- The eight distribution draws one sensor consumes at creation, in source order
(`tempDis`, `humidDis`, `soilDis`, `lightDis`, `pHDis`, then `nutrientDis` three times). -/
structure SensorInitDraws where
  temperature : ℚ
  humidity : ℚ
  soilMoisture : ℚ
  lightLevel : ℚ
  pH : ℚ
  nitrogen : ℚ
  phosphorus : ℚ
  potassium : ℚ

/-- Supports of the six `uniform_real_distribution`s of
`initializeAdvancedSensorNetwork`. -/
def SensorInitDraws.Valid (d : SensorInitDraws) : Prop :=
  (18 ≤ d.temperature ∧ d.temperature ≤ 32) ∧ (40 ≤ d.humidity ∧ d.humidity ≤ 85) ∧
  (25 ≤ d.soilMoisture ∧ d.soilMoisture ≤ 80) ∧ (400 ≤ d.lightLevel ∧ d.lightLevel ≤ 1200) ∧
  (5.5 ≤ d.pH ∧ d.pH ≤ 8.0) ∧ (20 ≤ d.nitrogen ∧ d.nitrogen ≤ 80) ∧
  (20 ≤ d.phosphorus ∧ d.phosphorus ≤ 80) ∧ (20 ≤ d.potassium ∧ d.potassium ≤ 80)

/-- The seven visualisation heights as computed at sensor creation. -/
def initHeights (s : SensorData) : Fin 7 → ℚ
  | 0 => (s.temperature - 15) / 25 * 3
  | 1 => s.humidity / 100 * 3
  | 2 => s.soilMoisture / 100 * 3
  | 3 => (s.pH - 5) / 3.5 * 3
  | 4 => s.nitrogenLevel / 100 * 3
  | 5 => s.phosphorusLevel / 100 * 3
  | 6 => s.potassiumLevel / 100 * 3

/-- The body of the double loop of `initializeAdvancedSensorNetwork` for grid
cell `(i, j)`. -/
def makeSensor (i j : Nat) (d : SensorInitDraws) : SensorData :=
  let position : Vec3 :=
    ⟨((i : ℚ) - 2) * 7 + ((j % 2 : Nat) : ℚ) * 1, 0.3, ((j : ℚ) - 2) * 7 + ((i % 2 : Nat) : ℚ) * 1⟩
  let inGreenhouse : Bool := decide (|position.x| > 6) && decide (|position.z| < 10)
  let temperature := if inGreenhouse then d.temperature + 4 else d.temperature
  let humidity := if inGreenhouse then d.humidity + 15 else d.humidity
  let sensor : SensorData :=
    { position := position
      temperature := temperature
      humidity := humidity
      soilMoisture := d.soilMoisture
      lightLevel := d.lightLevel
      pH := d.pH
      nitrogenLevel := d.nitrogen
      phosphorusLevel := d.phosphorus
      potassiumLevel := d.potassium }
  { sensor with dataHeight := initHeights sensor, statusColor := ⟨0.2, 1.0, 0.3⟩ }

/-- The function `initializeAdvancedSensorNetwork`: the new `sensors` vector.
The sensor of grid cell `(i, j)` uses the draws `rnd (5 * i + j)`. -/
def initializeAdvancedSensorNetwork (rnd : Nat → SensorInitDraws) : List SensorData :=
  (List.range 5).flatMap fun i => (List.range 5).map fun j => makeSensor i j (rnd (5 * i + j))

/-! ## Scene generation: plants -/

/-- The draws of one iteration of the 300-step plant loop: `pos k` is the pair of
`posDis` draws of placement attempt `k`; the others are read only when a
position was found (`typeDis`, `healthDis`, `phaseDis`, `healthDis`, `heightDis`
and the raw `gen()` of the pest test). -/
structure PlantDraws where
  pos : Nat → ℚ × ℚ
  plantType : Int
  health : ℚ
  phase : ℚ
  growth : ℚ
  height : ℚ
  pest : Nat

/-- Supports of the distributions of `initializeDetailedPlants`. -/
def PlantDraws.Valid (d : PlantDraws) : Prop :=
  (∀ k, (-18 ≤ (d.pos k).1 ∧ (d.pos k).1 ≤ 18) ∧ (-18 ≤ (d.pos k).2 ∧ (d.pos k).2 ≤ 18)) ∧
  (0 ≤ d.plantType ∧ d.plantType ≤ 3) ∧ (0.7 ≤ d.health ∧ d.health ≤ 1.0) ∧
  (0 ≤ d.phase ∧ d.phase ≤ 6.28) ∧ (0.7 ≤ d.growth ∧ d.growth ≤ 1.0) ∧
  (0.8 ≤ d.height ∧ d.height ≤ 2.5)

/-- The three overlap tests applied to a candidate position: no building within
7, no sensor within 2, no already placed plant within 1. -/
def positionClear (buildings : List Building) (sensors : List SensorData)
    (plants : List DetailedPlant) (p : Vec3) : Bool :=
  !(buildings.any fun building =>
      Vec3.lengthLt (p - ⟨building.position.x, 0, building.position.z⟩) 7) &&
  !(sensors.any fun sensor =>
      Vec3.lengthLt (p - ⟨sensor.position.x, 0, sensor.position.z⟩) 2) &&
  !(plants.any fun otherPlant => Vec3.lengthLt (p - otherPlant.position) 1)

/-- The loop `while (!validPosition && attempts < 15)`: `fuel` is `15 - attempts`,
`k` is `attempts`, `cur` the current `plant.position`.  Returns `validPosition`
and `plant.position` at loop exit. -/
def placeLoop (buildings : List Building) (sensors : List SensorData)
    (plants : List DetailedPlant) (pos : Nat → ℚ × ℚ) : Nat → Nat → Vec3 → Bool × Vec3
  | 0, _, cur => (false, cur)
  | fuel + 1, k, _ =>
    let p : Vec3 := ⟨(pos k).1, 0, (pos k).2⟩
    if positionClear buildings sensors plants p then (true, p)
    else placeLoop buildings sensors plants pos fuel (k + 1) p

/-- Everything `initializeDetailedPlants` does to a plant after a position was
found, for loop index `i`. -/
def makePlant (m : Libm) (i : Nat) (d : PlantDraws) (position : Vec3) : DetailedPlant :=
  let plant : DetailedPlant :=
    { position := position
      plantType := d.plantType
      healthFactor := d.health
      windPhase := d.phase
      growthStage := 0.6 + d.growth * 0.4 }
  let plant : DetailedPlant :=
    if plant.plantType = 0 then
      { plant with
        height := d.height * 1.2
        stemRadius := 0.04
        leafCount := 12 + ((i % 4 : Nat) : Int)
        leafSize := 0.25
        stemColor := ⟨0.4, 0.6, 0.2⟩
        leafColor := ⟨0.2, 0.8, 0.1⟩
        hasFlowers := decide (plant.growthStage > 0.8) }
    else if plant.plantType = 1 then
      { plant with
        height := d.height * 0.6
        stemRadius := 0.02
        leafCount := 8 + ((i % 3 : Nat) : Int)
        leafSize := 0.15
        stemColor := ⟨0.6, 0.7, 0.3⟩
        leafColor := ⟨0.3, 0.7, 0.2⟩
        hasFlowers := decide (plant.growthStage > 0.7) }
    else if plant.plantType = 2 then
      { plant with
        height := d.height * 0.8
        stemRadius := 0.03
        leafCount := 15 + ((i % 4 : Nat) : Int)
        leafSize := 0.2
        stemColor := ⟨0.3, 0.5, 0.2⟩
        leafColor := ⟨0.2, 0.6, 0.1⟩
        hasFlowers := decide (plant.growthStage > 0.6)
        hasFruits := decide (plant.growthStage > 0.8) }
    else if plant.plantType = 3 then
      { plant with
        height := d.height * 0.4
        stemRadius := 0.015
        leafCount := 20 + ((i % 5 : Nat) : Int)
        leafSize := 0.18
        stemColor := ⟨0.2, 0.4, 0.1⟩
        leafColor := ⟨0.1, 0.5, 0.1⟩ }
    else plant
  let plant : DetailedPlant :=
    { plant with
      leafPositions := (leafLayout m plant).1
      leafSizes := (leafLayout m plant).2
      branchPositions := [] }
  let plant : DetailedPlant :=
    { plant with rootSpread := plant.leafSize * 1.5 * plant.healthFactor }
  let plant : DetailedPlant :=
    if d.pest % 100 < 5 then
      { plant with isPestInfected := true, healthFactor := plant.healthFactor * 0.7 }
    else plant
  let healthEffect := plant.healthFactor
  { plant with
    leafColor := Vec3.smul healthEffect plant.leafColor
    stemColor := Vec3.smul healthEffect plant.stemColor }

/-- One iteration of the 300-step loop: the `plants` vector after iteration `i`. -/
def initPlantStep (m : Libm) (buildings : List Building) (sensors : List SensorData)
    (rnd : Nat → PlantDraws) (plants : List DetailedPlant) (i : Nat) : List DetailedPlant :=
  let r := placeLoop buildings sensors plants (rnd i).pos 15 0 Vec3.zero
  if r.1 then plants ++ [makePlant m i (rnd i) r.2] else plants

/-- The function `initializeDetailedPlants`: the new `plants` vector, given the
global `buildings` and `sensors`. -/
def initializeDetailedPlants (m : Libm) (buildings : List Building)
    (sensors : List SensorData) (rnd : Nat → PlantDraws) : List DetailedPlant :=
  (List.range 300).foldl (initPlantStep m buildings sensors rnd) []

/-! ## Geometry: cylinder -/

/-- The function `addCylinder`: the mesh buffer after the call. -/
def addCylinder (m : Libm) (obj : RenderObject) (bottom top : Vec3) (radius : ℚ)
    (color : Vec3) (segments : Int) (material : ℚ) : RenderObject :=
  let baseIndex := obj.vertices.length
  let direction := Vec3.normalize m (top - bottom)
  let up : Vec3 := if |direction.y| < 0.9 then ⟨0, 1, 0⟩ else ⟨1, 0, 0⟩
  let right := Vec3.normalize m (Vec3.cross direction up)
  let up := Vec3.normalize m (Vec3.cross right direction)
  let ring : List Vertex := (List.range (segments + 1).toNat).flatMap fun (i : Nat) =>
    let angle : ℚ := (i : ℚ) / (segments : ℚ) * 2 * 3.14159
    let circlePos := Vec3.smul (m.cos angle) right + Vec3.smul (m.sin angle) up
    let normal := Vec3.normalize m circlePos
    let bottomPos := bottom + Vec3.smul radius circlePos
    let topPos := top + Vec3.smul radius circlePos
    [{ x := bottomPos.x, y := bottomPos.y, z := bottomPos.z, r := color.x, g := color.y,
       b := color.z, nx := normal.x, ny := normal.y, nz := normal.z, materialType := material },
     { x := topPos.x, y := topPos.y, z := topPos.z, r := color.x, g := color.y,
       b := color.z, nx := normal.x, ny := normal.y, nz := normal.z, materialType := material }]
  let faces : List Nat := (List.range segments.toNat).flatMap fun (i : Nat) =>
    let current := baseIndex + i * 2
    let next := baseIndex + ((i + 1) % (segments.toNat + 1)) * 2
    [current, next, current + 1, current + 1, next, next + 1]
  { obj with vertices := obj.vertices ++ ring, indices := obj.indices ++ faces }

/-! ## Scene generation: buildings and paths -/

/-- The function `createDetailedBuildings`: `buildings.clear()` followed by six
`emplace_back` calls.  The argument is the prior content of the global vector, the
result its new content.  The constructor leaves `doorPos` and `windowPositions`
unset; no code reads them. -/
def createDetailedBuildings (_prior : List Building) : List Building :=
  let buildings : List Building := []
  let buildings := buildings ++ [
    { name := "控制中心"
      position := ⟨0.0, 0.0, -15.0⟩
      size := ⟨6.0, 4.0, 4.0⟩
      color := ⟨0.6, 0.6, 0.7⟩ }]
  let buildings := buildings ++ [
    { name := "温室A"
      position := ⟨12.0, 0.0, -8.0⟩
      size := ⟨8.0, 3.5, 6.0⟩
      color := ⟨0.9, 0.95, 0.9⟩ }]
  let buildings := buildings ++ [
    { name := "温室B"
      position := ⟨-12.0, 0.0, -8.0⟩
      size := ⟨8.0, 3.5, 6.0⟩
      color := ⟨0.9, 0.95, 0.9⟩ }]
  let buildings := buildings ++ [
    { name := "仓储中心"
      position := ⟨0.0, 0.0, 15.0⟩
      size := ⟨10.0, 5.0, 6.0⟩
      color := ⟨0.7, 0.5, 0.4⟩ }]
  let buildings := buildings ++ [
    { name := "工具房"
      position := ⟨15.0, 0.0, 8.0⟩
      size := ⟨4.0, 3.0, 4.0⟩
      color := ⟨0.6, 0.4, 0.3⟩ }]
  let buildings := buildings ++ [
    { name := "水处理站"
      position := ⟨-15.0, 0.0, 8.0⟩
      size := ⟨5.0, 4.0, 5.0⟩
      color := ⟨0.5, 0.7, 0.8⟩ }]
  buildings

/-- The function `createBezierPaths`: `paths.clear()` followed by three `push_back`
calls (main road, irrigation trunk, greenhouse connection). -/
def createBezierPaths (_prior : List BezierPath) : List BezierPath :=
  let paths : List BezierPath := []
  let mainRoad : BezierPath :=
    { controlPoints := [⟨-20.0, 0.1, -20.0⟩, ⟨-5.0, 0.1, -25.0⟩, ⟨5.0, 0.1, -25.0⟩,
        ⟨20.0, 0.1, -20.0⟩]
      pathColor := ⟨0.4, 0.4, 0.4⟩
      pathWidth := 0.8
      segments := 30 }
  let paths := paths ++ [mainRoad]
  let irrigation : BezierPath :=
    { controlPoints := [⟨-15.0, 0.05, 8.0⟩, ⟨-5.0, 0.05, 12.0⟩, ⟨5.0, 0.05, 12.0⟩,
        ⟨15.0, 0.05, 8.0⟩]
      pathColor := ⟨0.2, 0.6, 0.8⟩
      pathWidth := 0.3
      segments := 25 }
  let paths := paths ++ [irrigation]
  let greenhouseConnection : BezierPath :=
    { controlPoints := [⟨-12.0, 0.1, -8.0⟩, ⟨-6.0, 0.1, -5.0⟩, ⟨6.0, 0.1, -5.0⟩,
        ⟨12.0, 0.1, -8.0⟩]
      pathColor := ⟨0.5, 0.5, 0.5⟩
      pathWidth := 0.6
      segments := 20 }
  let paths := paths ++ [greenhouseConnection]
  paths

/-! ## Geometry: box, leaf, Bezier ribbon -/

/-- The table `faceIndices[6][4]` of `addDetailedCube`. -/
def cubeFaceIndices : List (List Nat) :=
  [[0, 1, 2, 3], [5, 4, 7, 6], [4, 0, 3, 7], [1, 5, 6, 2], [4, 5, 1, 0], [3, 2, 6, 7]]

/-- The table `normals[6]` of `addDetailedCube`. -/
def cubeNormals : List Vec3 :=
  [⟨0.0, 0.0, -1.0⟩, ⟨0.0, 0.0, 1.0⟩, ⟨-1.0, 0.0, 0.0⟩, ⟨1.0, 0.0, 0.0⟩, ⟨0.0, -1.0, 0.0⟩,
    ⟨0.0, 1.0, 0.0⟩]

/-- The table `positions[8]` of `addDetailedCube`. -/
def cubePositions (center halfSize : Vec3) : List Vec3 :=
  [center + ⟨-halfSize.x, -halfSize.y, -halfSize.z⟩,
   center + ⟨halfSize.x, -halfSize.y, -halfSize.z⟩,
   center + ⟨halfSize.x, halfSize.y, -halfSize.z⟩,
   center + ⟨-halfSize.x, halfSize.y, -halfSize.z⟩,
   center + ⟨-halfSize.x, -halfSize.y, halfSize.z⟩,
   center + ⟨halfSize.x, -halfSize.y, halfSize.z⟩,
   center + ⟨halfSize.x, halfSize.y, halfSize.z⟩,
   center + ⟨-halfSize.x, halfSize.y, halfSize.z⟩]

/-- The function `addDetailedCube`: the mesh buffer after the call.  The `normal`
argument is never read by the source. -/
def addDetailedCube (obj : RenderObject) (center size color _normal : Vec3) (material : ℚ) :
    RenderObject :=
  let baseIndex := obj.vertices.length
  let halfSize := Vec3.smul 0.5 size
  let positions := cubePositions center halfSize
  let verts : List Vertex := (List.range 6).flatMap fun (face : Nat) =>
    (List.range 4).map fun (vertex : Nat) =>
      let pos := positions.getD ((cubeFaceIndices.getD face []).getD vertex 0) Vec3.zero
      let n := cubeNormals.getD face Vec3.zero
      { x := pos.x, y := pos.y, z := pos.z, r := color.x, g := color.y, b := color.z,
        nx := n.x, ny := n.y, nz := n.z, materialType := material }
  let idx : List Nat := (List.range 6).flatMap fun (face : Nat) =>
    let faceBase := baseIndex + face * 4
    [faceBase + 0, faceBase + 1, faceBase + 2, faceBase + 0, faceBase + 2, faceBase + 3]
  { obj with vertices := obj.vertices ++ verts, indices := obj.indices ++ idx }

/-- The function `addDetailedLeaf`: the mesh buffer after the call.  (The source
also recomputes `up` after `right`; that value is never read.) -/
def addDetailedLeaf (m : Libm) (obj : RenderObject) (position direction : Vec3) (size : ℚ)
    (color : Vec3) (material : ℚ) : RenderObject :=
  let direction := Vec3.normalize m direction
  let up : Vec3 := ⟨0, 1, 0⟩
  let up : Vec3 := if |Vec3.dot direction up| > 0.9 then ⟨1, 0, 0⟩ else up
  let right := Vec3.normalize m (Vec3.cross direction up)
  let baseIndex := obj.vertices.length
  let leafVertices : Nat := 8
  let leafPoints : List Vec3 := (List.range leafVertices).flatMap fun (i : Nat) =>
    let t : ℚ := (i : ℚ) / ((leafVertices : ℚ) - 1)
    let leafWidth : ℚ := size * (1.0 - t * t) * 0.5
    let leafWidth : ℚ :=
      if i > 0 ∧ i < leafVertices - 1 ∧ i % 2 = 1 then leafWidth * 0.8 else leafWidth
    let centerPoint := position + Vec3.smul t (Vec3.smul size direction)
    [centerPoint - Vec3.smul leafWidth right, centerPoint + Vec3.smul leafWidth right]
  let normal := Vec3.normalize m (Vec3.cross right direction)
  let verts : List Vertex := leafPoints.map fun point =>
    { x := point.x, y := point.y, z := point.z, r := color.x, g := color.y, b := color.z,
      nx := normal.x, ny := normal.y, nz := normal.z, materialType := material }
  let idx : List Nat := (List.range (leafVertices - 1)).flatMap fun (i : Nat) =>
    let i1 := baseIndex + i * 2
    let i2 := baseIndex + i * 2 + 1
    let i3 := baseIndex + (i + 1) * 2
    let i4 := baseIndex + (i + 1) * 2 + 1
    [i1, i2, i3, i2, i4, i3]
  { obj with vertices := obj.vertices ++ verts, indices := obj.indices ++ idx }

/-- The function `addBezierCurve`: the mesh buffer after the call. -/
def addBezierCurve (m : Libm) (obj : RenderObject) (path : BezierPath) : RenderObject :=
  if path.controlPoints.length < 4 then obj
  else
    let baseIndex := obj.vertices.length
    let steps := List.range (path.segments + 1).toNat
    let verts : List Vertex := steps.flatMap fun (i : Nat) =>
      let t : ℚ := (i : ℚ) / (path.segments : ℚ)
      let point := path.calculateBezierPoint t
      let dt : ℚ := 0.01
      let tangent : Vec3 :=
        if i = 0 then path.calculateBezierPoint (t + dt) - point
        else if (i : Int) = path.segments then point - path.calculateBezierPoint (t - dt)
        else path.calculateBezierPoint (t + dt) - path.calculateBezierPoint (t - dt)
      let tangent := Vec3.normalize m tangent
      let up : Vec3 := ⟨0, 1, 0⟩
      let right := Vec3.normalize m (Vec3.cross tangent up)
      let leftPoint := point - Vec3.smul path.pathWidth right
      let rightPoint := point + Vec3.smul path.pathWidth right
      [{ x := leftPoint.x, y := leftPoint.y, z := leftPoint.z, r := path.pathColor.x,
         g := path.pathColor.y, b := path.pathColor.z, nx := 0.0, ny := 1.0, nz := 0.0,
         materialType := 0.0 },
       { x := rightPoint.x, y := rightPoint.y, z := rightPoint.z, r := path.pathColor.x,
         g := path.pathColor.y, b := path.pathColor.z, nx := 0.0, ny := 1.0, nz := 0.0,
         materialType := 0.0 }]
    let idx : List Nat := steps.flatMap fun (i : Nat) =>
      if i > 0 then
        let prevLeft := baseIndex + (i - 1) * 2
        let prevRight := baseIndex + (i - 1) * 2 + 1
        let currLeft := baseIndex + i * 2
        let currRight := baseIndex + i * 2 + 1
        [prevLeft, currLeft, prevRight, currLeft, currRight, prevRight]
      else []
    { obj with vertices := obj.vertices ++ verts, indices := obj.indices ++ idx }

/-! ## Status aggregation -/

/-- The four counters of the plant loop of `updateFarmStatus`. -/
structure PlantCounts where
  healthyPlants : Int := 0
  sickPlants : Int := 0
  excellentPlants : Int := 0
  criticalPlants : Int := 0
deriving DecidableEq

/-- The body of the plant loop of `updateFarmStatus`. -/
def countPlant (c : PlantCounts) (plant : DetailedPlant) : PlantCounts :=
  if decide (plant.healthFactor > 0.9) && !plant.isPestInfected then
    { c with excellentPlants := c.excellentPlants + 1, healthyPlants := c.healthyPlants + 1 }
  else if decide (plant.healthFactor > 0.7) && !plant.isPestInfected then
    { c with healthyPlants := c.healthyPlants + 1 }
  else if decide (plant.healthFactor < 0.5) || plant.isPestInfected then
    { c with criticalPlants := c.criticalPlants + 1, sickPlants := c.sickPlants + 1 }
  else
    { c with sickPlants := c.sickPlants + 1 }

/-- The counters and running totals of the sensor loop of `updateFarmStatus`. -/
structure SensorCounts where
  alertSensors : Int := 0
  warningeSensors : Int := 0
  perfectSensors : Int := 0
  totalTemp : ℚ := 0
  totalHumid : ℚ := 0
  totalSoil : ℚ := 0
deriving DecidableEq

/-- The body of the sensor loop of `updateFarmStatus`. -/
def countSensor (c : SensorCounts) (sensor : SensorData) : SensorCounts :=
  let c := { c with
    totalTemp := c.totalTemp + sensor.temperature
    totalHumid := c.totalHumid + sensor.humidity
    totalSoil := c.totalSoil + sensor.soilMoisture }
  if sensor.statusColor.x > 0.8 then
    { c with alertSensors := c.alertSensors + 1 }
  else if sensor.statusColor.x > 0.7 ∨ sensor.statusColor.y < 0.9 then
    { c with warningeSensors := c.warningeSensors + 1 }
  else
    { c with perfectSensors := c.perfectSensors + 1 }

/-- The function `updateFarmStatus` (the periodic console summary is dropped). -/
def updateFarmStatus (w : World) : World :=
  let pc := w.plants.foldl countPlant {}
  let sc := w.sensors.foldl countSensor {}
  let fs : FarmStatus := { w.farmStatus with
    healthyPlants := pc.healthyPlants
    sickPlants := pc.sickPlants
    alertSensors := sc.alertSensors }
  let fs : FarmStatus :=
    if !w.sensors.isEmpty then
      { fs with
        avgTemperature := sc.totalTemp / (w.sensors.length : ℚ)
        avgHumidity := sc.totalHumid / (w.sensors.length : ℚ)
        avgSoilMoisture := sc.totalSoil / (w.sensors.length : ℚ) }
    else fs
  let powerConsumption : ℚ := 28.5
  let powerConsumption :=
    if fs.autoIrrigation then powerConsumption + 6.2 * (fs.irrigationIntensity : ℚ)
    else powerConsumption
  let powerConsumption := if fs.pestControl then powerConsumption + 8.1 else powerConsumption
  let powerConsumption := if fs.autoFertilizer then powerConsumption + 12.8 else powerConsumption
  let powerConsumption := if fs.autoHarvest then powerConsumption + 18.5 else powerConsumption
  let powerConsumption := if fs.nightLighting then powerConsumption + 25.3 else powerConsumption
  let powerConsumption := if fs.climateControl then powerConsumption + 35.7 else powerConsumption
  let automationMultiplier : ℚ := 1.0 + ((fs.automationLevel : ℚ) - 1) * 0.25
  let powerConsumption := powerConsumption * automationMultiplier
  let fertilizerLevel :=
    if fs.autoFertilizer && decide (fs.fertilizerLevel < 100) then fs.fertilizerLevel + 1.5
    else if !fs.autoFertilizer && decide (fs.fertilizerLevel > 0) then fs.fertilizerLevel - 0.3
    else fs.fertilizerLevel
  let fertilizerLevel := clamp fertilizerLevel 0.0 100.0
  let harvestYield :=
    if fs.autoHarvest then
      fs.harvestYield + ((pc.excellentPlants : ℚ) * 0.005 + (pc.healthyPlants : ℚ) * 0.002)
    else fs.harvestYield
  { w with farmStatus := { fs with
      powerConsumption := powerConsumption
      fertilizerLevel := fertilizerLevel
      harvestYield := harvestYield } }

/-! ## Command interface (`processInput`) -/

/-- The key states `processInput` polls for the farm commands: `true` is
`GLFW_PRESS`, `false` is `GLFW_RELEASE`. -/
structure Keys where
  t : Bool := false
  i : Bool := false
  h : Bool := false
  f1 : Bool := false
  f2 : Bool := false
  f3 : Bool := false
  f4 : Bool := false
  f5 : Bool := false
  f6 : Bool := false
  k1 : Bool := false
  k2 : Bool := false
  k3 : Bool := false
  k4 : Bool := false
  k5 : Bool := false
  m : Bool := false
  l : Bool := false
deriving DecidableEq

/-- The `static bool …KeyPressed` latches of `processInput`. -/
structure KeyLatch where
  wKeyPressed : Bool := false
  iKeyPressed : Bool := false
  hKeyPressed : Bool := false
  f1KeyPressed : Bool := false
  f2KeyPressed : Bool := false
  f3KeyPressed : Bool := false
  f4KeyPressed : Bool := false
  f5KeyPressed : Bool := false
  f6KeyPressed : Bool := false
  numKeyPressed : Bool := false
  mKeyPressed : Bool := false
  lKeyPressed : Bool := false
deriving DecidableEq

/-- The state mutations the command interface offers. -/
inductive Command where
  | advanceWeather
  | toggleUI
  | toggleDetailedStats
  | toggleIrrigation
  | togglePestControl
  | toggleFertilizer
  | toggleHarvest
  | toggleNightLighting
  | toggleClimateControl
  | setIrrigationIntensity (k : Fin 5)
  | cyclePlantingMode
  | cycleAutomationLevel
deriving DecidableEq

/-- The assignment each command's `if` block performs in `processInput`; the C `%`
on `int` is `Int.tmod`. -/
def Command.apply (c : Command) (w : World) : World :=
  match c with
  | .advanceWeather =>
    { w with weather := { w.weather with
        weatherType := Int.tmod (w.weather.weatherType + 1) 4 } }
  | .toggleUI => { w with showUI := !w.showUI }
  | .toggleDetailedStats => { w with showDetailedStats := !w.showDetailedStats }
  | .toggleIrrigation =>
    { w with farmStatus := { w.farmStatus with autoIrrigation := !w.farmStatus.autoIrrigation } }
  | .togglePestControl =>
    { w with farmStatus := { w.farmStatus with pestControl := !w.farmStatus.pestControl } }
  | .toggleFertilizer =>
    { w with farmStatus := { w.farmStatus with autoFertilizer := !w.farmStatus.autoFertilizer } }
  | .toggleHarvest =>
    { w with farmStatus := { w.farmStatus with autoHarvest := !w.farmStatus.autoHarvest } }
  | .toggleNightLighting =>
    { w with farmStatus := { w.farmStatus with nightLighting := !w.farmStatus.nightLighting } }
  | .toggleClimateControl =>
    { w with farmStatus := { w.farmStatus with climateControl := !w.farmStatus.climateControl } }
  | .setIrrigationIntensity k =>
    { w with farmStatus := { w.farmStatus with irrigationIntensity := (k.val : Int) + 1 } }
  | .cyclePlantingMode =>
    { w with farmStatus := { w.farmStatus with
        plantingMode := Int.tmod (w.farmStatus.plantingMode + 1) 3 } }
  | .cycleAutomationLevel =>
    { w with farmStatus := { w.farmStatus with
        automationLevel := Int.tmod w.farmStatus.automationLevel 3 + 1 } }

/-- One edge-triggered key block of `processInput`:
`if (key == PRESS && !latch) { command; latch = true; } if (key == RELEASE) latch = false;`
Returns the new world and the new value of the block's latch. -/
def keyBlock (key latch : Bool) (c : Command) (w : World) : World × Bool :=
  let r : World × Bool := if key && !latch then (c.apply w, true) else (w, latch)
  if !key then (r.1, false) else r

/-- The irrigation-intensity block: five `if`s in key order sharing `numKeyPressed`,
then the release test on all five keys. -/
def numBlock (k : Keys) (latch : Bool) (w : World) : World × Bool :=
  let r : World × Bool := (w, latch)
  let r := if k.k1 && !r.2 then ((Command.setIrrigationIntensity 0).apply r.1, true) else r
  let r := if k.k2 && !r.2 then ((Command.setIrrigationIntensity 1).apply r.1, true) else r
  let r := if k.k3 && !r.2 then ((Command.setIrrigationIntensity 2).apply r.1, true) else r
  let r := if k.k4 && !r.2 then ((Command.setIrrigationIntensity 3).apply r.1, true) else r
  let r := if k.k5 && !r.2 then ((Command.setIrrigationIntensity 4).apply r.1, true) else r
  if !k.k1 && !k.k2 && !k.k3 && !k.k4 && !k.k5 then (r.1, false) else r

/-- The farm-command part of `processInput` (weather key through automation-level
key, in source order); camera handling and the escape key are outside the core. -/
def processInput (k : Keys) (s : World × KeyLatch) : World × KeyLatch :=
  let w : World := s.1
  let latch : KeyLatch := s.2
  let r : World × Bool := keyBlock k.t latch.wKeyPressed Command.advanceWeather w
  let latch : KeyLatch := { latch with wKeyPressed := r.2 }
  let r : World × Bool := keyBlock k.i latch.iKeyPressed Command.toggleUI r.1
  let latch : KeyLatch := { latch with iKeyPressed := r.2 }
  let r : World × Bool := keyBlock k.h latch.hKeyPressed Command.toggleDetailedStats r.1
  let latch : KeyLatch := { latch with hKeyPressed := r.2 }
  let r : World × Bool := keyBlock k.f1 latch.f1KeyPressed Command.toggleIrrigation r.1
  let latch : KeyLatch := { latch with f1KeyPressed := r.2 }
  let r : World × Bool := keyBlock k.f2 latch.f2KeyPressed Command.togglePestControl r.1
  let latch : KeyLatch := { latch with f2KeyPressed := r.2 }
  let r : World × Bool := keyBlock k.f3 latch.f3KeyPressed Command.toggleFertilizer r.1
  let latch : KeyLatch := { latch with f3KeyPressed := r.2 }
  let r : World × Bool := keyBlock k.f4 latch.f4KeyPressed Command.toggleHarvest r.1
  let latch : KeyLatch := { latch with f4KeyPressed := r.2 }
  let r : World × Bool := keyBlock k.f5 latch.f5KeyPressed Command.toggleNightLighting r.1
  let latch : KeyLatch := { latch with f5KeyPressed := r.2 }
  let r : World × Bool := keyBlock k.f6 latch.f6KeyPressed Command.toggleClimateControl r.1
  let latch : KeyLatch := { latch with f6KeyPressed := r.2 }
  let r : World × Bool := numBlock k latch.numKeyPressed r.1
  let latch : KeyLatch := { latch with numKeyPressed := r.2 }
  let r : World × Bool := keyBlock k.m latch.mKeyPressed Command.cyclePlantingMode r.1
  let latch : KeyLatch := { latch with mKeyPressed := r.2 }
  let r : World × Bool := keyBlock k.l latch.lKeyPressed Command.cycleAutomationLevel r.1
  let latch : KeyLatch := { latch with lKeyPressed := r.2 }
  (r.1, latch)

/-- The key state in which exactly the key of command `c` is held. -/
def Command.keys (c : Command) : Keys :=
  match c with
  | .advanceWeather => { t := true }
  | .toggleUI => { i := true }
  | .toggleDetailedStats => { h := true }
  | .toggleIrrigation => { f1 := true }
  | .togglePestControl => { f2 := true }
  | .toggleFertilizer => { f3 := true }
  | .toggleHarvest => { f4 := true }
  | .toggleNightLighting => { f5 := true }
  | .toggleClimateControl => { f6 := true }
  | .setIrrigationIntensity k =>
    { k1 := decide (k.val = 0), k2 := decide (k.val = 1), k3 := decide (k.val = 2),
      k4 := decide (k.val = 3), k5 := decide (k.val = 4) }
  | .cyclePlantingMode => { m := true }
  | .cycleAutomationLevel => { l := true }

/-- The four vectors computed by the first statements of `addCylinder`: the axis
`direction`, the up-reference chosen from `abs(direction.y) < 0.9f`, and the `right`
and `up` vectors of the ring. -/
structure CylinderFrame where
  direction : Vec3
  upRef : Vec3
  right : Vec3
  up : Vec3

/-- The frame statements of `addCylinder` on their own (same text as in
`addCylinder`). -/
def addCylinderFrame (m : Libm) (bottom top : Vec3) : CylinderFrame :=
  let direction := Vec3.normalize m (top - bottom)
  let up : Vec3 := if |direction.y| < 0.9 then ⟨0, 1, 0⟩ else ⟨1, 0, 0⟩
  let right := Vec3.normalize m (Vec3.cross direction up)
  let up2 := Vec3.normalize m (Vec3.cross right direction)
  { direction := direction
    upRef := up
    right := right
    up := up2 }

/-! ## Mesh generation: sensor network -/

theorem clamp_ge (v lo hi : ℚ) (h : lo ≤ hi) : lo ≤ clamp v lo hi := by
  unfold clamp
  split_ifs with h1 h2
  · exact le_refl lo
  · exact h
  · exact not_lt.mp h1

theorem clamp_le (v lo hi : ℚ) (h : lo ≤ hi) : clamp v lo hi ≤ hi := by
  unfold clamp
  split_ifs with h1 h2
  · exact h
  · exact le_refl hi
  · exact not_lt.mp h2

theorem clamp_mono (a b lo hi : ℚ) (hlh : lo ≤ hi) (h : a ≤ b) :
    clamp a lo hi ≤ clamp b lo hi := by
  unfold clamp
  split_ifs <;> linarith

theorem min_le_clamp (v lo hi : ℚ) : min v hi ≤ clamp v lo hi := by
  unfold clamp
  split_ifs with h1 h2
  · exact le_trans (min_le_left _ _) (le_of_lt h1)
  · exact min_le_right _ _
  · exact min_le_left _ _

/-- The squared test used by `Vec3.lengthLt` is the comparison of the Euclidean
length with the threshold. -/
theorem lengthLt_iff_sqrt (v : Vec3) (c : ℚ) (hc : 0 ≤ c) :
    Vec3.lengthLt v c = true ↔ Real.sqrt ((Vec3.dot v v : ℚ) : ℝ) < (c : ℝ) := by
  have hc2 : (0 : ℝ) ≤ (c : ℝ) := by exact_mod_cast hc
  have hd : (0 : ℚ) ≤ Vec3.dot v v := by
    unfold Vec3.dot
    nlinarith [mul_self_nonneg v.x, mul_self_nonneg v.y, mul_self_nonneg v.z]
  have hd2 : (0 : ℝ) ≤ ((Vec3.dot v v : ℚ) : ℝ) := by exact_mod_cast hd
  unfold Vec3.lengthLt
  rw [decide_eq_true_iff, Real.sqrt_lt hd2 hc2, pow_two]
  constructor
  · intro h
    exact_mod_cast h
  · intro h
    exact_mod_cast h

theorem length_flatMap_const {α β : Type} (f : α → List β) (k : Nat)
    (hf : ∀ a, (f a).length = k) (l : List α) : (l.flatMap f).length = k * l.length := by
  induction l with
  | nil => simp
  | cons a t ih =>
    rw [List.flatMap_cons, List.length_append, ih, hf, List.length_cons]
    ring

theorem Vec3.add_def (a b : Vec3) : a + b = ⟨a.x + b.x, a.y + b.y, a.z + b.z⟩ := rfl

theorem Vec3.sub_def (a b : Vec3) : a - b = ⟨a.x - b.x, a.y - b.y, a.z - b.z⟩ := rfl

/-! ## Projections of the simulation step -/

theorem updateSensors_weather (m : Libm) (rnd : Nat → SensorDraws) (w : World) :
    (updateSensors m rnd w).weather = w.weather ∧
    (updateSensors m rnd w).windStrength = w.windStrength ∧
    (updateSensors m rnd w).plants = w.plants := by
  unfold updateSensors
  split_ifs <;> exact ⟨rfl, rfl, rfl⟩

theorem updateWeather_weatherType (m : Libm) (w : World) :
    (updateWeather m w).weather.weatherType = w.weather.weatherType := by
  unfold updateWeather
  split_ifs <;> rfl

theorem updateFarmSimulation_weather (m : Libm) (rnd : Nat → SensorDraws) (deltaTime : ℚ)
    (w : World) :
    (updateFarmSimulation m rnd deltaTime w).weather =
      (updateWeather m { w with weatherTimer := w.weatherTimer + deltaTime }).weather ∧
    (updateFarmSimulation m rnd deltaTime w).windStrength =
      (updateWeather m { w with weatherTimer := w.weatherTimer + deltaTime }).windStrength := by
  unfold updateFarmSimulation
  simp only [updateLight, updatePlants]
  constructor
  · rw [(updateSensors_weather m rnd _).1]
    rfl
  · rw [(updateSensors_weather m rnd _).2.1]
    rfl

/-! ## C7: Bezier end points -/

/-- C7: for every path with at least four control points, `calculateBezierPoint(0)`
is `controlPoints[0]` and `calculateBezierPoint(1)` is `controlPoints[3]`. -/
theorem calculateBezierPoint_endpoints (path : BezierPath)
    (h : 4 ≤ path.controlPoints.length) :
    path.calculateBezierPoint 0 = path.controlPoints.get ⟨0, by omega⟩ ∧
    path.calculateBezierPoint 1 = path.controlPoints.get ⟨3, by omega⟩ := by
  obtain ⟨cps, col, wd, sg⟩ := path
  match cps, h with
  | p0 :: p1 :: p2 :: p3 :: rest, _ =>
    obtain ⟨x0, y0, z0⟩ := p0
    obtain ⟨x1, y1, z1⟩ := p1
    obtain ⟨x2, y2, z2⟩ := p2
    obtain ⟨x3, y3, z3⟩ := p3
    constructor
    · show BezierPath.calculateBezierPoint _ 0 = Vec3.mk x0 y0 z0
      simp only [BezierPath.calculateBezierPoint, Vec3.smul, Vec3.add_def]
      norm_num
    · show BezierPath.calculateBezierPoint _ 1 = Vec3.mk x3 y3 z3
      simp only [BezierPath.calculateBezierPoint, Vec3.smul, Vec3.add_def]
      norm_num

/-- The main road of `createBezierPaths`, used as a concrete four-point path. -/
def mainRoad : BezierPath :=
  { controlPoints := [⟨-20, 0.1, -20⟩, ⟨-5, 0.1, -25⟩, ⟨5, 0.1, -25⟩, ⟨20, 0.1, -20⟩]
    pathColor := ⟨0.4, 0.4, 0.4⟩
    pathWidth := 0.8
    segments := 30 }

theorem calculateBezierPoint_endpoints_witness :
    mainRoad.calculateBezierPoint 0 = mainRoad.controlPoints.get ⟨0, by decide⟩ ∧
    mainRoad.calculateBezierPoint 1 = mainRoad.controlPoints.get ⟨3, by decide⟩ :=
  calculateBezierPoint_endpoints mainRoad (by decide)

/-! ## C8: stormy weather bands -/

/-- C8: with `weatherType = 3` (Stormy), for every `systemTime` and every value of
the sine terms, one call of `updateFarmSimulation` leaves `windStrength` in
`[1.0, 2.3]` and `weather.precipitation` in `[0.7, 1.0]`; the call keeps
`weatherType = 3`, so the bands hold at every tick while Stormy is held. -/
theorem stormy_bands (m : Libm) (rnd : Nat → SensorDraws) (deltaTime : ℚ) (w : World)
    (h : w.weather.weatherType = 3) :
    (1.0 ≤ (updateFarmSimulation m rnd deltaTime w).windStrength ∧
      (updateFarmSimulation m rnd deltaTime w).windStrength ≤ 2.3) ∧
    (0.7 ≤ (updateFarmSimulation m rnd deltaTime w).weather.precipitation ∧
      (updateFarmSimulation m rnd deltaTime w).weather.precipitation ≤ 1.0) ∧
    (updateFarmSimulation m rnd deltaTime w).weather.weatherType = 3 := by
  obtain ⟨hw, hs⟩ := updateFarmSimulation_weather m rnd deltaTime w
  rw [hw, hs, updateWeather_weatherType]
  refine ⟨?_, ?_, h⟩
  · simp only [updateWeather, h]
    norm_num
    exact ⟨clamp_ge _ _ _ (by norm_num), clamp_le _ _ _ (by norm_num)⟩
  · simp only [updateWeather, h]
    norm_num
    exact ⟨clamp_ge _ _ _ (by norm_num), clamp_le _ _ _ (by norm_num)⟩

/-- A concrete `Libm` used at concrete inputs: low-order rational approximations
(`sin x ≈ x - x³/6`, `cos x ≈ 1 - x²/2`, one Newton step for `sqrt`). -/
def sampleLibm : Libm :=
  { sin := fun x => x - x * x * x / 6
    cos := fun x => 1 - x * x / 2
    sqrt := fun x => (x + 1) / 2 }

/-- Sensor-tick draws that are all zero. -/
def zeroDraws : Nat → SensorDraws := fun _ => ⟨0, 0, 0, 0, 0, 0, 0, 0⟩

/-- A world in which the operator has selected Stormy weather. -/
def stormWorld : World := { weather := { weatherType := 3 }, systemTime := 10 }

theorem stormy_bands_witness :
    stormWorld.weather.weatherType = 3 ∧
    (1.0 ≤ (updateFarmSimulation sampleLibm zeroDraws 0.016 stormWorld).windStrength ∧
      (updateFarmSimulation sampleLibm zeroDraws 0.016 stormWorld).windStrength ≤ 2.3) ∧
    (0.7 ≤ (updateFarmSimulation sampleLibm zeroDraws 0.016 stormWorld).weather.precipitation ∧
      (updateFarmSimulation sampleLibm zeroDraws 0.016 stormWorld).weather.precipitation ≤ 1.0) ∧
    (updateFarmSimulation sampleLibm zeroDraws 0.016 stormWorld).weather.weatherType = 3 :=
  ⟨rfl, stormy_bands sampleLibm zeroDraws 0.016 stormWorld rfl⟩

/-! ## C6: cylinder with coinciding end points -/

theorem addCylinder_vertices (m : Libm) (obj : RenderObject) (bottom top : Vec3) (radius : ℚ)
    (color : Vec3) (segments : Int) (material : ℚ) :
    ∃ ring : List Vertex,
      (addCylinder m obj bottom top radius color segments material).vertices =
        obj.vertices ++ ring ∧ ring.length = 2 * (segments + 1).toNat := by
  refine ⟨_, rfl, ?_⟩
  refine (length_flatMap_const _ 2 ?_ _).trans ?_
  · intro i
    rfl
  · rw [List.length_range]

theorem addCylinder_indices (m : Libm) (obj : RenderObject) (bottom top : Vec3) (radius : ℚ)
    (color : Vec3) (segments : Int) (material : ℚ) :
    ∃ faces : List Nat,
      (addCylinder m obj bottom top radius color segments material).indices =
        obj.indices ++ faces ∧ faces.length = 6 * segments.toNat := by
  refine ⟨_, rfl, ?_⟩
  refine (length_flatMap_const _ 6 ?_ _).trans ?_
  · intro i
    rfl
  · rw [List.length_range]

/-- C6 as stated fails: on an empty buffer, `addCylinder` with
`bottom = top = (0,0,0)` and 8 segments emits 18 vertices and 48 indices. -/
theorem addCylinder_degenerate_emits :
    (addCylinder sampleLibm {} ⟨0, 0, 0⟩ ⟨0, 0, 0⟩ 0.5 ⟨1, 1, 1⟩ 8 0).vertices.length = 18 ∧
    (addCylinder sampleLibm {} ⟨0, 0, 0⟩ ⟨0, 0, 0⟩ 0.5 ⟨1, 1, 1⟩ 8 0).indices.length = 48 ∧
    addCylinder sampleLibm {} ⟨0, 0, 0⟩ ⟨0, 0, 0⟩ 0.5 ⟨1, 1, 1⟩ 8 0 ≠ {} := by
  obtain ⟨ring, hv, hr⟩ :=
    addCylinder_vertices sampleLibm {} ⟨0, 0, 0⟩ ⟨0, 0, 0⟩ 0.5 ⟨1, 1, 1⟩ 8 0
  obtain ⟨faces, hi, hf⟩ :=
    addCylinder_indices sampleLibm {} ⟨0, 0, 0⟩ ⟨0, 0, 0⟩ 0.5 ⟨1, 1, 1⟩ 8 0
  have h1 : (addCylinder sampleLibm {} ⟨0, 0, 0⟩ ⟨0, 0, 0⟩ 0.5 ⟨1, 1, 1⟩ 8 0).vertices.length
      = 18 := by
    rw [hv, List.length_append, hr]
    rfl
  have h2 : (addCylinder sampleLibm {} ⟨0, 0, 0⟩ ⟨0, 0, 0⟩ 0.5 ⟨1, 1, 1⟩ 8 0).indices.length
      = 48 := by
    rw [hi, List.length_append, hf]
    rfl
  refine ⟨h1, h2, ?_⟩
  intro h
  rw [h] at h1
  exact absurd h1 (by decide)

/-- C6 (amended): `addCylinder` has no guard for `bottom = top`.  For `bottom = top = p`
and every segment count `n ≥ 0` it keeps the existing buffer content and appends
exactly `2 * (n + 1)` vertices and `6 * n` indices. -/
theorem addCylinder_degenerate_counts (m : Libm) (obj : RenderObject) (p : Vec3)
    (radius : ℚ) (color : Vec3) (n : Int) (material : ℚ) (hn : 0 ≤ n) :
    (∃ ring : List Vertex,
      (addCylinder m obj p p radius color n material).vertices = obj.vertices ++ ring ∧
      (ring.length : Int) = 2 * (n + 1)) ∧
    (∃ faces : List Nat,
      (addCylinder m obj p p radius color n material).indices = obj.indices ++ faces ∧
      (faces.length : Int) = 6 * n) := by
  obtain ⟨ring, hv, hr⟩ := addCylinder_vertices m obj p p radius color n material
  obtain ⟨faces, hi, hf⟩ := addCylinder_indices m obj p p radius color n material
  refine ⟨⟨ring, hv, ?_⟩, ⟨faces, hi, ?_⟩⟩
  · rw [hr]
    push_cast
    rw [Int.toNat_of_nonneg (by omega)]
  · rw [hf]
    push_cast
    rw [Int.toNat_of_nonneg hn]

theorem addCylinder_degenerate_counts_witness :
    (0 : Int) ≤ 8 ∧
    (∃ ring : List Vertex,
      (addCylinder sampleLibm {} ⟨0, 0, 0⟩ ⟨0, 0, 0⟩ 0.5 ⟨1, 1, 1⟩ 8 0).vertices =
        ({} : RenderObject).vertices ++ ring ∧
      (ring.length : Int) = 2 * (8 + 1)) ∧
    (∃ faces : List Nat,
      (addCylinder sampleLibm {} ⟨0, 0, 0⟩ ⟨0, 0, 0⟩ 0.5 ⟨1, 1, 1⟩ 8 0).indices =
        ({} : RenderObject).indices ++ faces ∧
      (faces.length : Int) = 6 * 8) :=
  ⟨by decide, addCylinder_degenerate_counts sampleLibm {} ⟨0, 0, 0⟩ 0.5 ⟨1, 1, 1⟩ 8 0 (by decide)⟩

/-! ## Sensor tick: what each stage touches -/

theorem applyIrrigation_soil (fs : FarmStatus) (s : SensorData) :
    (applyIrrigation fs s).2.soilMoisture =
      if fs.autoIrrigation = true ∧ s.soilMoisture < 40 then
        s.soilMoisture + (8 + (fs.irrigationIntensity : ℚ) * 5)
      else s.soilMoisture := by
  unfold applyIrrigation
  by_cases h1 : fs.autoIrrigation = true <;> by_cases h2 : s.soilMoisture < 40 <;>
    simp [h1, h2]

theorem applyIrrigation_other (fs : FarmStatus) (s : SensorData) :
    (applyIrrigation fs s).2.temperature = s.temperature ∧
    (applyIrrigation fs s).2.humidity = s.humidity ∧
    (applyIrrigation fs s).1.climateControl = fs.climateControl := by
  unfold applyIrrigation
  dsimp only
  split_ifs <;> exact ⟨rfl, rfl, rfl⟩

theorem applyFertilizer_other (fs : FarmStatus) (s : SensorData) :
    (applyFertilizer fs s).2.temperature = s.temperature ∧
    (applyFertilizer fs s).2.humidity = s.humidity ∧
    (applyFertilizer fs s).2.soilMoisture = s.soilMoisture ∧
    (applyFertilizer fs s).1.climateControl = fs.climateControl := by
  unfold applyFertilizer
  dsimp only
  split_ifs <;> exact ⟨rfl, rfl, rfl, rfl⟩

theorem applyClimate_soil (fs : FarmStatus) (s : SensorData) :
    (applyClimate fs s).soilMoisture = s.soilMoisture := by
  unfold applyClimate
  dsimp only
  split_ifs <;> rfl

theorem sensorTick_soil (weatherType : Int) (dayFactor : ℚ) (d : SensorDraws)
    (fs : FarmStatus) (s : SensorData) :
    (sensorTick weatherType dayFactor d fs s).2.soilMoisture =
      clamp (applyIrrigation fs (sensorDrift weatherType dayFactor d s)).2.soilMoisture
        15 85 := by
  simp only [sensorTick, sensorDisplay, sensorSettle]
  rw [applyClimate_soil, (applyFertilizer_other _ _).2.2.1]

theorem sensorDrift_soil (weatherType : Int) (dayFactor : ℚ) (d : SensorDraws)
    (s : SensorData) :
    (sensorDrift weatherType dayFactor d s).soilMoisture =
      s.soilMoisture + (if weatherType ≥ 2 then 10 else 0) + d.vSoil * 1.5 - dayFactor * 0.5 := by
  unfold sensorDrift
  by_cases h : weatherType ≥ 2 <;> simp [h]

/-! ## C5: irrigation boost -/

/-- C5 as stated fails at the scenario's own values: a sensor at `soilMoisture = 20`
with `autoIrrigation` on and `irrigationIntensity = 3`, a perturbation draw of `-0.5`
and day factor `0.5` ends the tick at `42`, an increase of `22 < 23` that no clamp
explains.  And a sensor at `39` with draw `0.9` and day factor `0.2` drifts to
`40.25`, is not irrigated at all and ends the tick there. -/
theorem irrigation_boost_fails :
    (sensorTick 0 0.5 ⟨0, 0, -0.5, 0, 0, 0, 0, 0⟩
        { autoIrrigation := true, irrigationIntensity := 3 }
        { soilMoisture := 20 }).2.soilMoisture = 42 ∧
    (42 : ℚ) < min (20 + (8 + 5 * 3)) 85 ∧
    (sensorTick 0 0.2 ⟨0, 0, 0.9, 0, 0, 0, 0, 0⟩
        { autoIrrigation := true, irrigationIntensity := 3 }
        { soilMoisture := 39 }).2.soilMoisture = 40.25 ∧
    (40.25 : ℚ) < min (39 + (8 + 5 * 3)) 85 := by
  refine ⟨?_, by norm_num, ?_, by norm_num⟩
  · rw [sensorTick_soil, applyIrrigation_soil, sensorDrift_soil]
    norm_num [clamp]
  · rw [sensorTick_soil, applyIrrigation_soil, sensorDrift_soil]
    norm_num [clamp]

/-- C5 (amended): the irrigation test reads the soil moisture after the tick's
drift (`+10` in rain, `+1.5 * draw`, `-0.5 * dayFactor`).  With `autoIrrigation` on,
intensity `k` in `1..5` and the drifted value below 40, the tick ends with
`soilMoisture = clamp(drifted + 8 + 5k, 15, 85)`: at most 85 and at least `8 + 5k`
above the drifted value up to the clamp; for a draw in `[-1, 1]` and a day factor
in `[0, 1]` that is at least `6 + 5k` above the pre-tick value up to the clamp. -/
theorem irrigation_boost (weatherType : Int) (dayFactor : ℚ) (d : SensorDraws)
    (fs : FarmStatus) (s : SensorData)
    (hauto : fs.autoIrrigation = true)
    (hk : 1 ≤ fs.irrigationIntensity ∧ fs.irrigationIntensity ≤ 5)
    (hdry : s.soilMoisture + (if weatherType ≥ 2 then 10 else 0) + d.vSoil * 1.5
      - dayFactor * 0.5 < 40) :
    (sensorTick weatherType dayFactor d fs s).2.soilMoisture =
      clamp (s.soilMoisture + (if weatherType ≥ 2 then 10 else 0) + d.vSoil * 1.5
        - dayFactor * 0.5 + (8 + 5 * (fs.irrigationIntensity : ℚ))) 15 85 ∧
    (sensorTick weatherType dayFactor d fs s).2.soilMoisture ≤ 85 ∧
    min (s.soilMoisture + (if weatherType ≥ 2 then 10 else 0) + d.vSoil * 1.5
        - dayFactor * 0.5 + (8 + 5 * (fs.irrigationIntensity : ℚ))) 85
      ≤ (sensorTick weatherType dayFactor d fs s).2.soilMoisture ∧
    ((-1 ≤ d.vSoil ∧ d.vSoil ≤ 1) → (0 ≤ dayFactor ∧ dayFactor ≤ 1) →
      min (s.soilMoisture + (6 + 5 * (fs.irrigationIntensity : ℚ))) 85
        ≤ (sensorTick weatherType dayFactor d fs s).2.soilMoisture) := by
  have hk1 : (1 : ℚ) ≤ (fs.irrigationIntensity : ℚ) := by exact_mod_cast hk.1
  have hsoil := sensorTick_soil weatherType dayFactor d fs s
  rw [applyIrrigation_soil, sensorDrift_soil, if_pos ⟨hauto, hdry⟩] at hsoil
  have heq : (sensorTick weatherType dayFactor d fs s).2.soilMoisture =
      clamp (s.soilMoisture + (if weatherType ≥ 2 then 10 else 0) + d.vSoil * 1.5
        - dayFactor * 0.5 + (8 + 5 * (fs.irrigationIntensity : ℚ))) 15 85 := by
    rw [hsoil]
    congr 1
    ring
  refine ⟨heq, ?_, ?_, ?_⟩
  · rw [heq]
    exact clamp_le _ _ _ (by norm_num)
  · rw [heq]
    exact min_le_clamp _ _ _
  · intro hv hd
    rw [heq]
    have hrain : (0 : ℚ) ≤ (if weatherType ≥ 2 then (10 : ℚ) else 0) := by
      split_ifs <;> norm_num
    refine le_trans (min_le_min_right 85 ?_) (min_le_clamp _ _ _)
    linarith [hv.1, hd.2]

theorem irrigation_boost_witness :
    (({ autoIrrigation := true, irrigationIntensity := 3 } : FarmStatus).autoIrrigation = true) ∧
    (sensorTick 0 (1 / 2) ⟨0, 0, 0, 0, 0, 0, 0, 0⟩
        { autoIrrigation := true, irrigationIntensity := 3 } { soilMoisture := 20 }).2.soilMoisture
      ≤ 85 :=
  ⟨rfl, (irrigation_boost 0 (1 / 2) ⟨0, 0, 0, 0, 0, 0, 0, 0⟩
    { autoIrrigation := true, irrigationIntensity := 3 } { soilMoisture := 20 } rfl
    ⟨by decide, by decide⟩ (by norm_num)).2.1⟩

/-! ## Plant tick: stage lemmas -/

theorem plantPest_fs (st : PlantStep) :
    (plantPest st).fs = st.fs ∧ (plantPest st).weatherEffect = st.weatherEffect ∧
    (plantPest st).plant.growthStage = st.plant.growthStage := by
  unfold plantPest
  split_ifs <;> exact ⟨rfl, rfl, rfl⟩

theorem plantPest_health (st : PlantStep) (h : 0.75 < st.plant.healthFactor) :
    0.75 < (plantPest st).plant.healthFactor := by
  unfold plantPest
  split_ifs
  · show (0.75 : ℚ) < min 1 (st.plant.healthFactor + 0.15)
    rw [lt_min_iff]
    constructor <;> linarith
  · exact h

theorem plantFertilize_fs (st : PlantStep) :
    (plantFertilize st).fs = st.fs ∧ (plantFertilize st).weatherEffect = st.weatherEffect := by
  unfold plantFertilize
  split_ifs <;> exact ⟨rfl, rfl⟩

theorem plantFertilize_mature (st : PlantStep) (hh : 0.75 < st.plant.healthFactor)
    (hg : 0.9 < st.plant.growthStage) :
    0.75 < (plantFertilize st).plant.healthFactor ∧
    0.9 < (plantFertilize st).plant.growthStage := by
  unfold plantFertilize
  split_ifs
  · constructor
    · show (0.75 : ℚ) < min 1 (st.plant.healthFactor + 0.005)
      rw [lt_min_iff]
      constructor <;> linarith
    · show (0.9 : ℚ) < min 1 (st.plant.growthStage + 0.002)
      rw [lt_min_iff]
      constructor <;> linarith
  · exact ⟨hh, hg⟩

theorem plantNight_fs (deltaTime : ℚ) (st : PlantStep) :
    (plantNight deltaTime st).fs = st.fs ∧
    (plantNight deltaTime st).plant.healthFactor = st.plant.healthFactor ∧
    (plantNight deltaTime st).weatherEffect =
      if st.fs.nightLighting = true then st.weatherEffect * 1.08 else st.weatherEffect := by
  unfold plantNight
  split_ifs <;> exact ⟨rfl, rfl, rfl⟩

theorem plantNight_growth (deltaTime : ℚ) (st : PlantStep) (hdt : 0 ≤ deltaTime)
    (hg : 0.9 < st.plant.growthStage) : 0.9 < (plantNight deltaTime st).plant.growthStage := by
  unfold plantNight
  split_ifs
  · show (0.9 : ℚ) < st.plant.growthStage + deltaTime * 0.001
    nlinarith
  · exact hg

theorem plantHarvest_fire (st : PlantStep) (ha : st.fs.autoHarvest = true)
    (hg : 0.9 < st.plant.growthStage) (hh : 0.75 < st.plant.healthFactor) :
    plantHarvest st =
      { st with
        fs := { st.fs with harvestYield := st.fs.harvestYield + 0.5 }
        plant := { st.plant with growthStage := 0.2, healthFactor := 0.8 } } := by
  unfold plantHarvest
  rw [if_pos]
  simp only [ha, Bool.true_and, Bool.and_eq_true, decide_eq_true_eq]
  exact ⟨hg, hh⟩

theorem plantClimate_fs (st : PlantStep) :
    (plantClimate st).fs = st.fs ∧
    (plantClimate st).plant.growthStage = st.plant.growthStage ∧
    (plantClimate st).weatherEffect =
      (if st.fs.climateControl = true then max st.weatherEffect 1.05 else st.weatherEffect) ∧
    (plantClimate st).plant.healthFactor =
      (if st.fs.climateControl = true then min 1 (st.plant.healthFactor + 0.0005)
        else st.plant.healthFactor) := by
  unfold plantClimate
  split_ifs <;> exact ⟨rfl, rfl, rfl, rfl⟩

theorem plantGrow_health (m : Libm) (deltaTime : ℚ) (st : PlantStep) :
    (plantGrow m deltaTime st).healthFactor =
      clamp (st.plant.healthFactor * st.weatherEffect) 0.4 1.0 := by
  unfold plantGrow
  dsimp only
  split_ifs <;> rfl

theorem plantGrow_growth (m : Libm) (deltaTime : ℚ) (st : PlantStep) :
    (plantGrow m deltaTime st).growthStage =
      clamp (st.plant.growthStage + deltaTime * 0.002 *
        clamp (st.plant.healthFactor * st.weatherEffect) 0.4 1.0) 0.0 1.0 := by
  unfold plantGrow
  dsimp only
  split_ifs <;> rfl

/-! ## C4: auto-harvest -/

/-- The harvest fires inside `plantEffects` for a mature, healthy plant: the state
handed to the final health scaling. -/
theorem plantEffects_mature (weatherType : Int) (deltaTime : ℚ) (fs : FarmStatus)
    (p : DetailedPlant) (ha : fs.autoHarvest = true) (hg : 0.9 < p.growthStage)
    (hh : 0.75 < p.healthFactor) (hdt : 0 ≤ deltaTime) :
    (plantEffects weatherType deltaTime fs p).fs.harvestYield = fs.harvestYield + 0.5 ∧
    (plantEffects weatherType deltaTime fs p).plant.growthStage = 0.2 ∧
    (plantEffects weatherType deltaTime fs p).plant.healthFactor =
      (if fs.climateControl = true then min 1 (0.8 + 0.0005) else 0.8) ∧
    (plantEffects weatherType deltaTime fs p).weatherEffect =
      (if fs.climateControl = true then
        max (if fs.nightLighting = true then weatherEffectOf weatherType * 1.08
          else weatherEffectOf weatherType) 1.05
       else (if fs.nightLighting = true then weatherEffectOf weatherType * 1.08
          else weatherEffectOf weatherType)) := by
  have e1 := plantPest_fs ⟨fs, weatherEffectOf weatherType, p⟩
  have h1 := plantPest_health ⟨fs, weatherEffectOf weatherType, p⟩ hh
  have e2 := plantFertilize_fs (plantPest ⟨fs, weatherEffectOf weatherType, p⟩)
  have h2 := plantFertilize_mature (plantPest ⟨fs, weatherEffectOf weatherType, p⟩) h1
    (by rw [e1.2.2]; exact hg)
  have e3 := plantNight_fs deltaTime
    (plantFertilize (plantPest ⟨fs, weatherEffectOf weatherType, p⟩))
  have h3 := plantNight_growth deltaTime
    (plantFertilize (plantPest ⟨fs, weatherEffectOf weatherType, p⟩)) hdt h2.2
  have hfs3 : (plantNight deltaTime
      (plantFertilize (plantPest ⟨fs, weatherEffectOf weatherType, p⟩))).fs = fs := by
    rw [e3.1, e2.1, e1.1]
  have e4 := plantHarvest_fire (plantNight deltaTime
    (plantFertilize (plantPest ⟨fs, weatherEffectOf weatherType, p⟩)))
    (by rw [hfs3]; exact ha) h3 (by rw [e3.2.1]; exact h2.1)
  have e5 := plantClimate_fs (plantHarvest (plantNight deltaTime
    (plantFertilize (plantPest ⟨fs, weatherEffectOf weatherType, p⟩))))
  unfold plantEffects
  rw [e5.1, e5.2.1, e5.2.2.1, e5.2.2.2, e4]
  simp only [hfs3, e3.2.2, e2.1, e2.2, e1.1, e1.2.1]
  exact ⟨trivial, trivial, trivial, trivial⟩

/-- C4 as stated fails: with only `autoHarvest` on, Sunny weather and a frame of
16 ms, the plant `growthStage = 0.95, healthFactor = 0.8` ends the tick with
`healthFactor = 0.808` and `growthStage = 0.200025856`, not `0.8` and `0.2`
(the yield does grow by `0.5`). -/
theorem harvest_tick_not_reset :
    (plantTick sampleLibm 0 0.016
        { autoHarvest := true, climateControl := false, autoIrrigation := false }
        { growthStage := 0.95, healthFactor := 0.8 }).2.healthFactor = 0.808 ∧
    (plantTick sampleLibm 0 0.016
        { autoHarvest := true, climateControl := false, autoIrrigation := false }
        { growthStage := 0.95, healthFactor := 0.8 }).2.growthStage = 0.200025856 ∧
    (plantTick sampleLibm 0 0.016
        { autoHarvest := true, climateControl := false, autoIrrigation := false }
        { growthStage := 0.95, healthFactor := 0.8 }).1.harvestYield = 0 + 0.5 ∧
    (0.808 : ℚ) ≠ 0.8 ∧ (0.200025856 : ℚ) ≠ 0.2 := by
  have h := plantEffects_mature 0 0.016
    { autoHarvest := true, climateControl := false, autoIrrigation := false }
    { growthStage := 0.95, healthFactor := 0.8 } rfl (by norm_num) (by norm_num) (by norm_num)
  refine ⟨?_, ?_, ?_, by norm_num, by norm_num⟩
  · show (plantGrow _ _ _).healthFactor = _
    rw [plantGrow_health, h.2.2.1, h.2.2.2]
    norm_num [weatherEffectOf, clamp]
  · show (plantGrow _ _ _).growthStage = _
    rw [plantGrow_growth, h.2.2.1, h.2.2.2, h.2.1]
    norm_num [weatherEffectOf, clamp]
  · exact h.1

/-- C4 (amended): with `autoHarvest` on, `deltaTime ≥ 0`, `growthStage > 0.9` and
`healthFactor > 0.75`, one plant tick adds exactly `0.5` to `harvestYield` and
resets the plant to `growthStage = 0.2`, `healthFactor = 0.8`; the rest of the same
tick then still applies to the reset values, so the tick ends with
`healthFactor = clamp(h0 * w, 0.4, 1)` and
`growthStage = clamp(0.2 + deltaTime * 0.002 * healthFactor, 0, 1)`, where `h0` is
`0.8` (`min(1, 0.8005)` under climate control) and `w` is the weather multiplier
(times `1.08` under night lighting, raised to at least `1.05` under climate control). -/
theorem harvest_tick (m : Libm) (weatherType : Int) (deltaTime : ℚ) (fs : FarmStatus)
    (p : DetailedPlant) (ha : fs.autoHarvest = true) (hg : 0.9 < p.growthStage)
    (hh : 0.75 < p.healthFactor) (hdt : 0 ≤ deltaTime) :
    (plantTick m weatherType deltaTime fs p).1.harvestYield = fs.harvestYield + 0.5 ∧
    (plantTick m weatherType deltaTime fs p).2.healthFactor =
      clamp ((if fs.climateControl = true then min 1 (0.8 + 0.0005) else 0.8) *
        (if fs.climateControl = true then
          max (if fs.nightLighting = true then weatherEffectOf weatherType * 1.08
            else weatherEffectOf weatherType) 1.05
         else (if fs.nightLighting = true then weatherEffectOf weatherType * 1.08
            else weatherEffectOf weatherType))) 0.4 1.0 ∧
    (plantTick m weatherType deltaTime fs p).2.growthStage =
      clamp (0.2 + deltaTime * 0.002 * (plantTick m weatherType deltaTime fs p).2.healthFactor)
        0.0 1.0 := by
  have h := plantEffects_mature weatherType deltaTime fs p ha hg hh hdt
  refine ⟨h.1, ?_, ?_⟩
  · show (plantGrow _ _ _).healthFactor = _
    rw [plantGrow_health, h.2.2.1, h.2.2.2]
  · show (plantGrow _ _ _).growthStage = clamp (_ + _ * _ * (plantGrow _ _ _).healthFactor) _ _
    rw [plantGrow_growth, plantGrow_health, h.2.1]

theorem harvest_tick_witness :
    (plantTick sampleLibm 0 0.016 { autoHarvest := true }
        { growthStage := 0.95, healthFactor := 0.8 }).1.harvestYield = 0 + 0.5 :=
  (harvest_tick sampleLibm 0 0.016 { autoHarvest := true }
    { growthStage := 0.95, healthFactor := 0.8 } rfl (by norm_num) (by norm_num)
    (by norm_num)).1

/-! ## Sensor ranges -/

/-- The clamp ranges of the eight sensor channels. -/
def SensorData.InRange (s : SensorData) : Prop :=
  (12 ≤ s.temperature ∧ s.temperature ≤ 40) ∧ (25 ≤ s.humidity ∧ s.humidity ≤ 95) ∧
  (15 ≤ s.soilMoisture ∧ s.soilMoisture ≤ 85) ∧ (5 ≤ s.pH ∧ s.pH ≤ 8.5) ∧
  (10 ≤ s.nitrogenLevel ∧ s.nitrogenLevel ≤ 90) ∧
  (10 ≤ s.phosphorusLevel ∧ s.phosphorusLevel ≤ 90) ∧
  (10 ≤ s.potassiumLevel ∧ s.potassiumLevel ≤ 90) ∧
  (100 ≤ s.lightLevel ∧ s.lightLevel ≤ 1400)

/-- The source channel of each of the seven visualisation heights. -/
def SensorData.channel (s : SensorData) : Fin 7 → ℚ
  | 0 => s.temperature
  | 1 => s.humidity
  | 2 => s.soilMoisture
  | 3 => s.pH
  | 4 => s.nitrogenLevel
  | 5 => s.phosphorusLevel
  | 6 => s.potassiumLevel

theorem sensorDrift_range (weatherType : Int) (dayFactor : ℚ) (d : SensorDraws)
    (s : SensorData) :
    (12 ≤ (sensorDrift weatherType dayFactor d s).temperature ∧
      (sensorDrift weatherType dayFactor d s).temperature ≤ 40) ∧
    (25 ≤ (sensorDrift weatherType dayFactor d s).humidity ∧
      (sensorDrift weatherType dayFactor d s).humidity ≤ 95) := by
  unfold sensorDrift
  dsimp only
  exact ⟨⟨clamp_ge _ _ _ (by norm_num), clamp_le _ _ _ (by norm_num)⟩,
    ⟨clamp_ge _ _ _ (by norm_num), clamp_le _ _ _ (by norm_num)⟩⟩

theorem applyClimate_range (fs : FarmStatus) (s : SensorData)
    (ht : 12 ≤ s.temperature ∧ s.temperature ≤ 40) (hh : 25 ≤ s.humidity ∧ s.humidity ≤ 95) :
    (12 ≤ (applyClimate fs s).temperature ∧ (applyClimate fs s).temperature ≤ 40) ∧
    (25 ≤ (applyClimate fs s).humidity ∧ (applyClimate fs s).humidity ≤ 95) := by
  unfold applyClimate
  dsimp only
  split_ifs <;> refine ⟨⟨?_, ?_⟩, ⟨?_, ?_⟩⟩ <;> dsimp only <;> linarith [ht.1, ht.2, hh.1, hh.2]

theorem sensorTick_channels (weatherType : Int) (dayFactor : ℚ) (d : SensorDraws)
    (fs : FarmStatus) (s : SensorData) :
    (sensorTick weatherType dayFactor d fs s).2.InRange := by
  have hd := sensorDrift_range weatherType dayFactor d s
  have hi := applyIrrigation_other fs (sensorDrift weatherType dayFactor d s)
  have hf := applyFertilizer_other (applyIrrigation fs (sensorDrift weatherType dayFactor d s)).1
    (applyIrrigation fs (sensorDrift weatherType dayFactor d s)).2
  have hc := applyClimate_range
    (applyFertilizer (applyIrrigation fs (sensorDrift weatherType dayFactor d s)).1
      (applyIrrigation fs (sensorDrift weatherType dayFactor d s)).2).1
    (applyFertilizer (applyIrrigation fs (sensorDrift weatherType dayFactor d s)).1
      (applyIrrigation fs (sensorDrift weatherType dayFactor d s)).2).2
    (by rw [hf.1, hi.1]; exact hd.1) (by rw [hf.2.1, hi.2.1]; exact hd.2)
  exact ⟨hc.1, hc.2,
    ⟨clamp_ge _ 15 85 (by norm_num), clamp_le _ 15 85 (by norm_num)⟩,
    ⟨clamp_ge _ 5 8.5 (by norm_num), clamp_le _ 5 8.5 (by norm_num)⟩,
    ⟨clamp_ge _ 10 90 (by norm_num), clamp_le _ 10 90 (by norm_num)⟩,
    ⟨clamp_ge _ 10 90 (by norm_num), clamp_le _ 10 90 (by norm_num)⟩,
    ⟨clamp_ge _ 10 90 (by norm_num), clamp_le _ 10 90 (by norm_num)⟩,
    ⟨clamp_ge _ 100 1400 (by norm_num), clamp_le _ 100 1400 (by norm_num)⟩⟩

theorem sensorTick_heights (weatherType : Int) (dayFactor : ℚ) (d : SensorDraws)
    (fs : FarmStatus) (s : SensorData) :
    (sensorTick weatherType dayFactor d fs s).2.dataHeight =
      tickHeights (sensorTick weatherType dayFactor d fs s).2 := rfl

theorem tickHeights_nonneg (s : SensorData) (h : s.InRange) (k : Fin 7) :
    0 ≤ tickHeights s k := by
  obtain ⟨⟨h1, -⟩, ⟨h2, -⟩, ⟨h3, -⟩, ⟨h4, -⟩, ⟨h5, -⟩, ⟨h6, -⟩, ⟨h7, -⟩, -⟩ := h
  fin_cases k <;> simp only [tickHeights] <;> norm_num at * <;> linarith

theorem tickHeights_mono (s t : SensorData) (k : Fin 7) (h : s.channel k ≤ t.channel k) :
    tickHeights s k ≤ tickHeights t k := by
  fin_cases k <;> simp only [tickHeights, SensorData.channel] at h ⊢ <;> norm_num at * <;>
    linarith

theorem initHeights_mono (s t : SensorData) (k : Fin 7) (h : s.channel k ≤ t.channel k) :
    initHeights s k ≤ initHeights t k := by
  fin_cases k <;> simp only [initHeights, SensorData.channel] at h ⊢ <;> norm_num at * <;>
    linarith

/-- Every sensor produced by the sensor loop is the result of one `sensorTick`, and
the loop keeps the number of sensors. -/
theorem sensorLoop_mem (weatherType : Int) (dayFactor : ℚ) (rnd : Nat → SensorDraws)
    (sensors : List SensorData) :
    ∀ (i : Nat) (fs : FarmStatus),
      ∀ r ∈ (sensorLoop weatherType dayFactor rnd i fs sensors).2,
        ∃ (d : SensorDraws) (fs0 : FarmStatus) (s : SensorData),
          s ∈ sensors ∧ r = (sensorTick weatherType dayFactor d fs0 s).2 := by
  induction sensors with
  | nil =>
    intro i fs r hr
    simp [sensorLoop] at hr
  | cons s rest ih =>
    intro i fs r hr
    simp only [sensorLoop, List.mem_cons] at hr
    rcases hr with hr | hr
    · exact ⟨rnd i, fs, s, List.mem_cons_self _ _, hr⟩
    · obtain ⟨d, fs0, s0, hs0, hr0⟩ := ih (i + 1) _ r hr
      exact ⟨d, fs0, s0, List.mem_cons_of_mem _ hs0, hr0⟩

/-- The `sensors` vector after `updateFarmSimulation`: the sensor loop ran if more
than two seconds passed since `lastSensorUpdate`, otherwise nothing changed. -/
theorem updateFarmSimulation_sensors (m : Libm) (rnd : Nat → SensorDraws) (deltaTime : ℚ)
    (w : World) :
    (updateFarmSimulation m rnd deltaTime w).sensors =
      if w.systemTime - w.lastSensorUpdate > 2 then
        (sensorLoop w.weather.weatherType
          ((m.sin ((updateDayNight deltaTime w).dayNightCycle * 2 * 3.14159) + 1) * 0.5)
          rnd 0 w.farmStatus w.sensors).2
      else w.sensors := by
  simp only [updateFarmSimulation, updateLight, updatePlants, updateSensors, updateWind,
    updateDayNight, updateWeather]
  split_ifs <;> rfl

/-! ## Sensor creation -/

/-- What scene generation guarantees for a fresh sensor: every channel is inside
its clamp range except that humidity may reach 100. -/
def SensorData.InRangeAtCreation (s : SensorData) : Prop :=
  (12 ≤ s.temperature ∧ s.temperature ≤ 40) ∧ (25 ≤ s.humidity ∧ s.humidity ≤ 100) ∧
  (15 ≤ s.soilMoisture ∧ s.soilMoisture ≤ 85) ∧ (5 ≤ s.pH ∧ s.pH ≤ 8.5) ∧
  (10 ≤ s.nitrogenLevel ∧ s.nitrogenLevel ≤ 90) ∧
  (10 ≤ s.phosphorusLevel ∧ s.phosphorusLevel ≤ 90) ∧
  (10 ≤ s.potassiumLevel ∧ s.potassiumLevel ≤ 90) ∧
  (100 ≤ s.lightLevel ∧ s.lightLevel ≤ 1400)

theorem mem_initializeAdvancedSensorNetwork (rnd : Nat → SensorInitDraws) (s : SensorData) :
    s ∈ initializeAdvancedSensorNetwork rnd ↔
      ∃ i, i < 5 ∧ ∃ j, j < 5 ∧ makeSensor i j (rnd (5 * i + j)) = s := by
  unfold initializeAdvancedSensorNetwork
  simp only [List.mem_flatMap, List.mem_map, List.mem_range]

theorem makeSensor_channels (i j : Nat) (d : SensorInitDraws) :
    (d.temperature ≤ (makeSensor i j d).temperature ∧
      (makeSensor i j d).temperature ≤ d.temperature + 4) ∧
    (d.humidity ≤ (makeSensor i j d).humidity ∧
      (makeSensor i j d).humidity ≤ d.humidity + 15) ∧
    (makeSensor i j d).soilMoisture = d.soilMoisture ∧
    (makeSensor i j d).pH = d.pH ∧
    (makeSensor i j d).nitrogenLevel = d.nitrogen ∧
    (makeSensor i j d).phosphorusLevel = d.phosphorus ∧
    (makeSensor i j d).potassiumLevel = d.potassium ∧
    (makeSensor i j d).lightLevel = d.lightLevel ∧
    (makeSensor i j d).dataHeight = initHeights (makeSensor i j d) := by
  unfold makeSensor
  dsimp only
  refine ⟨?_, ?_, rfl, rfl, rfl, rfl, rfl, rfl, rfl⟩
  · split_ifs <;> constructor <;> linarith
  · split_ifs <;> constructor <;> linarith

theorem makeSensor_atCreation (i j : Nat) (d : SensorInitDraws) (hd : d.Valid) :
    (makeSensor i j d).InRangeAtCreation := by
  obtain ⟨ht, hh, hs, hp, hn, hph, hk, hl, -⟩ := makeSensor_channels i j d
  obtain ⟨⟨a1, a2⟩, ⟨b1, b2⟩, ⟨c1, c2⟩, ⟨l1, l2⟩, ⟨p1, p2⟩, ⟨n1, n2⟩, ⟨q1, q2⟩, ⟨k1, k2⟩⟩ := hd
  unfold SensorData.InRangeAtCreation
  rw [hs, hp, hn, hph, hk, hl]
  norm_num at *
  refine ⟨⟨?_, ?_⟩, ⟨?_, ?_⟩, ⟨?_, ?_⟩, ⟨?_, ?_⟩, ⟨?_, ?_⟩, ⟨?_, ?_⟩, ⟨?_, ?_⟩, ⟨?_, ?_⟩⟩ <;>
    linarith [ht.1, ht.2, hh.1, hh.2]

theorem initHeights_nonneg (s : SensorData) (h : s.InRangeAtCreation)
    (ht : 15 ≤ s.temperature) (k : Fin 7) : 0 ≤ initHeights s k := by
  obtain ⟨-, ⟨h2, -⟩, ⟨h3, -⟩, ⟨h4, -⟩, ⟨h5, -⟩, ⟨h6, -⟩, ⟨h7, -⟩, -⟩ := h
  fin_cases k <;> simp only [initHeights] <;> norm_num at * <;> linarith

/-! ## C2: channel ranges -/

/-- Creation draws inside every distribution's support, with humidity 84. -/
def humidDraws : SensorInitDraws := ⟨25, 84, 50, 800, 6.5, 50, 50, 50⟩

theorem humidDraws_valid : humidDraws.Valid := by
  norm_num [SensorInitDraws.Valid, humidDraws]

/-- C2 as stated fails right after scene generation: grid cell `(0, 1)` lies in the
greenhouse zone, so a humidity draw of 84 (inside `humidDis`'s `[40, 85]`) becomes
`99 > 95`. -/
theorem creation_humidity_exceeds_clamp :
    humidDraws.Valid ∧
    makeSensor 0 1 humidDraws ∈ initializeAdvancedSensorNetwork (fun _ => humidDraws) ∧
    (makeSensor 0 1 humidDraws).humidity = 99 ∧
    ¬ (makeSensor 0 1 humidDraws).InRange := by
  have hh : (makeSensor 0 1 humidDraws).humidity = 99 := by
    norm_num [makeSensor, humidDraws, abs_lt]
  refine ⟨humidDraws_valid, ?_, hh, ?_⟩
  · rw [mem_initializeAdvancedSensorNetwork]
    exact ⟨0, by decide, 1, by decide, rfl⟩
  · intro h
    have := h.2.1.2
    rw [hh] at this
    norm_num at this

/-- C2 (amended): after every sensor tick of `updateFarmSimulation` every channel of
every sensor lies in its clamp range, and a later call keeps that; right after scene
generation (for all draws the samplers can return) every channel lies in its clamp
range except humidity, which lies in `[25, 100]`. -/
theorem sensor_channels_in_range (m : Libm) (rnd : Nat → SensorDraws) (deltaTime : ℚ)
    (w : World) (srnd : Nat → SensorInitDraws) (hv : ∀ i, (srnd i).Valid) :
    (∀ s ∈ initializeAdvancedSensorNetwork srnd, s.InRangeAtCreation) ∧
    (w.systemTime - w.lastSensorUpdate > 2 →
      ∀ s ∈ (updateFarmSimulation m rnd deltaTime w).sensors, s.InRange) ∧
    ((∀ s ∈ w.sensors, s.InRange) →
      ∀ s ∈ (updateFarmSimulation m rnd deltaTime w).sensors, s.InRange) := by
  refine ⟨?_, ?_, ?_⟩
  · intro s hs
    obtain ⟨i, -, j, -, rfl⟩ := (mem_initializeAdvancedSensorNetwork srnd s).1 hs
    exact makeSensor_atCreation i j _ (hv _)
  · intro ht s hs
    rw [updateFarmSimulation_sensors, if_pos ht] at hs
    obtain ⟨d, fs0, s0, -, rfl⟩ := sensorLoop_mem _ _ _ _ _ _ s hs
    exact sensorTick_channels _ _ _ _ _
  · intro hw s hs
    rw [updateFarmSimulation_sensors] at hs
    split_ifs at hs
    · obtain ⟨d, fs0, s0, -, rfl⟩ := sensorLoop_mem _ _ _ _ _ _ s hs
      exact sensorTick_channels _ _ _ _ _
    · exact hw s hs

theorem sensor_channels_in_range_witness :
    humidDraws.Valid ∧ (makeSensor 0 1 humidDraws).InRangeAtCreation :=
  ⟨humidDraws_valid,
    (sensor_channels_in_range sampleLibm zeroDraws 0.016 {} (fun _ => humidDraws)
      (fun _ => humidDraws_valid)).1 _
      ((mem_initializeAdvancedSensorNetwork _ _).2 ⟨0, by decide, 1, by decide, rfl⟩)⟩

/-! ## C9: visualisation heights -/

/-- C9: right after scene generation (for all draws the samplers can return) and
after every sensor tick of `updateFarmSimulation`, each of the seven heights
`dataHeight[0..6]` is non-negative and is the creation (resp. tick) height map of
the sensor's channels; each height map is monotonically non-decreasing in its
source channel. -/
theorem dataHeight_nonneg_monotone (m : Libm) (rnd : Nat → SensorDraws) (deltaTime : ℚ)
    (w : World) (srnd : Nat → SensorInitDraws) (hv : ∀ i, (srnd i).Valid)
    (ht : w.systemTime - w.lastSensorUpdate > 2) :
    (∀ s ∈ initializeAdvancedSensorNetwork srnd,
      s.dataHeight = initHeights s ∧ ∀ k, 0 ≤ s.dataHeight k) ∧
    (∀ s ∈ (updateFarmSimulation m rnd deltaTime w).sensors,
      s.dataHeight = tickHeights s ∧ ∀ k, 0 ≤ s.dataHeight k) ∧
    (∀ (s t : SensorData) (k : Fin 7), s.channel k ≤ t.channel k →
      initHeights s k ≤ initHeights t k ∧ tickHeights s k ≤ tickHeights t k) := by
  refine ⟨?_, ?_, ?_⟩
  · intro s hs
    obtain ⟨i, -, j, -, rfl⟩ := (mem_initializeAdvancedSensorNetwork srnd s).1 hs
    have hc := makeSensor_channels i j (srnd (5 * i + j))
    refine ⟨hc.2.2.2.2.2.2.2.2, ?_⟩
    intro k
    rw [hc.2.2.2.2.2.2.2.2]
    refine initHeights_nonneg _ (makeSensor_atCreation i j _ (hv _)) ?_ k
    have h18 := (hv (5 * i + j)).1.1
    linarith [hc.1.1]
  · intro s hs
    rw [updateFarmSimulation_sensors, if_pos ht] at hs
    obtain ⟨d, fs0, s0, -, rfl⟩ := sensorLoop_mem _ _ _ _ _ _ s hs
    refine ⟨sensorTick_heights _ _ _ _ _, ?_⟩
    intro k
    rw [sensorTick_heights]
    exact tickHeights_nonneg _ (sensorTick_channels _ _ _ _ _) k
  · intro s t k h
    exact ⟨initHeights_mono s t k h, tickHeights_mono s t k h⟩

/-- A world whose sensors were just created and whose sensor tick is due. -/
def dueWorld : World :=
  { sensors := initializeAdvancedSensorNetwork (fun _ => humidDraws), systemTime := 3 }

theorem dataHeight_nonneg_monotone_witness :
    humidDraws.Valid ∧ dueWorld.systemTime - dueWorld.lastSensorUpdate > 2 ∧
    (makeSensor 0 1 humidDraws).dataHeight = initHeights (makeSensor 0 1 humidDraws) ∧
    0 ≤ (makeSensor 0 1 humidDraws).dataHeight 1 :=
  ⟨humidDraws_valid, by norm_num [dueWorld],
    ((dataHeight_nonneg_monotone sampleLibm zeroDraws 0.016 dueWorld (fun _ => humidDraws)
      (fun _ => humidDraws_valid) (by norm_num [dueWorld])).1 _
      ((mem_initializeAdvancedSensorNetwork _ _).2 ⟨0, by decide, 1, by decide, rfl⟩)).1,
    ((dataHeight_nonneg_monotone sampleLibm zeroDraws 0.016 dueWorld (fun _ => humidDraws)
      (fun _ => humidDraws_valid) (by norm_num [dueWorld])).1 _
      ((mem_initializeAdvancedSensorNetwork _ _).2 ⟨0, by decide, 1, by decide, rfl⟩)).2 1⟩

/-! ## Plant creation -/

theorem leafLayout_length (m : Libm) (p : DetailedPlant) :
    (leafLayout m p).1.length = p.leafCount.toNat ∧
    (leafLayout m p).2.length = p.leafCount.toNat := by
  unfold leafLayout
  simp only [List.length_map, List.length_range, and_self]

/-- The fields of a freshly made plant that the properties below read. -/
theorem makePlant_fields (m : Libm) (i : Nat) (d : PlantDraws) (position : Vec3) :
    (makePlant m i d position).position = position ∧
    (makePlant m i d position).growthStage = 0.6 + d.growth * 0.4 ∧
    (makePlant m i d position).healthFactor =
      (if d.pest % 100 < 5 then d.health * 0.7 else d.health) ∧
    0 ≤ (makePlant m i d position).leafCount ∧
    (makePlant m i d position).leafPositions.length =
      (makePlant m i d position).leafCount.toNat ∧
    (makePlant m i d position).leafSizes.length =
      (makePlant m i d position).leafCount.toNat := by
  unfold makePlant
  dsimp only
  split_ifs <;>
    refine ⟨rfl, rfl, rfl, ?_, (leafLayout_length m _).1, (leafLayout_length m _).2⟩ <;>
    dsimp only <;> omega

/-- Loop-invariant rule for the 300-step placement loop. -/
theorem initializeDetailedPlants_induction (m : Libm) (buildings : List Building)
    (sensors : List SensorData) (rnd : Nat → PlantDraws) (Inv : List DetailedPlant → Prop)
    (h0 : Inv [])
    (hstep : ∀ acc i, Inv acc → Inv (initPlantStep m buildings sensors rnd acc i)) :
    Inv (initializeDetailedPlants m buildings sensors rnd) := by
  unfold initializeDetailedPlants
  generalize List.range 300 = l
  have key : ∀ (l : List Nat) (acc : List DetailedPlant), Inv acc →
      Inv (l.foldl (initPlantStep m buildings sensors rnd) acc) := by
    intro l
    induction l with
    | nil => intro acc h; exact h
    | cons i t ih => intro acc h; exact ih _ (hstep acc i h)
  exact key l [] h0

/-- A property of single plants that every freshly made plant has holds for all
plants of the generated list. -/
theorem initializeDetailedPlants_forall (m : Libm) (buildings : List Building)
    (sensors : List SensorData) (rnd : Nat → PlantDraws) (P : DetailedPlant → Prop)
    (hP : ∀ i position, P (makePlant m i (rnd i) position)) :
    ∀ p ∈ initializeDetailedPlants m buildings sensors rnd, P p := by
  refine initializeDetailedPlants_induction m buildings sensors rnd (fun acc => ∀ p ∈ acc, P p)
    ?_ ?_
  · intro p hp
    simp at hp
  · intro acc i hacc p hp
    unfold initPlantStep at hp
    dsimp only at hp
    split_ifs at hp
    · rw [List.mem_append, List.mem_singleton] at hp
      rcases hp with hp | hp
      · exact hacc p hp
      · rw [hp]
        exact hP _ _
    · exact hacc p hp

/-! ## Plant loop of the simulation step -/

theorem plantLoop_mem (m : Libm) (weatherType : Int) (deltaTime : ℚ)
    (plants : List DetailedPlant) :
    ∀ (fs : FarmStatus), ∀ r ∈ (plantLoop m weatherType deltaTime fs plants).2,
      ∃ (fs0 : FarmStatus) (p : DetailedPlant),
        p ∈ plants ∧ r = (plantTick m weatherType deltaTime fs0 p).2 := by
  induction plants with
  | nil =>
    intro fs r hr
    simp [plantLoop] at hr
  | cons p rest ih =>
    intro fs r hr
    simp only [plantLoop, List.mem_cons] at hr
    rcases hr with hr | hr
    · exact ⟨fs, p, List.mem_cons_self _ _, hr⟩
    · obtain ⟨fs0, p0, hp0, hr0⟩ := ih _ r hr
      exact ⟨fs0, p0, List.mem_cons_of_mem _ hp0, hr0⟩

/-- Every plant after `updateFarmSimulation` is the result of one `plantTick` on a
plant of the previous state, under the weather type of the previous state. -/
theorem updateFarmSimulation_plants_mem (m : Libm) (rnd : Nat → SensorDraws) (deltaTime : ℚ)
    (w : World) :
    ∀ r ∈ (updateFarmSimulation m rnd deltaTime w).plants,
      ∃ (fs0 : FarmStatus) (p : DetailedPlant),
        p ∈ w.plants ∧ r = (plantTick m w.weather.weatherType deltaTime fs0 p).2 := by
  intro r hr
  simp only [updateFarmSimulation, updateLight, updatePlants] at hr
  rw [(updateSensors_weather m rnd _).1, (updateSensors_weather m rnd _).2.2] at hr
  have hwt : (updateWind m (updateDayNight deltaTime
      (updateWeather m { w with weatherTimer := w.weatherTimer + deltaTime }))).weather.weatherType
      = w.weather.weatherType := updateWeather_weatherType m _
  have hpl : (updateWind m (updateDayNight deltaTime
      (updateWeather m { w with weatherTimer := w.weatherTimer + deltaTime }))).plants
      = w.plants := by
    simp only [updateWind, updateDayNight, updateWeather]
    split_ifs <;> rfl
  rw [hwt, hpl] at hr
  exact plantLoop_mem m _ _ _ _ r hr

/-! ## Reachable states -/

/-- What may change between two frames from outside the simulation: the main loop
sets `systemTime`, operator commands set `weatherType`, and commands or the status
report may replace any part of `farmStatus` (toggles and tunables included). -/
def World.external (w : World) (fs : FarmStatus) (weatherType : Int) (systemTime : ℚ) :
    World :=
  { w with
    farmStatus := fs
    weather := { w.weather with weatherType := weatherType }
    systemTime := systemTime }

/-- States reachable from scene generation: the plants come from
`initializeDetailedPlants` (any draws inside the distributions' supports), then any
number of frames, each an external change followed by `updateFarmSimulation` with
`deltaTime ≥ 0` and `weatherType` in `0..3`. -/
inductive Reachable (m : Libm) : World → Prop
  | init (w : World) (prnd : Nat → PlantDraws) (hv : ∀ i, (prnd i).Valid)
      (hp : w.plants = initializeDetailedPlants m w.buildings w.sensors prnd) : Reachable m w
  | step (w : World) (fs : FarmStatus) (weatherType : Int) (systemTime deltaTime : ℚ)
      (rnd : Nat → SensorDraws) (hw : Reachable m w) (hdt : 0 ≤ deltaTime)
      (hwt : 0 ≤ weatherType ∧ weatherType ≤ 3) :
      Reachable m (updateFarmSimulation m rnd deltaTime (w.external fs weatherType systemTime))

/-- Plant draws inside every distribution's support: all attempts propose the
position `(k, -k)`, which walks away from the origin. -/
def walkDraws : Nat → PlantDraws := fun _ =>
  { pos := fun k => (min (k : ℚ) 18, -(min (k : ℚ) 18))
    plantType := 2
    health := 0.9
    phase := 1
    growth := 0.8
    height := 1.5
    pest := 3 }

theorem walkDraws_valid (i : Nat) : (walkDraws i).Valid := by
  unfold PlantDraws.Valid walkDraws
  dsimp only
  refine ⟨?_, by norm_num, by norm_num, by norm_num, by norm_num, by norm_num⟩
  intro k
  have h0 : (0 : ℚ) ≤ min (k : ℚ) 18 := le_min (Nat.cast_nonneg k) (by norm_num)
  have h1 : min (k : ℚ) 18 ≤ 18 := min_le_right _ _
  refine ⟨⟨?_, ?_⟩, ⟨?_, ?_⟩⟩ <;> linarith

/-- A freshly generated world (no buildings, no sensors). -/
def freshWorld : World := { plants := initializeDetailedPlants sampleLibm [] [] walkDraws }

theorem freshWorld_reachable : Reachable sampleLibm freshWorld :=
  Reachable.init freshWorld walkDraws walkDraws_valid (by simp only [freshWorld])

/-- The fresh world after one 16 ms frame. -/
def sampleWorld : World :=
  updateFarmSimulation sampleLibm zeroDraws 0.016 (freshWorld.external {} 0 1)

theorem sampleWorld_reachable : Reachable sampleLibm sampleWorld :=
  Reachable.step freshWorld {} 0 1 0.016 zeroDraws freshWorld_reachable (by norm_num)
    ⟨by decide, by decide⟩

/-! ## C1: health and growth bounds -/

theorem plantTick_bounds (m : Libm) (weatherType : Int) (deltaTime : ℚ) (fs : FarmStatus)
    (p : DetailedPlant) :
    (0.4 ≤ (plantTick m weatherType deltaTime fs p).2.healthFactor ∧
      (plantTick m weatherType deltaTime fs p).2.healthFactor ≤ 1.0) ∧
    (0.0 ≤ (plantTick m weatherType deltaTime fs p).2.growthStage ∧
      (plantTick m weatherType deltaTime fs p).2.growthStage ≤ 1.0) := by
  constructor
  · show _ ≤ (plantGrow _ _ _).healthFactor ∧ (plantGrow _ _ _).healthFactor ≤ _
    rw [plantGrow_health]
    exact ⟨clamp_ge _ _ _ (by norm_num), clamp_le _ _ _ (by norm_num)⟩
  · show _ ≤ (plantGrow _ _ _).growthStage ∧ (plantGrow _ _ _).growthStage ≤ _
    rw [plantGrow_growth]
    exact ⟨clamp_ge _ _ _ (by norm_num), clamp_le _ _ _ (by norm_num)⟩

theorem makePlant_bounds (m : Libm) (i : Nat) (d : PlantDraws) (position : Vec3)
    (hd : d.Valid) :
    (0.4 ≤ (makePlant m i d position).healthFactor ∧
      (makePlant m i d position).healthFactor ≤ 1.0) ∧
    (0.0 ≤ (makePlant m i d position).growthStage ∧
      (makePlant m i d position).growthStage ≤ 1.0) := by
  obtain ⟨-, hg, hh, -⟩ := makePlant_fields m i d position
  obtain ⟨-, -, ⟨h1, h2⟩, -, ⟨g1, g2⟩, -⟩ := hd
  rw [hg, hh]
  norm_num at *
  refine ⟨?_, ⟨?_, ?_⟩⟩
  · split_ifs <;> constructor <;> linarith
  · linarith
  · linarith

/-- C1: in every state reachable from scene generation by any number of simulation
steps (any `deltaTime ≥ 0`, any `weatherType` in `0..3`, any toggles), every plant
has `0.4 ≤ healthFactor ≤ 1.0` and `0.0 ≤ growthStage ≤ 1.0`. -/
theorem plant_bounds_invariant (m : Libm) (w : World) (hw : Reachable m w) :
    ∀ p ∈ w.plants, (0.4 ≤ p.healthFactor ∧ p.healthFactor ≤ 1.0) ∧
      (0.0 ≤ p.growthStage ∧ p.growthStage ≤ 1.0) := by
  cases hw with
  | init _ prnd hv hp =>
    rw [hp]
    exact initializeDetailedPlants_forall m _ _ prnd _
      (fun i position => makePlant_bounds m i (prnd i) position (hv i))
  | step w0 fs weatherType systemTime deltaTime rnd hw0 hdt hwt =>
    intro p hp
    obtain ⟨fs0, p0, -, rfl⟩ := updateFarmSimulation_plants_mem m rnd deltaTime _ p hp
    exact plantTick_bounds m _ _ _ _

theorem plant_bounds_invariant_witness :
    Reachable sampleLibm sampleWorld ∧
    ∀ p ∈ sampleWorld.plants, (0.4 ≤ p.healthFactor ∧ p.healthFactor ≤ 1.0) ∧
      (0.0 ≤ p.growthStage ∧ p.growthStage ≤ 1.0) :=
  ⟨sampleWorld_reachable, plant_bounds_invariant sampleLibm sampleWorld sampleWorld_reachable⟩

/-! ## C10: leaf layout -/

theorem plantEffects_leaf (weatherType : Int) (deltaTime : ℚ) (fs : FarmStatus)
    (p : DetailedPlant) :
    (plantEffects weatherType deltaTime fs p).plant.leafCount = p.leafCount ∧
    (plantEffects weatherType deltaTime fs p).plant.leafPositions = p.leafPositions ∧
    (plantEffects weatherType deltaTime fs p).plant.leafSizes = p.leafSizes := by
  have h1 : ∀ st : PlantStep, (plantPest st).plant.leafCount = st.plant.leafCount ∧
      (plantPest st).plant.leafPositions = st.plant.leafPositions ∧
      (plantPest st).plant.leafSizes = st.plant.leafSizes := by
    intro st
    unfold plantPest
    split_ifs <;> exact ⟨rfl, rfl, rfl⟩
  have h2 : ∀ st : PlantStep, (plantFertilize st).plant.leafCount = st.plant.leafCount ∧
      (plantFertilize st).plant.leafPositions = st.plant.leafPositions ∧
      (plantFertilize st).plant.leafSizes = st.plant.leafSizes := by
    intro st
    unfold plantFertilize
    split_ifs <;> exact ⟨rfl, rfl, rfl⟩
  have h3 : ∀ st : PlantStep,
      (plantNight deltaTime st).plant.leafCount = st.plant.leafCount ∧
      (plantNight deltaTime st).plant.leafPositions = st.plant.leafPositions ∧
      (plantNight deltaTime st).plant.leafSizes = st.plant.leafSizes := by
    intro st
    unfold plantNight
    split_ifs <;> exact ⟨rfl, rfl, rfl⟩
  have h4 : ∀ st : PlantStep, (plantHarvest st).plant.leafCount = st.plant.leafCount ∧
      (plantHarvest st).plant.leafPositions = st.plant.leafPositions ∧
      (plantHarvest st).plant.leafSizes = st.plant.leafSizes := by
    intro st
    unfold plantHarvest
    split_ifs <;> exact ⟨rfl, rfl, rfl⟩
  have h5 : ∀ st : PlantStep, (plantClimate st).plant.leafCount = st.plant.leafCount ∧
      (plantClimate st).plant.leafPositions = st.plant.leafPositions ∧
      (plantClimate st).plant.leafSizes = st.plant.leafSizes := by
    intro st
    unfold plantClimate
    split_ifs <;> exact ⟨rfl, rfl, rfl⟩
  unfold plantEffects
  refine ⟨?_, ?_, ?_⟩
  · rw [(h5 _).1, (h4 _).1, (h3 _).1, (h2 _).1, (h1 _).1]
  · rw [(h5 _).2.1, (h4 _).2.1, (h3 _).2.1, (h2 _).2.1, (h1 _).2.1]
  · rw [(h5 _).2.2, (h4 _).2.2, (h3 _).2.2, (h2 _).2.2, (h1 _).2.2]

theorem plantGrow_leaf (m : Libm) (deltaTime : ℚ) (st : PlantStep) :
    (plantGrow m deltaTime st).leafCount = st.plant.leafCount ∧
    ((st.plant.leafPositions.length : Int) = st.plant.leafCount →
      (plantGrow m deltaTime st).leafPositions = st.plant.leafPositions ∧
      (plantGrow m deltaTime st).leafSizes = st.plant.leafSizes) ∧
    ((st.plant.leafPositions.length : Int) ≠ st.plant.leafCount →
      (plantGrow m deltaTime st).leafPositions.length = st.plant.leafCount.toNat ∧
      (plantGrow m deltaTime st).leafSizes.length = st.plant.leafCount.toNat) := by
  unfold plantGrow
  dsimp only
  refine ⟨?_, ?_, ?_⟩
  · split_ifs <;> rfl
  · intro h
    rw [if_neg (not_not.mpr h)]
    split_ifs <;> exact ⟨rfl, rfl⟩
  · intro h
    rw [if_pos h]
    split_ifs <;> exact ⟨(leafLayout_length m _).1, (leafLayout_length m _).2⟩

/-- One plant tick keeps `leafCount`, keeps a matching layout, and rebuilds a
layout whose length differs from a non-negative `leafCount`. -/
theorem plantTick_leaf (m : Libm) (weatherType : Int) (deltaTime : ℚ) (fs : FarmStatus)
    (p : DetailedPlant) :
    (plantTick m weatherType deltaTime fs p).2.leafCount = p.leafCount ∧
    ((p.leafPositions.length : Int) = p.leafCount → (p.leafSizes.length : Int) = p.leafCount →
      ((plantTick m weatherType deltaTime fs p).2.leafPositions.length : Int) = p.leafCount ∧
      ((plantTick m weatherType deltaTime fs p).2.leafSizes.length : Int) = p.leafCount) ∧
    ((p.leafPositions.length : Int) ≠ p.leafCount → 0 ≤ p.leafCount →
      ((plantTick m weatherType deltaTime fs p).2.leafPositions.length : Int) = p.leafCount ∧
      ((plantTick m weatherType deltaTime fs p).2.leafSizes.length : Int) = p.leafCount) := by
  obtain ⟨e1, e2, e3⟩ := plantEffects_leaf weatherType deltaTime fs p
  obtain ⟨g1, g2, g3⟩ := plantGrow_leaf m deltaTime (plantEffects weatherType deltaTime fs p)
  rw [e1, e2] at g2 g3
  rw [e1] at g1
  rw [e3] at g2
  refine ⟨g1, ?_, ?_⟩
  · intro h1 h2
    show ((plantGrow _ _ _).leafPositions.length : Int) = _ ∧
      ((plantGrow _ _ _).leafSizes.length : Int) = _
    rw [(g2 h1).1, (g2 h1).2]
    exact ⟨h1, h2⟩
  · intro h1 h2
    show ((plantGrow _ _ _).leafPositions.length : Int) = _ ∧
      ((plantGrow _ _ _).leafSizes.length : Int) = _
    rw [(g3 h1).1, (g3 h1).2]
    exact ⟨Int.toNat_of_nonneg h2, Int.toNat_of_nonneg h2⟩

/-- C10: every plant created by `initializeDetailedPlants`, and every plant after
any number of later simulation steps, has `leafPositions.size() == leafCount` and
`leafSizes.size() == leafCount`; and a plant whose layout length differs from its
`leafCount ≥ 0` before a plant tick has both lengths equal to `leafCount` after it. -/
theorem leaf_layout_invariant (m : Libm) (w : World) (hw : Reachable m w)
    (weatherType : Int) (deltaTime : ℚ) (fs : FarmStatus) (p : DetailedPlant)
    (hc : 0 ≤ p.leafCount) (hne : (p.leafPositions.length : Int) ≠ p.leafCount) :
    (∀ q ∈ w.plants, (q.leafPositions.length : Int) = q.leafCount ∧
      (q.leafSizes.length : Int) = q.leafCount) ∧
    ((plantTick m weatherType deltaTime fs p).2.leafPositions.length : Int) =
      (plantTick m weatherType deltaTime fs p).2.leafCount ∧
    ((plantTick m weatherType deltaTime fs p).2.leafSizes.length : Int) =
      (plantTick m weatherType deltaTime fs p).2.leafCount ∧
    (plantTick m weatherType deltaTime fs p).2.leafCount = p.leafCount := by
  obtain ⟨t1, -, t3⟩ := plantTick_leaf m weatherType deltaTime fs p
  refine ⟨?_, ?_, ?_, t1⟩
  · clear t1 t3 hne hc
    induction hw with
    | init w0 prnd hv hp =>
      rw [hp]
      refine initializeDetailedPlants_forall m _ _ prnd _ ?_
      intro i position
      obtain ⟨-, -, -, h0, h1, h2⟩ := makePlant_fields m i (prnd i) position
      rw [h1, h2]
      exact ⟨Int.toNat_of_nonneg h0, Int.toNat_of_nonneg h0⟩
    | step w0 fs1 wt1 systemTime dt1 rnd hw0 hdt hwt ih =>
      intro q hq
      obtain ⟨fs0, p0, hp0, rfl⟩ := updateFarmSimulation_plants_mem m rnd dt1 _ q hq
      obtain ⟨k1, k2, -⟩ := plantTick_leaf m
        (w0.external fs1 wt1 systemTime).weather.weatherType dt1 fs0 p0
      rw [k1]
      exact k2 (ih p0 hp0).1 (ih p0 hp0).2
  · rw [t1]
    exact (t3 hne hc).1
  · rw [t1]
    exact (t3 hne hc).2

theorem leaf_layout_invariant_witness :
    Reachable sampleLibm sampleWorld ∧
    (0 : Int) ≤ ({} : DetailedPlant).leafCount ∧
    ((plantTick sampleLibm 0 0.016 {} {}).2.leafPositions.length : Int) =
      (plantTick sampleLibm 0 0.016 {} {}).2.leafCount :=
  ⟨sampleWorld_reachable, by decide,
    (leaf_layout_invariant sampleLibm sampleWorld sampleWorld_reachable 0 0.016 {} {}
      (by decide) (by decide)).2.1⟩

/-! ## C3: rejection sampling -/

/-- The Euclidean distance between `a` and `b` is at least `c`. -/
def Apart (c : ℚ) (a b : Vec3) : Prop :=
  (c : ℝ) ≤ Real.sqrt (((a.x - b.x) ^ 2 + (a.y - b.y) ^ 2 + (a.z - b.z) ^ 2 : ℚ) : ℝ)

/-- The horizontal (x, z) distance between `a` and `b` is at least `c`. -/
def HorizontallyApart (c : ℚ) (a b : Vec3) : Prop :=
  (c : ℝ) ≤ Real.sqrt (((a.x - b.x) ^ 2 + (a.z - b.z) ^ 2 : ℚ) : ℝ)

theorem apart_of_not_lengthLt (c : ℚ) (hc : 0 ≤ c) (a b : Vec3)
    (h : Vec3.lengthLt (a - b) c = false) : Apart c a b := by
  have h1 : ¬ (Vec3.lengthLt (a - b) c = true) := by
    rw [h]
    exact Bool.false_ne_true
  rw [lengthLt_iff_sqrt _ _ hc, not_lt] at h1
  unfold Apart
  have e : Vec3.dot (a - b) (a - b) = (a.x - b.x) ^ 2 + (a.y - b.y) ^ 2 + (a.z - b.z) ^ 2 := by
    rw [Vec3.sub_def]
    unfold Vec3.dot
    ring
  rw [← e]
  exact h1

theorem horizontallyApart_of_not_lengthLt (c : ℚ) (hc : 0 ≤ c) (a b : Vec3) (hy : a.y = 0)
    (h : Vec3.lengthLt (a - ⟨b.x, 0, b.z⟩) c = false) : HorizontallyApart c a b := by
  have h1 := apart_of_not_lengthLt c hc a ⟨b.x, 0, b.z⟩ h
  unfold Apart at h1
  unfold HorizontallyApart
  have e : (a.x - b.x) ^ 2 + (a.z - b.z) ^ 2 =
      (a.x - (Vec3.mk b.x 0 b.z).x) ^ 2 + (a.y - (Vec3.mk b.x 0 b.z).y) ^ 2 +
        (a.z - (Vec3.mk b.x 0 b.z).z) ^ 2 := by
    rw [hy]
    ring
  rw [e]
  exact h1

theorem apart_symm (c : ℚ) (a b : Vec3) (h : Apart c a b) : Apart c b a := by
  unfold Apart at h ⊢
  have e : (b.x - a.x) ^ 2 + (b.y - a.y) ^ 2 + (b.z - a.z) ^ 2 =
      (a.x - b.x) ^ 2 + (a.y - b.y) ^ 2 + (a.z - b.z) ^ 2 := by ring
  rw [e]
  exact h

theorem positionClear_iff (buildings : List Building) (sensors : List SensorData)
    (plants : List DetailedPlant) (p : Vec3) :
    positionClear buildings sensors plants p = true ↔
      (∀ b ∈ buildings, Vec3.lengthLt (p - ⟨b.position.x, 0, b.position.z⟩) 7 = false) ∧
      (∀ s ∈ sensors, Vec3.lengthLt (p - ⟨s.position.x, 0, s.position.z⟩) 2 = false) ∧
      (∀ o ∈ plants, Vec3.lengthLt (p - o.position) 1 = false) := by
  unfold positionClear
  simp only [Bool.and_eq_true, Bool.not_eq_true', List.any_eq_false, Bool.not_eq_true,
    and_assoc]

/-- When the placement loop reports success, the position it leaves in
`plant.position` passed all three overlap tests and lies on the ground plane. -/
theorem placeLoop_clear (buildings : List Building) (sensors : List SensorData)
    (plants : List DetailedPlant) (pos : Nat → ℚ × ℚ) :
    ∀ (fuel k : Nat) (cur : Vec3),
      (placeLoop buildings sensors plants pos fuel k cur).1 = true →
      positionClear buildings sensors plants
        (placeLoop buildings sensors plants pos fuel k cur).2 = true ∧
      (placeLoop buildings sensors plants pos fuel k cur).2.y = 0 := by
  intro fuel
  induction fuel with
  | zero =>
    intro k cur h
    simp [placeLoop] at h
  | succ n ih =>
    intro k cur h
    unfold placeLoop at h ⊢
    dsimp only at h ⊢
    by_cases hc : positionClear buildings sensors plants ⟨(pos k).1, 0, (pos k).2⟩ = true
    · rw [if_pos hc]
      exact ⟨hc, rfl⟩
    · rw [if_neg hc] at h ⊢
      exact ih _ _ h

/-- Loop invariant of the placement loop. -/
def PlacementInv (buildings : List Building) (sensors : List SensorData)
    (acc : List DetailedPlant) : Prop :=
  (∀ p ∈ acc, p.position.y = 0 ∧
    (∀ b ∈ buildings, HorizontallyApart 7 p.position b.position) ∧
    (∀ s ∈ sensors, HorizontallyApart 2 p.position s.position)) ∧
  acc.Pairwise (fun earlier later => Apart 1 later.position earlier.position)

theorem initPlantStep_inv (m : Libm) (buildings : List Building) (sensors : List SensorData)
    (rnd : Nat → PlantDraws) (acc : List DetailedPlant) (i : Nat)
    (h : PlacementInv buildings sensors acc) :
    PlacementInv buildings sensors (initPlantStep m buildings sensors rnd acc i) := by
  unfold initPlantStep
  dsimp only
  split_ifs with hv
  · obtain ⟨hclear, hy⟩ := placeLoop_clear buildings sensors acc (rnd i).pos 15 0 Vec3.zero hv
    obtain ⟨hb, hs, hp⟩ := (positionClear_iff _ _ _ _).1 hclear
    have hpos := (makePlant_fields m i (rnd i)
      (placeLoop buildings sensors acc (rnd i).pos 15 0 Vec3.zero).2).1
    constructor
    · intro p hp1
      rw [List.mem_append, List.mem_singleton] at hp1
      rcases hp1 with hp1 | hp1
      · exact h.1 p hp1
      · rw [hp1, hpos]
        refine ⟨hy, ?_, ?_⟩
        · intro b hbm
          exact horizontallyApart_of_not_lengthLt 7 (by norm_num) _ _ hy (hb b hbm)
        · intro s hsm
          exact horizontallyApart_of_not_lengthLt 2 (by norm_num) _ _ hy (hs s hsm)
    · rw [List.pairwise_append]
      refine ⟨h.2, List.pairwise_singleton _ _, ?_⟩
      intro a ha b hbm
      rw [List.mem_singleton] at hbm
      rw [hbm, hpos]
      exact apart_of_not_lengthLt 1 (by norm_num) _ _ (hp a ha)
  · exact h

/-- C3: for every sequence of random draws, every plant of the list produced by
`initializeDetailedPlants` has horizontal distance `≥ 7` from every building, horizontal
distance `≥ 2` from every sensor, and distance `≥ 1` from every plant accepted before
it; hence any two distinct accepted plants are at least 1 apart. -/
theorem placement_clearances (m : Libm) (buildings : List Building)
    (sensors : List SensorData) (rnd : Nat → PlantDraws) :
    (∀ p ∈ initializeDetailedPlants m buildings sensors rnd,
      (∀ b ∈ buildings, HorizontallyApart 7 p.position b.position) ∧
      (∀ s ∈ sensors, HorizontallyApart 2 p.position s.position)) ∧
    (initializeDetailedPlants m buildings sensors rnd).Pairwise
      (fun earlier later => Apart 1 later.position earlier.position) ∧
    (∀ i j : Fin (initializeDetailedPlants m buildings sensors rnd).length, i ≠ j →
      Apart 1 ((initializeDetailedPlants m buildings sensors rnd).get i).position
        ((initializeDetailedPlants m buildings sensors rnd).get j).position) := by
  have hinv : PlacementInv buildings sensors (initializeDetailedPlants m buildings sensors rnd) :=
    initializeDetailedPlants_induction m buildings sensors rnd (PlacementInv buildings sensors)
      ⟨fun p hp => absurd hp (List.not_mem_nil p), List.Pairwise.nil⟩
      (fun acc i h => initPlantStep_inv m buildings sensors rnd acc i h)
  refine ⟨fun p hp => (hinv.1 p hp).2, hinv.2, ?_⟩
  intro i j hij
  have hget := List.pairwise_iff_get.1 hinv.2
  rcases lt_or_gt_of_ne hij with hlt | hgt
  · exact apart_symm 1 _ _ (hget i j hlt)
  · exact hget j i hgt

/-! ## C11: fixed layout creation -/

/-- C11: for every prior content of the buildings and paths lists, calling
`createDetailedBuildings` (resp. `createBezierPaths`) twice yields the same list as
calling it once: the prior content is discarded, and the result has exactly 6
buildings resp. exactly 3 paths of 4 control points each. -/
theorem fixed_layout_idempotent (buildings : List Building) (paths : List BezierPath) :
    createDetailedBuildings (createDetailedBuildings buildings) =
      createDetailedBuildings buildings ∧
    createBezierPaths (createBezierPaths paths) = createBezierPaths paths ∧
    createDetailedBuildings buildings = createDetailedBuildings [] ∧
    createBezierPaths paths = createBezierPaths [] ∧
    (createDetailedBuildings buildings).length = 6 ∧
    (createBezierPaths paths).length = 3 ∧
    ∀ p ∈ createBezierPaths paths, p.controlPoints.length = 4 := by
  refine ⟨rfl, rfl, rfl, rfl, rfl, rfl, ?_⟩
  intro p hp
  simp only [createBezierPaths, List.nil_append, List.cons_append, List.mem_cons,
    List.mem_singleton, List.not_mem_nil, or_false] at hp
  rcases hp with rfl | rfl | rfl <;> rfl

/-! ## C12: status light -/

/-- Alert colour (red). -/
def statusRed : Vec3 := ⟨1.0, 0.2, 0.2⟩

/-- Warning colour (yellow). -/
def statusYellow : Vec3 := ⟨1.0, 0.8, 0.0⟩

/-- Normal colour (green). -/
def statusGreen : Vec3 := ⟨0.2, 1.0, 0.3⟩

/-- The hard thresholds, as the specification words them. -/
def SensorData.alertCondition (s : SensorData) : Prop :=
  s.temperature > 35 ∨ s.temperature < 15 ∨ s.humidity < 30 ∨ s.soilMoisture < 25 ∨
  s.pH < 5.8 ∨ s.pH > 7.8 ∨ s.nitrogenLevel < 30 ∨ s.phosphorusLevel < 20

/-- The soft thresholds, as the specification words them. -/
def SensorData.warningCondition (s : SensorData) : Prop :=
  s.temperature > 32 ∨ s.humidity < 40 ∨ s.soilMoisture < 35

theorem statusColors_distinct :
    statusRed ≠ statusYellow ∧ statusRed ≠ statusGreen ∧ statusYellow ≠ statusGreen := by
  unfold statusRed statusYellow statusGreen
  refine ⟨?_, ?_, ?_⟩ <;> intro h <;> rw [Vec3.mk.injEq] at h <;> norm_num at h

theorem tickStatusColor_cases (s : SensorData) :
    (s.alertCondition → tickStatusColor s = statusRed) ∧
    (¬ s.alertCondition → s.warningCondition → tickStatusColor s = statusYellow) ∧
    (¬ s.alertCondition → ¬ s.warningCondition → tickStatusColor s = statusGreen) := by
  unfold SensorData.alertCondition SensorData.warningCondition tickStatusColor
  dsimp only
  refine ⟨?_, ?_, ?_⟩
  · intro h
    rw [if_pos]
    · rfl
    · simp only [Bool.or_eq_true, decide_eq_true_eq]
      tauto
  · intro h1 h2
    rw [if_neg, if_pos]
    · rfl
    · simp only [Bool.or_eq_true, decide_eq_true_eq]
      tauto
    · simp only [Bool.or_eq_true, decide_eq_true_eq]
      tauto
  · intro h1 h2
    rw [if_neg, if_neg]
    · rfl
    · simp only [Bool.or_eq_true, decide_eq_true_eq]
      tauto
    · simp only [Bool.or_eq_true, decide_eq_true_eq]
      tauto

theorem tickStatusColor_iff (s : SensorData) :
    (tickStatusColor s = statusRed ↔ s.alertCondition) ∧
    (tickStatusColor s = statusYellow ↔ ¬ s.alertCondition ∧ s.warningCondition) ∧
    (tickStatusColor s = statusGreen ↔ ¬ s.alertCondition ∧ ¬ s.warningCondition) := by
  obtain ⟨c1, c2, c3⟩ := tickStatusColor_cases s
  obtain ⟨d1, d2, d3⟩ := statusColors_distinct
  by_cases ha : s.alertCondition
  · have e := c1 ha
    rw [e]
    exact ⟨⟨fun _ => ha, fun _ => rfl⟩, ⟨fun h => absurd h d1, fun h => absurd ha h.1⟩,
      ⟨fun h => absurd h d2, fun h => absurd ha h.1⟩⟩
  · by_cases hw : s.warningCondition
    · have e := c2 ha hw
      rw [e]
      exact ⟨⟨fun h => absurd h.symm d1, fun h => absurd h ha⟩,
        ⟨fun _ => ⟨ha, hw⟩, fun _ => rfl⟩, ⟨fun h => absurd h d3, fun h => absurd hw h.2⟩⟩
    · have e := c3 ha hw
      rw [e]
      exact ⟨⟨fun h => absurd h.symm d2, fun h => absurd h ha⟩,
        ⟨fun h => absurd h.symm d3, fun h => absurd h.2 hw⟩, ⟨fun _ => ⟨ha, hw⟩, fun _ => rfl⟩⟩

theorem sensorTick_statusColor (weatherType : Int) (dayFactor : ℚ) (d : SensorDraws)
    (fs : FarmStatus) (s : SensorData) :
    (sensorTick weatherType dayFactor d fs s).2.statusColor =
      tickStatusColor (sensorTick weatherType dayFactor d fs s).2 := rfl

/-- C12: after every sensor tick each sensor's status colour is red (Alert) iff a
hard threshold is breached, otherwise yellow (Warning) iff a soft threshold is
breached, otherwise green (Normal), all evaluated on the channel values the sensor
has at the end of the tick. -/
theorem sensor_status_rule (m : Libm) (rnd : Nat → SensorDraws) (deltaTime : ℚ) (w : World)
    (ht : w.systemTime - w.lastSensorUpdate > 2) :
    ∀ s ∈ (updateFarmSimulation m rnd deltaTime w).sensors,
      (s.statusColor = statusRed ↔ s.alertCondition) ∧
      (s.statusColor = statusYellow ↔ ¬ s.alertCondition ∧ s.warningCondition) ∧
      (s.statusColor = statusGreen ↔ ¬ s.alertCondition ∧ ¬ s.warningCondition) := by
  intro s hs
  rw [updateFarmSimulation_sensors, if_pos ht] at hs
  obtain ⟨d, fs0, s0, -, rfl⟩ := sensorLoop_mem _ _ _ _ _ _ s hs
  rw [sensorTick_statusColor]
  exact tickStatusColor_iff _

theorem sensor_status_rule_witness :
    dueWorld.systemTime - dueWorld.lastSensorUpdate > 2 ∧
    ∀ s ∈ (updateFarmSimulation sampleLibm zeroDraws 0.016 dueWorld).sensors,
      (s.statusColor = statusRed ↔ s.alertCondition) ∧
      (s.statusColor = statusYellow ↔ ¬ s.alertCondition ∧ s.warningCondition) ∧
      (s.statusColor = statusGreen ↔ ¬ s.alertCondition ∧ ¬ s.warningCondition) :=
  ⟨by norm_num [dueWorld],
    sensor_status_rule sampleLibm zeroDraws 0.016 dueWorld (by norm_num [dueWorld])⟩

/-! ## C13: box -/

/-- C13: for every centre, size (zero and negative components included), colour,
normal hint and material tag, `addDetailedCube` keeps the existing vertices and
indices and appends exactly 24 vertices and exactly 36 indices; all 24 new vertices
carry the given colour and material tag. -/
theorem addDetailedCube_counts (obj : RenderObject) (center size color normal : Vec3)
    (material : ℚ) :
    ∃ (verts : List Vertex) (idx : List Nat),
      (addDetailedCube obj center size color normal material).vertices =
        obj.vertices ++ verts ∧ verts.length = 24 ∧
      (addDetailedCube obj center size color normal material).indices =
        obj.indices ++ idx ∧ idx.length = 36 ∧
      ∀ v ∈ verts, v.r = color.x ∧ v.g = color.y ∧ v.b = color.z ∧
        v.materialType = material := by
  refine ⟨_, _, rfl, ?_, rfl, ?_, ?_⟩
  · refine (length_flatMap_const _ 4 ?_ _).trans ?_
    · intro face
      rw [List.length_map, List.length_range]
    · rw [List.length_range]
  · refine (length_flatMap_const _ 6 ?_ _).trans ?_
    · intro face
      rfl
    · rw [List.length_range]
  · intro v hv
    rw [List.mem_flatMap] at hv
    obtain ⟨face, -, hv⟩ := hv
    rw [List.mem_map] at hv
    obtain ⟨vertex, -, rfl⟩ := hv
    exact ⟨rfl, rfl, rfl, rfl⟩

/-! ## C14: cylinder side wall -/

/-- C14: for every segment count `n ≥ 3` and every `bottom ≠ top`, `addCylinder` keeps
the existing vertices and indices and appends exactly `2 * (n + 1)` vertices and
exactly `6 * n` indices (side wall only). -/
theorem addCylinder_counts (m : Libm) (obj : RenderObject) (bottom top : Vec3) (radius : ℚ)
    (color : Vec3) (n : Int) (material : ℚ) (hn : 3 ≤ n) (hne : bottom ≠ top) :
    (∃ ring : List Vertex,
      (addCylinder m obj bottom top radius color n material).vertices = obj.vertices ++ ring ∧
      (ring.length : Int) = 2 * (n + 1)) ∧
    (∃ faces : List Nat,
      (addCylinder m obj bottom top radius color n material).indices = obj.indices ++ faces ∧
      (faces.length : Int) = 6 * n) := by
  have _hdistinct := hne
  obtain ⟨ring, hv, hr⟩ := addCylinder_vertices m obj bottom top radius color n material
  obtain ⟨faces, hi, hf⟩ := addCylinder_indices m obj bottom top radius color n material
  refine ⟨⟨ring, hv, ?_⟩, ⟨faces, hi, ?_⟩⟩
  · rw [hr]
    push_cast
    rw [Int.toNat_of_nonneg (by omega)]
  · rw [hf]
    push_cast
    rw [Int.toNat_of_nonneg (by omega)]

theorem addCylinder_counts_witness :
    (3 : Int) ≤ 8 ∧ (⟨0, 0, 0⟩ : Vec3) ≠ ⟨0, 1, 0⟩ ∧
    (∃ ring : List Vertex,
      (addCylinder sampleLibm {} ⟨0, 0, 0⟩ ⟨0, 1, 0⟩ 0.5 ⟨1, 1, 1⟩ 8 0).vertices =
        ({} : RenderObject).vertices ++ ring ∧
      (ring.length : Int) = 2 * (8 + 1)) ∧
    (∃ faces : List Nat,
      (addCylinder sampleLibm {} ⟨0, 0, 0⟩ ⟨0, 1, 0⟩ 0.5 ⟨1, 1, 1⟩ 8 0).indices =
        ({} : RenderObject).indices ++ faces ∧
      (faces.length : Int) = 6 * 8) :=
  ⟨by decide, by decide,
    addCylinder_counts sampleLibm {} ⟨0, 0, 0⟩ ⟨0, 1, 0⟩ 0.5 ⟨1, 1, 1⟩ 8 0 (by decide)
      (by decide)⟩

/-! ## C15: leaf -/

theorem addDetailedLeaf_shape (m : Libm) (obj : RenderObject) (position direction : Vec3)
    (size : ℚ) (color : Vec3) (material : ℚ) :
    ∃ (verts : List Vertex) (idx : List Nat),
      (addDetailedLeaf m obj position direction size color material).vertices =
        obj.vertices ++ verts ∧ verts.length = 16 ∧
      (addDetailedLeaf m obj position direction size color material).indices =
        obj.indices ++ idx ∧ idx.length = 42 := by
  refine ⟨_, _, rfl, ?_, rfl, ?_⟩
  · rw [List.length_map]
    refine (length_flatMap_const _ 2 ?_ _).trans ?_
    · intro i
      rfl
    · rw [List.length_range]
  · refine (length_flatMap_const _ 6 ?_ _).trans ?_
    · intro i
      rfl
    · rw [List.length_range]

/-- C15 as stated fails: a leaf added to an empty buffer has 42 indices
(14 triangles), not 36 (12 triangles). -/
theorem addDetailedLeaf_not_36_indices :
    (addDetailedLeaf sampleLibm {} ⟨0, 0, 0⟩ ⟨1, 0, 0⟩ 0.2 ⟨0.2, 0.8, 0.1⟩ 1).indices.length
      = 42 ∧
    (addDetailedLeaf sampleLibm {} ⟨0, 0, 0⟩ ⟨1, 0, 0⟩ 0.2 ⟨0.2, 0.8, 0.1⟩ 1).indices.length
      ≠ 36 := by
  obtain ⟨verts, idx, -, -, hi, hl⟩ :=
    addDetailedLeaf_shape sampleLibm {} ⟨0, 0, 0⟩ ⟨1, 0, 0⟩ 0.2 ⟨0.2, 0.8, 0.1⟩ 1
  have h : (addDetailedLeaf sampleLibm {} ⟨0, 0, 0⟩ ⟨1, 0, 0⟩ 0.2
      ⟨0.2, 0.8, 0.1⟩ 1).indices.length = 42 := by
    rw [hi, List.length_append, hl]
    rfl
  refine ⟨h, ?_⟩
  rw [h]
  decide

/-- C15 (amended): for every position, direction, size, colour and material tag,
`addDetailedLeaf` keeps the existing buffer content and appends exactly 16 vertices
(8 cross-sections of 2 vertices) and exactly 42 indices, i.e. 14 triangles (7 quads
between the 8 cross-sections). -/
theorem addDetailedLeaf_counts (m : Libm) (obj : RenderObject) (position direction : Vec3)
    (size : ℚ) (color : Vec3) (material : ℚ) :
    ∃ (verts : List Vertex) (idx : List Nat),
      (addDetailedLeaf m obj position direction size color material).vertices =
        obj.vertices ++ verts ∧ verts.length = 16 ∧
      (addDetailedLeaf m obj position direction size color material).indices =
        obj.indices ++ idx ∧ idx.length = 3 * 14 :=
  addDetailedLeaf_shape m obj position direction size color material

/-! ## C16: short Bezier path -/

/-- C16: for every path with fewer than 4 control points and every mesh buffer,
`addBezierCurve` returns the buffer unchanged (vertex list and index list). -/
theorem addBezierCurve_short_noop (m : Libm) (obj : RenderObject) (path : BezierPath)
    (h : path.controlPoints.length < 4) :
    addBezierCurve m obj path = obj ∧
    (addBezierCurve m obj path).vertices = obj.vertices ∧
    (addBezierCurve m obj path).indices = obj.indices := by
  have e : addBezierCurve m obj path = obj := by
    unfold addBezierCurve
    rw [if_pos h]
  rw [e]
  exact ⟨rfl, rfl, rfl⟩

/-- A path with only three control points. -/
def shortPath : BezierPath :=
  { controlPoints := [⟨0, 0, 0⟩, ⟨1, 0, 1⟩, ⟨2, 0, 0⟩], segments := 10 }

theorem addBezierCurve_short_noop_witness :
    shortPath.controlPoints.length < 4 ∧
    addBezierCurve sampleLibm {} shortPath = {} :=
  ⟨by decide, (addBezierCurve_short_noop sampleLibm {} shortPath (by decide)).1⟩

/-! ## C17: day/night phase -/

theorem updateFarmSimulation_dayNightCycle (m : Libm) (rnd : Nat → SensorDraws)
    (deltaTime : ℚ) (w : World) :
    (updateFarmSimulation m rnd deltaTime w).dayNightCycle =
      if w.dayNightCycle + deltaTime / 90 > 1 then w.dayNightCycle + deltaTime / 90 - 1
      else w.dayNightCycle + deltaTime / 90 := by
  simp only [updateFarmSimulation, updateLight, updatePlants, updateSensors, updateWind,
    updateDayNight, updateWeather]
  split_ifs <;> rfl

/-- C17 as stated fails: from phase `0.5`, a frame of 180 s leaves the phase at
`1.5` (only one period is subtracted), and a frame of 45 s leaves it at exactly
`1` (the wrap tests `> 1`); neither lies in `[0, 1)`. -/
theorem dayNight_phase_escapes :
    (updateFarmSimulation sampleLibm zeroDraws 180 { dayNightCycle := 0.5 }).dayNightCycle
      = 1.5 ∧
    (updateFarmSimulation sampleLibm zeroDraws 45 { dayNightCycle := 0.5 }).dayNightCycle
      = 1 ∧
    ¬ ((1.5 : ℚ) < 1) ∧ ¬ ((1 : ℚ) < 1) := by
  refine ⟨?_, ?_, by norm_num, by norm_num⟩
  · rw [updateFarmSimulation_dayNightCycle]
    norm_num
  · rw [updateFarmSimulation_dayNightCycle]
    norm_num

/-- C17 (amended): for every `dayNightCycle` in `[0, 1)` and every `deltaTime` with
`0 ≤ deltaTime ≤ 90` (at most one period per frame) whose advanced phase
`dayNightCycle + deltaTime / 90` is not exactly `1`, the phase after the day/night
update of `updateFarmSimulation` is again in `[0, 1)`. -/
theorem dayNight_phase_invariant (m : Libm) (rnd : Nat → SensorDraws) (deltaTime : ℚ)
    (w : World) (h0 : 0 ≤ w.dayNightCycle) (h1 : w.dayNightCycle < 1)
    (hdt : 0 ≤ deltaTime) (hmax : deltaTime ≤ 90)
    (hne : w.dayNightCycle + deltaTime / 90 ≠ 1) :
    0 ≤ (updateFarmSimulation m rnd deltaTime w).dayNightCycle ∧
    (updateFarmSimulation m rnd deltaTime w).dayNightCycle < 1 := by
  rw [updateFarmSimulation_dayNightCycle]
  have hq0 : 0 ≤ deltaTime / 90 := div_nonneg hdt (by norm_num)
  have hq1 : deltaTime / 90 ≤ 1 := by
    rw [div_le_one (by norm_num)]
    exact hmax
  split_ifs with hgt
  · constructor <;> linarith
  · refine ⟨by linarith, ?_⟩
    exact lt_of_le_of_ne (not_lt.mp hgt) hne

theorem dayNight_phase_invariant_witness :
    (0 : ℚ) ≤ 0.016 ∧
    0 ≤ (updateFarmSimulation sampleLibm zeroDraws 0.016 { dayNightCycle := 0.5 }).dayNightCycle ∧
    (updateFarmSimulation sampleLibm zeroDraws 0.016 { dayNightCycle := 0.5 }).dayNightCycle < 1 :=
  ⟨by norm_num,
    dayNight_phase_invariant sampleLibm zeroDraws 0.016 { dayNightCycle := 0.5 }
      (by norm_num) (by norm_num) (by norm_num) (by norm_num) (by norm_num)⟩

/-! ## C18: simulation leaves the operator's settings alone -/

/-- The six automation toggles and the three tunables of `FarmStatus`. -/
def FarmStatus.controls (fs : FarmStatus) :
    (Bool × Bool × Bool × Bool × Bool × Bool) × (Int × Int × Int) :=
  ((fs.autoIrrigation, fs.pestControl, fs.autoFertilizer, fs.autoHarvest, fs.nightLighting,
      fs.climateControl),
    (fs.irrigationIntensity, fs.automationLevel, fs.plantingMode))

theorem sensorTick_controls (weatherType : Int) (dayFactor : ℚ) (d : SensorDraws)
    (fs : FarmStatus) (s : SensorData) :
    (sensorTick weatherType dayFactor d fs s).1.controls = fs.controls := by
  have h1 : ∀ (fs : FarmStatus) (s : SensorData),
      (applyIrrigation fs s).1.controls = fs.controls := by
    intro fs s
    unfold applyIrrigation
    dsimp only
    split_ifs <;> rfl
  have h2 : ∀ (fs : FarmStatus) (s : SensorData),
      (applyFertilizer fs s).1.controls = fs.controls := by
    intro fs s
    unfold applyFertilizer
    dsimp only
    split_ifs <;> rfl
  show (applyFertilizer _ _).1.controls = fs.controls
  rw [h2, h1]

theorem sensorLoop_controls (weatherType : Int) (dayFactor : ℚ) (rnd : Nat → SensorDraws)
    (sensors : List SensorData) :
    ∀ (i : Nat) (fs : FarmStatus),
      (sensorLoop weatherType dayFactor rnd i fs sensors).1.controls = fs.controls := by
  induction sensors with
  | nil =>
    intro i fs
    rfl
  | cons s rest ih =>
    intro i fs
    simp only [sensorLoop]
    rw [ih, sensorTick_controls]

theorem plantTick_controls (m : Libm) (weatherType : Int) (deltaTime : ℚ) (fs : FarmStatus)
    (p : DetailedPlant) :
    (plantTick m weatherType deltaTime fs p).1.controls = fs.controls := by
  have h4 : ∀ st : PlantStep, (plantHarvest st).fs.controls = st.fs.controls := by
    intro st
    unfold plantHarvest
    split_ifs <;> rfl
  show (plantClimate _).fs.controls = fs.controls
  rw [(plantClimate_fs _).1, h4, (plantNight_fs _ _).1, (plantFertilize_fs _).1,
    (plantPest_fs _).1]

theorem plantLoop_controls (m : Libm) (weatherType : Int) (deltaTime : ℚ)
    (plants : List DetailedPlant) :
    ∀ fs : FarmStatus,
      (plantLoop m weatherType deltaTime fs plants).1.controls = fs.controls := by
  induction plants with
  | nil =>
    intro fs
    rfl
  | cons p rest ih =>
    intro fs
    simp only [plantLoop]
    rw [ih, plantTick_controls]

theorem updateFarmSimulation_controls (m : Libm) (rnd : Nat → SensorDraws) (deltaTime : ℚ)
    (w : World) :
    (updateFarmSimulation m rnd deltaTime w).farmStatus.controls = w.farmStatus.controls := by
  have hs : ∀ w : World, (updateSensors m rnd w).farmStatus.controls = w.farmStatus.controls := by
    intro w
    unfold updateSensors
    split_ifs
    · exact sensorLoop_controls _ _ _ _ _ _
    · rfl
  have hw : ∀ w : World, (updateWeather m w).farmStatus = w.farmStatus := by
    intro w
    unfold updateWeather
    split_ifs <;> rfl
  show (plantLoop m _ deltaTime (updateSensors m rnd _).farmStatus _).1.controls = _
  rw [plantLoop_controls, hs]
  show (updateWeather m _).farmStatus.controls = _
  rw [hw]

theorem updateFarmStatus_frame (w : World) :
    (updateFarmStatus w).weather = w.weather ∧
    (updateFarmStatus w).farmStatus.controls = w.farmStatus.controls := by
  refine ⟨rfl, ?_⟩
  unfold updateFarmStatus FarmStatus.controls
  dsimp only
  split_ifs <;> rfl

/-- C18: for every state and `deltaTime`, neither `updateFarmSimulation` nor
`updateFarmStatus` changes `weather.weatherType`, any of the six automation toggles,
or the tunables `irrigationIntensity`, `automationLevel` and `plantingMode`. -/
theorem simulation_keeps_controls (m : Libm) (rnd : Nat → SensorDraws) (deltaTime : ℚ)
    (w : World) :
    ((updateFarmSimulation m rnd deltaTime w).weather.weatherType = w.weather.weatherType ∧
      (updateFarmSimulation m rnd deltaTime w).farmStatus.controls = w.farmStatus.controls) ∧
    ((updateFarmStatus w).weather.weatherType = w.weather.weatherType ∧
      (updateFarmStatus w).farmStatus.controls = w.farmStatus.controls) := by
  refine ⟨⟨?_, updateFarmSimulation_controls m rnd deltaTime w⟩, ⟨?_, (updateFarmStatus_frame w).2⟩⟩
  · rw [(updateFarmSimulation_weather m rnd deltaTime w).1, updateWeather_weatherType]
  · rw [(updateFarmStatus_frame w).1]

/-! ## C19: commands -/

/-- The latch `processInput` consults for command `c`. -/
def Command.latched (c : Command) (latch : KeyLatch) : Bool :=
  match c with
  | .advanceWeather => latch.wKeyPressed
  | .toggleUI => latch.iKeyPressed
  | .toggleDetailedStats => latch.hKeyPressed
  | .toggleIrrigation => latch.f1KeyPressed
  | .togglePestControl => latch.f2KeyPressed
  | .toggleFertilizer => latch.f3KeyPressed
  | .toggleHarvest => latch.f4KeyPressed
  | .toggleNightLighting => latch.f5KeyPressed
  | .toggleClimateControl => latch.f6KeyPressed
  | .setIrrigationIntensity _ => latch.numKeyPressed
  | .cyclePlantingMode => latch.mKeyPressed
  | .cycleAutomationLevel => latch.lKeyPressed

/-- The latch state after a `processInput` call in which only the key of `c` is
held: that key's latch is set, all others are cleared. -/
def Command.heldLatch (c : Command) : KeyLatch :=
  match c with
  | .advanceWeather => { wKeyPressed := true }
  | .toggleUI => { iKeyPressed := true }
  | .toggleDetailedStats => { hKeyPressed := true }
  | .toggleIrrigation => { f1KeyPressed := true }
  | .togglePestControl => { f2KeyPressed := true }
  | .toggleFertilizer => { f3KeyPressed := true }
  | .toggleHarvest => { f4KeyPressed := true }
  | .toggleNightLighting => { f5KeyPressed := true }
  | .toggleClimateControl => { f6KeyPressed := true }
  | .setIrrigationIntensity _ => { numKeyPressed := true }
  | .cyclePlantingMode => { mKeyPressed := true }
  | .cycleAutomationLevel => { lKeyPressed := true }

theorem keyBlock_released (latch : Bool) (c : Command) (w : World) :
    keyBlock false latch c w = (w, false) := by
  cases latch <;> rfl

theorem keyBlock_pressed (latch : Bool) (c : Command) (w : World) :
    keyBlock true latch c w = (if latch then w else c.apply w, true) := by
  cases latch <;> rfl

theorem numBlock_released (k : Keys) (latch : Bool) (w : World)
    (h : k.k1 = false ∧ k.k2 = false ∧ k.k3 = false ∧ k.k4 = false ∧ k.k5 = false) :
    numBlock k latch w = (w, false) := by
  obtain ⟨h1, h2, h3, h4, h5⟩ := h
  unfold numBlock
  rw [h1, h2, h3, h4, h5]
  cases latch <;> rfl

theorem numBlock_pressed (k : Fin 5) (latch : Bool) (w : World) :
    numBlock (Command.setIrrigationIntensity k).keys latch w =
      (if latch then w else (Command.setIrrigationIntensity k).apply w, true) := by
  fin_cases k <;> cases latch <;> rfl

/-- One `processInput` call in which only the key of command `c` is held: the
command is applied unless its latch is already set, and afterwards exactly that
latch is set. -/
theorem processInput_held (c : Command) (w : World) (latch : KeyLatch) :
    processInput c.keys (w, latch) =
      (if c.latched latch then w else c.apply w, c.heldLatch) := by
  cases c with
  | setIrrigationIntensity k =>
    unfold processInput
    dsimp only
    rw [numBlock_pressed]
    simp only [Command.keys, keyBlock_released]
    rfl
  | _ =>
    unfold processInput
    dsimp only
    rw [numBlock_released _ _ _ ⟨rfl, rfl, rfl, rfl, rfl⟩]
    simp only [Command.keys, keyBlock_released, keyBlock_pressed]
    rfl

/-- C20: the advance-weather command maps `0 → 1 → 2 → 3 → 0`; for every
`weatherType` in `0..3` the result stays in `0..3`, four consecutive advances return
to the starting `weatherType` (indeed to the starting state) while one, two or three
do not; a press of the weather key performs one advance. -/
theorem weather_cycle (w : World)
    (h : 0 ≤ w.weather.weatherType ∧ w.weather.weatherType ≤ 3) :
    ((w.weather.weatherType = 0 → (Command.advanceWeather.apply w).weather.weatherType = 1) ∧
      (w.weather.weatherType = 1 → (Command.advanceWeather.apply w).weather.weatherType = 2) ∧
      (w.weather.weatherType = 2 → (Command.advanceWeather.apply w).weather.weatherType = 3) ∧
      (w.weather.weatherType = 3 → (Command.advanceWeather.apply w).weather.weatherType = 0)) ∧
    (0 ≤ (Command.advanceWeather.apply w).weather.weatherType ∧
      (Command.advanceWeather.apply w).weather.weatherType ≤ 3) ∧
    Command.advanceWeather.apply (Command.advanceWeather.apply
      (Command.advanceWeather.apply (Command.advanceWeather.apply w))) = w ∧
    (Command.advanceWeather.apply w).weather.weatherType ≠ w.weather.weatherType ∧
    (Command.advanceWeather.apply (Command.advanceWeather.apply w)).weather.weatherType ≠
      w.weather.weatherType ∧
    (Command.advanceWeather.apply (Command.advanceWeather.apply
      (Command.advanceWeather.apply w))).weather.weatherType ≠ w.weather.weatherType ∧
    (processInput { t := true } (w, {})).1 = Command.advanceWeather.apply w := by
  have hp : (processInput { t := true } (w, {})).1 = Command.advanceWeather.apply w :=
    congrArg Prod.fst (processInput_held Command.advanceWeather w {})
  have hcases : w.weather.weatherType = 0 ∨ w.weather.weatherType = 1 ∨
      w.weather.weatherType = 2 ∨ w.weather.weatherType = 3 := by omega
  obtain ⟨weather, rest⟩ := w
  obtain ⟨t1, t2, t3, t4, t5, wt, t7, t8⟩ := weather
  simp only at hcases
  rcases hcases with rfl | rfl | rfl | rfl <;>
    refine ⟨⟨?_, ?_, ?_, ?_⟩, ⟨?_, ?_⟩, ?_, ?_, ?_, ?_, hp⟩ <;>
    simp [Command.apply, Int.tmod, Int.ofNat_eq_coe]

theorem weather_cycle_witness :
    (0 ≤ ({} : World).weather.weatherType ∧ ({} : World).weather.weatherType ≤ 3) ∧
    Command.advanceWeather.apply (Command.advanceWeather.apply
      (Command.advanceWeather.apply (Command.advanceWeather.apply {}))) = ({} : World) :=
  ⟨⟨by decide, by decide⟩, (weather_cycle {} ⟨by decide, by decide⟩).2.2.1⟩

/-! ## C21: resource levels -/

/-- Both resource levels are inside their bands. -/
def FarmStatus.LevelsOk (fs : FarmStatus) : Prop :=
  (0 ≤ fs.fertilizerLevel ∧ fs.fertilizerLevel ≤ 100) ∧
  (10 ≤ fs.waterTankLevel ∧ fs.waterTankLevel ≤ 100)

theorem applyIrrigation_levels (fs : FarmStatus) (s : SensorData) (h : fs.LevelsOk) :
    (applyIrrigation fs s).1.LevelsOk := by
  unfold applyIrrigation
  dsimp only
  split_ifs
  · exact ⟨h.1, clamp_ge _ _ _ (by norm_num), clamp_le _ _ _ (by norm_num)⟩
  · exact h

theorem applyFertilizer_levels (fs : FarmStatus) (s : SensorData) (h : fs.LevelsOk) :
    (applyFertilizer fs s).1.LevelsOk := by
  unfold applyFertilizer
  dsimp only
  split_ifs with h1 h2
  · simp only [Bool.and_eq_true, decide_eq_true_eq] at h1
    refine ⟨⟨?_, ?_⟩, h.2⟩
    · show (0 : ℚ) ≤ fs.fertilizerLevel - 0.5
      norm_num
      linarith [h1.2]
    · show fs.fertilizerLevel - 0.5 ≤ 100
      norm_num
      linarith [h.1.2]
  · exact h
  · exact h

theorem sensorLoop_levels (weatherType : Int) (dayFactor : ℚ) (rnd : Nat → SensorDraws)
    (sensors : List SensorData) :
    ∀ (i : Nat) (fs : FarmStatus), fs.LevelsOk →
      (sensorLoop weatherType dayFactor rnd i fs sensors).1.LevelsOk := by
  induction sensors with
  | nil =>
    intro i fs h
    exact h
  | cons s rest ih =>
    intro i fs h
    simp only [sensorLoop]
    apply ih
    show (applyFertilizer _ _).1.LevelsOk
    exact applyFertilizer_levels _ _ (applyIrrigation_levels _ _ h)

theorem plantTick_levels (m : Libm) (weatherType : Int) (deltaTime : ℚ) (fs : FarmStatus)
    (p : DetailedPlant) (h : fs.LevelsOk) :
    (plantTick m weatherType deltaTime fs p).1.LevelsOk := by
  have h4 : ∀ st : PlantStep, st.fs.LevelsOk → (plantHarvest st).fs.LevelsOk := by
    intro st hst
    unfold plantHarvest
    split_ifs
    · exact hst
    · exact hst
  show (plantClimate _).fs.LevelsOk
  rw [(plantClimate_fs _).1]
  apply h4
  rw [(plantNight_fs _ _).1, (plantFertilize_fs _).1, (plantPest_fs _).1]
  exact h

theorem plantLoop_levels (m : Libm) (weatherType : Int) (deltaTime : ℚ)
    (plants : List DetailedPlant) :
    ∀ fs : FarmStatus, fs.LevelsOk →
      (plantLoop m weatherType deltaTime fs plants).1.LevelsOk := by
  induction plants with
  | nil =>
    intro fs h
    exact h
  | cons p rest ih =>
    intro fs h
    simp only [plantLoop]
    exact ih _ (plantTick_levels m weatherType deltaTime fs p h)

theorem updateFarmSimulation_levels (m : Libm) (rnd : Nat → SensorDraws) (deltaTime : ℚ)
    (w : World) (h : w.farmStatus.LevelsOk) :
    (updateFarmSimulation m rnd deltaTime w).farmStatus.LevelsOk := by
  have hs : ∀ w : World, w.farmStatus.LevelsOk → (updateSensors m rnd w).farmStatus.LevelsOk := by
    intro w hw
    unfold updateSensors
    split_ifs
    · exact sensorLoop_levels _ _ _ _ _ _ hw
    · exact hw
  have hw : ∀ w : World, (updateWeather m w).farmStatus = w.farmStatus := by
    intro w
    unfold updateWeather
    split_ifs <;> rfl
  show (plantLoop m _ deltaTime (updateSensors m rnd _).farmStatus _).1.LevelsOk
  apply plantLoop_levels
  apply hs
  show (updateWeather m _).farmStatus.LevelsOk
  rw [hw]
  exact h

theorem updateFarmStatus_levels (w : World) (h : w.farmStatus.LevelsOk) :
    (updateFarmStatus w).farmStatus.LevelsOk := by
  have ht : (updateFarmStatus w).farmStatus.waterTankLevel = w.farmStatus.waterTankLevel := by
    unfold updateFarmStatus
    dsimp only
    split_ifs <;> rfl
  have hf : ∃ x, (updateFarmStatus w).farmStatus.fertilizerLevel = clamp x 0.0 100.0 :=
    ⟨_, rfl⟩
  obtain ⟨x, hx⟩ := hf
  unfold FarmStatus.LevelsOk
  rw [ht, hx]
  have h0 : (0 : ℚ) ≤ clamp x 0.0 100.0 :=
    le_trans (by norm_num) (clamp_ge x 0.0 100.0 (by norm_num))
  have h1 : clamp x 0.0 100.0 ≤ (100 : ℚ) :=
    le_trans (clamp_le x 0.0 100.0 (by norm_num)) (by norm_num)
  exact ⟨⟨h0, h1⟩, h.2⟩

theorem Command.apply_levels (c : Command) (w : World) :
    (c.apply w).farmStatus.fertilizerLevel = w.farmStatus.fertilizerLevel ∧
    (c.apply w).farmStatus.waterTankLevel = w.farmStatus.waterTankLevel := by
  cases c <;> exact ⟨rfl, rfl⟩

/-- Whatever every command preserves, a whole `processInput` call preserves. -/
theorem processInput_preserves (Q : World → Prop) (hQ : ∀ c w, Q w → Q (Command.apply c w))
    (k : Keys) (w : World) (latch : KeyLatch) (h : Q w) : Q (processInput k (w, latch)).1 := by
  have hkb : ∀ (key l : Bool) (c : Command) (w : World), Q w → Q (keyBlock key l c w).1 := by
    intro key l c w hw
    cases key <;> cases l <;> first | exact hw | exact hQ _ _ hw
  have hnum : ∀ (l : Bool) (w : World), Q w → Q (numBlock k l w).1 := by
    intro l w hw
    unfold numBlock
    dsimp only
    cases k.k1 <;> cases k.k2 <;> cases k.k3 <;> cases k.k4 <;> cases k.k5 <;> cases l <;>
      first
        | exact hw
        | exact hQ (Command.setIrrigationIntensity 0) _ hw
        | exact hQ (Command.setIrrigationIntensity 1) _ hw
        | exact hQ (Command.setIrrigationIntensity 2) _ hw
        | exact hQ (Command.setIrrigationIntensity 3) _ hw
        | exact hQ (Command.setIrrigationIntensity 4) _ hw
  unfold processInput
  dsimp only
  exact hkb _ _ _ _ (hkb _ _ _ _ (hnum _ _ (hkb _ _ _ _ (hkb _ _ _ _ (hkb _ _ _ _
    (hkb _ _ _ _ (hkb _ _ _ _ (hkb _ _ _ _ (hkb _ _ _ _ (hkb _ _ _ _
    (hkb _ _ _ _ h)))))))))))

/-- States reachable from an initial `FarmStatus` (fertilizer 75, water tank 75,
irrigation intensity in `1..5`; everything else arbitrary) by any interleaving of
simulation steps (the main loop sets `systemTime` first), status updates, single
commands and whole `processInput` calls. -/
inductive StatusReachable (m : Libm) : World → Prop
  | init (w : World) (hf : w.farmStatus.fertilizerLevel = 75)
      (ht : w.farmStatus.waterTankLevel = 75)
      (hk : 1 ≤ w.farmStatus.irrigationIntensity ∧ w.farmStatus.irrigationIntensity ≤ 5) :
      StatusReachable m w
  | simulate (w : World) (systemTime deltaTime : ℚ) (rnd : Nat → SensorDraws)
      (hw : StatusReachable m w) :
      StatusReachable m (updateFarmSimulation m rnd deltaTime { w with systemTime := systemTime })
  | status (w : World) (hw : StatusReachable m w) : StatusReachable m (updateFarmStatus w)
  | command (w : World) (c : Command) (hw : StatusReachable m w) :
      StatusReachable m (c.apply w)
  | input (w : World) (k : Keys) (latch : KeyLatch) (hw : StatusReachable m w) :
      StatusReachable m (processInput k (w, latch)).1

/-- C21: in every state reachable from the initial `FarmStatus` by any interleaving
of simulation steps, status updates and operator commands,
`0 ≤ fertilizerLevel ≤ 100` and `10 ≤ waterTankLevel ≤ 100`. -/
theorem resource_levels_invariant (m : Libm) (w : World) (hw : StatusReachable m w) :
    (0 ≤ w.farmStatus.fertilizerLevel ∧ w.farmStatus.fertilizerLevel ≤ 100) ∧
    (10 ≤ w.farmStatus.waterTankLevel ∧ w.farmStatus.waterTankLevel ≤ 100) := by
  have key : w.farmStatus.LevelsOk := by
    induction hw with
    | init w0 hf ht hk =>
      unfold FarmStatus.LevelsOk
      rw [hf, ht]
      norm_num
    | simulate w0 systemTime deltaTime rnd hw0 ih =>
      exact updateFarmSimulation_levels m rnd deltaTime _ ih
    | status w0 hw0 ih => exact updateFarmStatus_levels w0 ih
    | command w0 c hw0 ih =>
      unfold FarmStatus.LevelsOk
      rw [(Command.apply_levels c w0).1, (Command.apply_levels c w0).2]
      exact ih
    | input w0 k latch hw0 ih =>
      refine processInput_preserves (fun w => w.farmStatus.LevelsOk) ?_ k w0 latch ih
      intro c w1 h1
      unfold FarmStatus.LevelsOk
      rw [(Command.apply_levels c w1).1, (Command.apply_levels c w1).2]
      exact h1
  exact key

/-- A default world after a fertiliser toggle, a due simulation step and a status
update. -/
def busyWorld : World :=
  updateFarmStatus (updateFarmSimulation sampleLibm zeroDraws 0.016
    { Command.toggleFertilizer.apply dueWorld with systemTime := 5 })

theorem busyWorld_reachable : StatusReachable sampleLibm busyWorld :=
  StatusReachable.status _ (StatusReachable.simulate _ 5 0.016 zeroDraws
    (StatusReachable.command _ Command.toggleFertilizer
      (StatusReachable.init dueWorld rfl rfl ⟨by decide, by decide⟩)))

theorem resource_levels_invariant_witness :
    StatusReachable sampleLibm busyWorld ∧
    (0 ≤ busyWorld.farmStatus.fertilizerLevel ∧ busyWorld.farmStatus.fertilizerLevel ≤ 100) ∧
    (10 ≤ busyWorld.farmStatus.waterTankLevel ∧ busyWorld.farmStatus.waterTankLevel ≤ 100) :=
  ⟨busyWorld_reachable, resource_levels_invariant sampleLibm busyWorld busyWorld_reachable⟩

/-! ## C23: plant counts -/

/-- The plants the status update counts as healthy, as the specification words it. -/
def DetailedPlant.isHealthy (p : DetailedPlant) : Bool :=
  decide (p.healthFactor > 0.7) && !p.isPestInfected

theorem foldl_countPlant (plants : List DetailedPlant) :
    ∀ acc : PlantCounts,
      (plants.foldl countPlant acc).healthyPlants =
        acc.healthyPlants + (plants.countP DetailedPlant.isHealthy : Int) ∧
      (plants.foldl countPlant acc).sickPlants =
        acc.sickPlants + (plants.countP (fun p => !p.isHealthy) : Int) := by
  induction plants with
  | nil =>
    intro acc
    simp
  | cons p rest ih =>
    intro acc
    rw [List.foldl_cons, (ih _).1, (ih _).2]
    by_cases hh : p.isHealthy = true
    · have hc : (countPlant acc p).healthyPlants = acc.healthyPlants + 1 ∧
          (countPlant acc p).sickPlants = acc.sickPlants := by
        unfold DetailedPlant.isHealthy at hh
        simp only [Bool.and_eq_true, decide_eq_true_eq, Bool.not_eq_true'] at hh
        unfold countPlant
        by_cases h9 : p.healthFactor > 0.9
        · simp [h9, hh.2]
        · simp [h9, hh.1, hh.2]
      rw [hc.1, hc.2, List.countP_cons_of_pos _ _ hh, List.countP_cons_of_neg]
      · push_cast
        constructor <;> ring
      · simp [hh]
    · have hc : (countPlant acc p).healthyPlants = acc.healthyPlants ∧
          (countPlant acc p).sickPlants = acc.sickPlants + 1 := by
        unfold DetailedPlant.isHealthy at hh
        simp only [Bool.and_eq_true, decide_eq_true_eq, Bool.not_eq_true', not_and,
          Bool.not_eq_false] at hh
        unfold countPlant
        by_cases hi : p.isPestInfected = true
        · simp [hi]
        · have hi2 : p.isPestInfected = false := by simpa using hi
          have h7 : ¬ p.healthFactor > 0.7 := fun h => hi (hh h)
          have h9 : ¬ p.healthFactor > 0.9 := fun h => h7 (lt_trans (by norm_num) h)
          simp [h7, h9, hi2]
          split_ifs <;> exact ⟨rfl, rfl⟩
      rw [hc.1, hc.2, List.countP_cons_of_neg _ _ hh, List.countP_cons_of_pos]
      · push_cast
        constructor <;> ring
      · simp [hh]

theorem updateFarmStatus_counts (w : World) :
    (updateFarmStatus w).farmStatus.healthyPlants =
      (w.plants.foldl countPlant {}).healthyPlants ∧
    (updateFarmStatus w).farmStatus.sickPlants = (w.plants.foldl countPlant {}).sickPlants ∧
    (updateFarmStatus w).farmStatus.alertSensors =
      (w.sensors.foldl countSensor {}).alertSensors := by
  unfold updateFarmStatus
  dsimp only
  split_ifs <;> exact ⟨rfl, rfl, rfl⟩

/-- C23: after `updateFarmStatus`, `healthyPlants` is the number of plants with
`healthFactor > 0.7` that are not pest-infected, `sickPlants` the number of all other
plants, the two add up to `plants.size()`, and neither depends on the counts `a`, `b`
stored before the call. -/
theorem plant_counts (w : World) (a b : Int) :
    (updateFarmStatus w).farmStatus.healthyPlants =
      (w.plants.countP DetailedPlant.isHealthy : Int) ∧
    (updateFarmStatus w).farmStatus.sickPlants =
      (w.plants.countP (fun p => !p.isHealthy) : Int) ∧
    (updateFarmStatus w).farmStatus.healthyPlants + (updateFarmStatus w).farmStatus.sickPlants =
      (w.plants.length : Int) ∧
    (updateFarmStatus { w with farmStatus := { w.farmStatus with
        healthyPlants := a, sickPlants := b } }).farmStatus.healthyPlants =
      (updateFarmStatus w).farmStatus.healthyPlants ∧
    (updateFarmStatus { w with farmStatus := { w.farmStatus with
        healthyPlants := a, sickPlants := b } }).farmStatus.sickPlants =
      (updateFarmStatus w).farmStatus.sickPlants ∧
    (∀ p : DetailedPlant,
      p.isHealthy = true ↔ p.healthFactor > 0.7 ∧ p.isPestInfected = false) := by
  obtain ⟨h1, h2, -⟩ := updateFarmStatus_counts w
  obtain ⟨k1, k2, -⟩ := updateFarmStatus_counts
    { w with farmStatus := { w.farmStatus with healthyPlants := a, sickPlants := b } }
  obtain ⟨f1, f2⟩ := foldl_countPlant w.plants {}
  have e1 : (updateFarmStatus w).farmStatus.healthyPlants =
      (w.plants.countP DetailedPlant.isHealthy : Int) := by
    rw [h1, f1]
    show (0 : Int) + _ = _
    rw [zero_add]
  have e2 : (updateFarmStatus w).farmStatus.sickPlants =
      (w.plants.countP (fun p => !p.isHealthy) : Int) := by
    rw [h2, f2]
    show (0 : Int) + _ = _
    rw [zero_add]
  refine ⟨e1, e2, ?_, ?_, ?_, ?_⟩
  · have hsum : ∀ l : List DetailedPlant,
        l.countP DetailedPlant.isHealthy + l.countP (fun p => !p.isHealthy) = l.length := by
      intro l
      induction l with
      | nil => rfl
      | cons p t ih =>
        by_cases hp : p.isHealthy = true
        · rw [List.countP_cons_of_pos _ _ hp, List.countP_cons_of_neg _ _ (by simp [hp]),
            List.length_cons]
          omega
        · rw [List.countP_cons_of_neg _ _ hp, List.countP_cons_of_pos _ _ (by simp [hp]),
            List.length_cons]
          omega
    rw [e1, e2, ← hsum w.plants]
    push_cast
    rfl
  · rw [k1, h1]
  · rw [k2, h2]
  · intro p
    unfold DetailedPlant.isHealthy
    simp only [Bool.and_eq_true, decide_eq_true_eq, Bool.not_eq_true']

/-! ## C22: sensor status counts -/

/-- A sensor as one tick leaves it: soil moisture 29.75 (between the alert threshold
25 and the warning threshold 35), every other channel nominal. -/
def warnSensor : SensorData :=
  (sensorTick 0 0.5 ⟨0, 0, 0, 0, 0, 0, 0, 0⟩ { autoIrrigation := false }
    { soilMoisture := 30 }).2

theorem warnSensor_status :
    ¬ warnSensor.alertCondition ∧ warnSensor.warningCondition ∧
    warnSensor.statusColor = statusYellow := by
  have ha : ¬ warnSensor.alertCondition := by
    norm_num [warnSensor, SensorData.alertCondition, sensorTick, sensorDisplay, sensorSettle,
      applyClimate, applyFertilizer, applyIrrigation, sensorDrift, clamp]
  have hw : warnSensor.warningCondition := by
    norm_num [warnSensor, SensorData.warningCondition, sensorTick, sensorDisplay, sensorSettle,
      applyClimate, applyFertilizer, applyIrrigation, sensorDrift, clamp]
  refine ⟨ha, hw, ?_⟩
  have h := (tickStatusColor_iff warnSensor).2.1.2 ⟨ha, hw⟩
  exact h

/-- C22, the code at the failing input: a sensor the tick left in Warning status
(yellow, no hard threshold breached) is counted by `updateFarmStatus` in
`alertSensors`, and the Warning counter stays 0. -/
theorem warning_counted_as_alert :
    warnSensor.statusColor = statusYellow ∧ ¬ warnSensor.alertCondition ∧
    (updateFarmStatus { sensors := [warnSensor] }).farmStatus.alertSensors = 1 ∧
    (List.foldl countSensor {} [warnSensor]).warningeSensors = 0 ∧
    (List.foldl countSensor {} [warnSensor]).perfectSensors = 0 := by
  obtain ⟨ha, -, hc⟩ := warnSensor_status
  have hx : warnSensor.statusColor.x > 0.8 := by
    rw [hc]
    norm_num [statusYellow]
  have hfold : List.foldl countSensor {} [warnSensor] =
      { alertSensors := 1, totalTemp := 0 + warnSensor.temperature,
        totalHumid := 0 + warnSensor.humidity, totalSoil := 0 + warnSensor.soilMoisture } := by
    rw [List.foldl_cons, List.foldl_nil]
    unfold countSensor
    dsimp only
    rw [if_pos hx]
    rfl
  refine ⟨hc, ha, ?_, ?_, ?_⟩
  · rw [(updateFarmStatus_counts _).2.2]
    show (List.foldl countSensor {} [warnSensor]).alertSensors = 1
    rw [hfold]
  · rw [hfold]
  · rw [hfold]

/-! ## C25: greenhouse zone -/

/-- The point `p` lies within the axis-aligned (x, z) footprint of building `b`. -/
def Building.footprintContains (b : Building) (p : Vec3) : Prop :=
  |p.x - b.position.x| ≤ b.size.x / 2 ∧ |p.z - b.position.z| ≤ b.size.z / 2

/-- The point `p` lies within the footprint of greenhouse A or greenhouse B of the
building list. -/
def inGreenhouseFootprint (p : Vec3) : Prop :=
  ∃ b ∈ createDetailedBuildings [], (b.name = "温室A" ∨ b.name = "温室B") ∧
    b.footprintContains p

theorem inGreenhouseFootprint_iff (p : Vec3) :
    inGreenhouseFootprint p ↔
      (|p.x - 12| ≤ 4 ∧ |p.z - (-8)| ≤ 3) ∨ (|p.x - (-12)| ≤ 4 ∧ |p.z - (-8)| ≤ 3) := by
  unfold inGreenhouseFootprint createDetailedBuildings Building.footprintContains
  simp only [List.nil_append, List.cons_append, List.mem_cons, List.mem_singleton,
    List.not_mem_nil, or_false, exists_eq_or_imp, exists_eq_left]
  have n1 : ¬ ("控制中心" = "温室A" ∨ "控制中心" = "温室B") := by decide
  have n2 : ¬ ("仓储中心" = "温室A" ∨ "仓储中心" = "温室B") := by decide
  have n3 : ¬ ("工具房" = "温室A" ∨ "工具房" = "温室B") := by decide
  have n4 : ¬ ("水处理站" = "温室A" ∨ "水处理站" = "温室B") := by decide
  have y1 : ("温室A" = "温室A" ∨ "温室A" = "温室B") := Or.inl rfl
  have y2 : ("温室B" = "温室A" ∨ "温室B" = "温室B") := Or.inr rfl
  simp only [n1, n2, n3, n4, y1, y2, true_and, false_and, false_or, or_false]
  norm_num

theorem makeSensor_bonus (i j : Nat) (d : SensorInitDraws) :
    ((|(makeSensor i j d).position.x| > 6 ∧ |(makeSensor i j d).position.z| < 10) →
      (makeSensor i j d).temperature = d.temperature + 4 ∧
      (makeSensor i j d).humidity = d.humidity + 15) ∧
    (¬ (|(makeSensor i j d).position.x| > 6 ∧ |(makeSensor i j d).position.z| < 10) →
      (makeSensor i j d).temperature = d.temperature ∧
      (makeSensor i j d).humidity = d.humidity) := by
  unfold makeSensor
  dsimp only
  constructor
  · intro h
    rw [if_pos, if_pos]
    · exact ⟨rfl, rfl⟩
    · simp only [Bool.and_eq_true, decide_eq_true_eq]
      exact h
    · simp only [Bool.and_eq_true, decide_eq_true_eq]
      exact h
  · intro h
    rw [if_neg, if_neg]
    · exact ⟨rfl, rfl⟩
    · simp only [Bool.and_eq_true, decide_eq_true_eq]
      exact h
    · simp only [Bool.and_eq_true, decide_eq_true_eq]
      exact h

/-- C25 as stated fails: the sensor of grid cell `(0, 3)` stands at `(-13, 7)`, outside
both greenhouse footprints (`z` in `[-11, -5]`), and still receives the bonus. -/
theorem bonus_outside_footprint :
    (makeSensor 0 3 humidDraws).position = ⟨-13, 0.3, 7⟩ ∧
    ¬ inGreenhouseFootprint (makeSensor 0 3 humidDraws).position ∧
    (makeSensor 0 3 humidDraws).temperature = humidDraws.temperature + 4 ∧
    (makeSensor 0 3 humidDraws).humidity = humidDraws.humidity + 15 := by
  have hp : (makeSensor 0 3 humidDraws).position = ⟨-13, 0.3, 7⟩ := by
    norm_num [makeSensor]
  refine ⟨hp, ?_, ?_⟩
  · rw [inGreenhouseFootprint_iff, hp]
    norm_num [abs_le]
  · apply (makeSensor_bonus 0 3 humidDraws).1
    rw [hp]
    norm_num [abs_lt]

/-- C25 (amended): at sensor creation the greenhouse bonus (+4 temperature, +15
humidity) is applied if and only if the sensor's position satisfies `|x| > 6` and
`|z| < 10`, a test that does not read the building list.  Each of the 25 grid sensors
that lies within the footprint of greenhouse A or B passes that test and so receives
the bonus; sensors outside the footprints may receive it too. -/
theorem greenhouse_bonus_rule (i j : Nat) (d : SensorInitDraws) (hi : i < 5) (hj : j < 5) :
    ((|(makeSensor i j d).position.x| > 6 ∧ |(makeSensor i j d).position.z| < 10) →
      (makeSensor i j d).temperature = d.temperature + 4 ∧
      (makeSensor i j d).humidity = d.humidity + 15) ∧
    (¬ (|(makeSensor i j d).position.x| > 6 ∧ |(makeSensor i j d).position.z| < 10) →
      (makeSensor i j d).temperature = d.temperature ∧
      (makeSensor i j d).humidity = d.humidity) ∧
    (inGreenhouseFootprint (makeSensor i j d).position →
      |(makeSensor i j d).position.x| > 6 ∧ |(makeSensor i j d).position.z| < 10) := by
  refine ⟨(makeSensor_bonus i j d).1, (makeSensor_bonus i j d).2, ?_⟩
  rw [inGreenhouseFootprint_iff]
  have hp : (makeSensor i j d).position =
      ⟨((i : ℚ) - 2) * 7 + ((j % 2 : Nat) : ℚ) * 1, 0.3,
        ((j : ℚ) - 2) * 7 + ((i % 2 : Nat) : ℚ) * 1⟩ := rfl
  rw [hp]
  interval_cases i <;> interval_cases j <;> norm_num [abs_le, abs_lt, lt_abs]

theorem greenhouse_bonus_rule_witness :
    (0 < 5 ∧ 1 < 5) ∧
    (makeSensor 0 1 humidDraws).temperature = humidDraws.temperature + 4 ∧
    (makeSensor 0 1 humidDraws).humidity = humidDraws.humidity + 15 :=
  ⟨⟨by decide, by decide⟩,
    (greenhouse_bonus_rule 0 1 humidDraws (by decide) (by decide)).1
      (by norm_num [makeSensor, abs_lt])⟩

/-! ## C26: flower and fruit flags -/

theorem weatherEffectOf_le (weatherType : Int) (h : 0 ≤ weatherType ∧ weatherType ≤ 3) :
    max (weatherEffectOf weatherType) 1.05 = 1.05 := by
  have hc : weatherType = 0 ∨ weatherType = 1 ∨ weatherType = 2 ∨ weatherType = 3 := by omega
  rcases hc with rfl | rfl | rfl | rfl <;> norm_num [weatherEffectOf]

/-- Under climate control and without night lighting, the state handed to the health
scaling is the same for every weather type in `0..3`, with multiplier `1.05`. -/
theorem plantEffects_climate (weatherType : Int) (deltaTime : ℚ) (fs : FarmStatus)
    (p : DetailedPlant) (hc : fs.climateControl = true) (hn : fs.nightLighting = false)
    (h : 0 ≤ weatherType ∧ weatherType ≤ 3) :
    plantEffects weatherType deltaTime fs p =
      { plantClimate (plantHarvest (plantNight deltaTime (plantFertilize (plantPest
          ⟨fs, 0, p⟩)))) with weatherEffect := 1.05 } := by
  have hP : ∀ (st : PlantStep) (e : ℚ),
      plantPest { st with weatherEffect := e } = { plantPest st with weatherEffect := e } := by
    intro st e
    unfold plantPest
    split_ifs <;> rfl
  have hF : ∀ (st : PlantStep) (e : ℚ),
      plantFertilize { st with weatherEffect := e } =
        { plantFertilize st with weatherEffect := e } := by
    intro st e
    unfold plantFertilize
    split_ifs <;> rfl
  have hN : ∀ (st : PlantStep) (e : ℚ), st.fs.nightLighting = false →
      plantNight deltaTime { st with weatherEffect := e } =
        { plantNight deltaTime st with weatherEffect := e } := by
    intro st e hst
    unfold plantNight
    dsimp only
    rw [hst]
    rfl
  have hH : ∀ (st : PlantStep) (e : ℚ),
      plantHarvest { st with weatherEffect := e } =
        { plantHarvest st with weatherEffect := e } := by
    intro st e
    unfold plantHarvest
    split_ifs <;> rfl
  have hC : ∀ (st : PlantStep) (e : ℚ), st.fs.climateControl = true →
      plantClimate { st with weatherEffect := e } =
        { plantClimate st with weatherEffect := max e 1.05 } := by
    intro st e hst
    unfold plantClimate
    dsimp only
    rw [hst]
    rfl
  have hfs2 : (plantFertilize (plantPest ⟨fs, 0, p⟩)).fs = fs := by
    rw [(plantFertilize_fs _).1, (plantPest_fs _).1]
  have hfs4 : (plantHarvest (plantNight deltaTime
      (plantFertilize (plantPest ⟨fs, 0, p⟩)))).fs.climateControl = true := by
    have h4 : ∀ st : PlantStep,
        (plantHarvest st).fs.climateControl = st.fs.climateControl := by
      intro st
      unfold plantHarvest
      split_ifs <;> rfl
    rw [h4, (plantNight_fs _ _).1, hfs2]
    exact hc
  have hstart : (⟨fs, weatherEffectOf weatherType, p⟩ : PlantStep) =
      { (⟨fs, 0, p⟩ : PlantStep) with weatherEffect := weatherEffectOf weatherType } := rfl
  unfold plantEffects
  rw [hstart, hP, hF, hN _ _ (by rw [hfs2]; exact hn), hH, hC _ _ hfs4,
    weatherEffectOf_le weatherType h]

/-- C30: with `climateControl` on and `nightLighting` off, for every plant,
`deltaTime` and setting of the other toggles, one plant tick gives the same result
(plant and status record, hence `healthFactor`, `growthStage`, flags and leaf colour)
for all four weather types, the weather multiplier being replaced by `1.05`; with
`climateControl` off there is a plant for which Sunny and Stormy give different
`healthFactor`. -/
theorem weather_noninterference (m : Libm) (wt1 wt2 : Int) (deltaTime : ℚ) (fs : FarmStatus)
    (p : DetailedPlant) (hc : fs.climateControl = true) (hn : fs.nightLighting = false)
    (h1 : 0 ≤ wt1 ∧ wt1 ≤ 3) (h2 : 0 ≤ wt2 ∧ wt2 ≤ 3) :
    plantTick m wt1 deltaTime fs p = plantTick m wt2 deltaTime fs p ∧
    (plantEffects wt1 deltaTime fs p).weatherEffect = 1.05 ∧
    (∃ (fs0 : FarmStatus) (p0 : DetailedPlant), fs0.climateControl = false ∧
      (plantTick m 0 deltaTime fs0 p0).2.healthFactor ≠
        (plantTick m 3 deltaTime fs0 p0).2.healthFactor) := by
  have e1 := plantEffects_climate wt1 deltaTime fs p hc hn h1
  have e2 := plantEffects_climate wt2 deltaTime fs p hc hn h2
  refine ⟨?_, ?_, ?_⟩
  · unfold plantTick
    dsimp only
    rw [e1, e2]
  · rw [e1]
  · refine ⟨{ climateControl := false }, { healthFactor := 0.8 }, rfl, ?_⟩
    have a : plantEffects 0 deltaTime { climateControl := false } { healthFactor := 0.8 } =
        ⟨{ climateControl := false }, 1.01, { healthFactor := 0.8 }⟩ := rfl
    have b : plantEffects 3 deltaTime { climateControl := false } { healthFactor := 0.8 } =
        ⟨{ climateControl := false }, 0.995, { healthFactor := 0.8 }⟩ := rfl
    show (plantGrow _ _ (plantEffects _ _ _ _)).healthFactor ≠
      (plantGrow _ _ (plantEffects _ _ _ _)).healthFactor
    rw [a, b, plantGrow_health, plantGrow_health]
    norm_num [clamp]

theorem weather_noninterference_witness :
    (({} : FarmStatus).climateControl = true ∧ ({} : FarmStatus).nightLighting = false) ∧
    plantTick sampleLibm 0 0.016 {} { healthFactor := 0.8 } =
      plantTick sampleLibm 3 0.016 {} { healthFactor := 0.8 } :=
  ⟨⟨rfl, rfl⟩,
    (weather_noninterference sampleLibm 0 3 0.016 {} { healthFactor := 0.8 } rfl rfl
      ⟨by decide, by decide⟩ ⟨by decide, by decide⟩).1⟩

/-! ## C28: index well-formedness -/

/-- Every index of the buffer refers to one of its vertices. -/
def RenderObject.WellFormed (obj : RenderObject) : Prop :=
  ∀ i ∈ obj.indices, i < obj.vertices.length

/-- The buffer `r` is `obj` with a block of vertices and a block of indices appended,
every appended index refers to an appended vertex, and the appended indices form
whole triangles. -/
def RenderObject.AppendsTo (r obj : RenderObject) : Prop :=
  ∃ (verts : List Vertex) (idx : List Nat),
    r.vertices = obj.vertices ++ verts ∧ r.indices = obj.indices ++ idx ∧
    (∀ i ∈ idx, obj.vertices.length ≤ i ∧ i < obj.vertices.length + verts.length) ∧
    3 ∣ idx.length

theorem RenderObject.AppendsTo.wellFormed {r obj : RenderObject} (h : r.AppendsTo obj)
    (hw : obj.WellFormed) : r.WellFormed := by
  obtain ⟨verts, idx, hv, hi, hb, -⟩ := h
  intro i hmem
  rw [hi, List.mem_append] at hmem
  rw [hv, List.length_append]
  rcases hmem with hmem | hmem
  · exact lt_of_lt_of_le (hw i hmem) (Nat.le_add_right _ _)
  · exact (hb i hmem).2

theorem dvd_length_flatMap {α β : Type} (f : α → List β) (k : Nat)
    (hf : ∀ a, k ∣ (f a).length) (l : List α) : k ∣ (l.flatMap f).length := by
  induction l with
  | nil => simp
  | cons a t ih =>
    rw [List.flatMap_cons, List.length_append]
    exact Nat.dvd_add (hf a) ih

theorem addDetailedCube_appends (obj : RenderObject) (center size color normal : Vec3)
    (material : ℚ) : (addDetailedCube obj center size color normal material).AppendsTo obj := by
  refine ⟨_, _, rfl, rfl, ?_, ?_⟩
  · intro i hi
    have key : ∀ L : List Vertex, L.length = 24 →
        obj.vertices.length ≤ i ∧ i < obj.vertices.length + L.length := by
      intro L hL
      rw [hL]
      simp only [List.mem_flatMap, List.mem_range, List.mem_cons, List.mem_singleton,
        List.not_mem_nil, or_false] at hi
      obtain ⟨face, hface, hi⟩ := hi
      omega
    refine key _ ?_
    refine (length_flatMap_const _ 4 ?_ _).trans ?_
    · intro face
      rw [List.length_map, List.length_range]
    · rw [List.length_range]
  · refine dvd_length_flatMap _ 3 ?_ _
    intro face
    exact ⟨2, rfl⟩

theorem addDetailedLeaf_appends (m : Libm) (obj : RenderObject) (position direction : Vec3)
    (size : ℚ) (color : Vec3) (material : ℚ) :
    (addDetailedLeaf m obj position direction size color material).AppendsTo obj := by
  refine ⟨_, _, rfl, rfl, ?_, ?_⟩
  · intro i hi
    have key : ∀ L : List Vertex, L.length = 16 →
        obj.vertices.length ≤ i ∧ i < obj.vertices.length + L.length := by
      intro L hL
      rw [hL]
      simp only [List.mem_flatMap, List.mem_range, List.mem_cons, List.mem_singleton,
        List.not_mem_nil, or_false] at hi
      obtain ⟨k, hk, hi⟩ := hi
      omega
    refine key _ ?_
    rw [List.length_map]
    refine (length_flatMap_const _ 2 ?_ _).trans ?_
    · intro k
      rfl
    · rw [List.length_range]
  · refine dvd_length_flatMap _ 3 ?_ _
    intro k
    exact ⟨2, rfl⟩

theorem addCylinder_appends (m : Libm) (obj : RenderObject) (bottom top : Vec3) (radius : ℚ)
    (color : Vec3) (segments : Int) (material : ℚ) :
    (addCylinder m obj bottom top radius color segments material).AppendsTo obj := by
  refine ⟨_, _, rfl, rfl, ?_, ?_⟩
  · intro i hi
    have key : ∀ L : List Vertex, L.length = 2 * (segments + 1).toNat →
        obj.vertices.length ≤ i ∧ i < obj.vertices.length + L.length := by
      intro L hL
      rw [hL]
      simp only [List.mem_flatMap, List.mem_range, List.mem_cons, List.mem_singleton,
        List.not_mem_nil, or_false] at hi
      obtain ⟨k, hk, hi⟩ := hi
      have hmod : (k + 1) % (segments.toNat + 1) = k + 1 := Nat.mod_eq_of_lt (by omega)
      rw [hmod] at hi
      have hn : (segments + 1).toNat = segments.toNat + 1 := by omega
      rw [hn]
      omega
    refine key _ ?_
    refine (length_flatMap_const _ 2 ?_ _).trans ?_
    · intro k
      rfl
    · rw [List.length_range]
  · refine dvd_length_flatMap _ 3 ?_ _
    intro k
    exact ⟨2, rfl⟩

theorem addBezierCurve_appends (m : Libm) (obj : RenderObject) (path : BezierPath) :
    (addBezierCurve m obj path).AppendsTo obj := by
  unfold addBezierCurve
  split_ifs with hshort
  · exact ⟨[], [], (List.append_nil _).symm, (List.append_nil _).symm,
      fun i hi => absurd hi (List.not_mem_nil i), ⟨0, rfl⟩⟩
  · refine ⟨_, _, rfl, rfl, ?_, ?_⟩
    · intro i hi
      have key : ∀ L : List Vertex, L.length = 2 * (path.segments + 1).toNat →
          obj.vertices.length ≤ i ∧ i < obj.vertices.length + L.length := by
        intro L hL
        rw [hL]
        simp only [List.mem_flatMap, List.mem_range] at hi
        obtain ⟨k, hk, hi⟩ := hi
        split_ifs at hi with hpos
        · simp only [List.mem_cons, List.mem_singleton, List.not_mem_nil, or_false] at hi
          omega
        · exact absurd hi (List.not_mem_nil i)
      refine key _ ?_
      refine (length_flatMap_const _ 2 ?_ _).trans ?_
      · intro k
        rfl
      · rw [List.length_range]
    · refine dvd_length_flatMap _ 3 ?_ _
      intro k
      split_ifs
      · exact ⟨2, rfl⟩
      · exact ⟨0, rfl⟩

/-- C28: each geometry builder (`addDetailedCube`, `addCylinder` and `addBezierCurve`
for any segment count, `addDetailedLeaf`) appends a block of vertices and a block of
indices such that every appended index refers to a vertex appended by the same call
and the number of appended indices is a multiple of 3; hence a buffer in which every
index is smaller than `vertices.size()` stays so. -/
theorem builders_keep_wellFormed (m : Libm) (obj : RenderObject) (hw : obj.WellFormed)
    (center size color normal bottom top position direction : Vec3)
    (material radius leafSize : ℚ) (segments : Int) (path : BezierPath) :
    ((addDetailedCube obj center size color normal material).WellFormed ∧
      (addDetailedCube obj center size color normal material).AppendsTo obj) ∧
    ((addCylinder m obj bottom top radius color segments material).WellFormed ∧
      (addCylinder m obj bottom top radius color segments material).AppendsTo obj) ∧
    ((addDetailedLeaf m obj position direction leafSize color material).WellFormed ∧
      (addDetailedLeaf m obj position direction leafSize color material).AppendsTo obj) ∧
    ((addBezierCurve m obj path).WellFormed ∧ (addBezierCurve m obj path).AppendsTo obj) :=
  ⟨⟨(addDetailedCube_appends obj center size color normal material).wellFormed hw,
      addDetailedCube_appends obj center size color normal material⟩,
    ⟨(addCylinder_appends m obj bottom top radius color segments material).wellFormed hw,
      addCylinder_appends m obj bottom top radius color segments material⟩,
    ⟨(addDetailedLeaf_appends m obj position direction leafSize color material).wellFormed hw,
      addDetailedLeaf_appends m obj position direction leafSize color material⟩,
    ⟨(addBezierCurve_appends m obj path).wellFormed hw, addBezierCurve_appends m obj path⟩⟩

theorem emptyBuffer_wellFormed : ({} : RenderObject).WellFormed :=
  fun i hi => absurd hi (List.not_mem_nil i)

theorem builders_keep_wellFormed_witness :
    ({} : RenderObject).WellFormed ∧
    (addBezierCurve sampleLibm {} mainRoad).WellFormed :=
  ⟨emptyBuffer_wellFormed,
    (builders_keep_wellFormed sampleLibm {} emptyBuffer_wellFormed ⟨0, 0, 0⟩ ⟨1, 1, 1⟩ ⟨1, 1, 1⟩
      ⟨0, 1, 0⟩ ⟨0, 0, 0⟩ ⟨0, 1, 0⟩ ⟨0, 0, 0⟩ ⟨1, 0, 0⟩ 0 0.5 0.2 8 mainRoad).2.2.2.1⟩


/-! ## The frame of a cylinder -/

/-- The ring of `addCylinder` is built from the `right` and `up` vectors of
`addCylinderFrame`. -/
theorem addCylinder_frame (m : Libm) (obj : RenderObject) (bottom top : Vec3) (radius : ℚ)
    (color : Vec3) (segments : Int) (material : ℚ) :
    (addCylinder m obj bottom top radius color segments material).vertices =
      obj.vertices ++ (List.range (segments + 1).toNat).flatMap fun (i : Nat) =>
        let angle : ℚ := (i : ℚ) / (segments : ℚ) * 2 * 3.14159
        let circlePos := Vec3.smul (m.cos angle) (addCylinderFrame m bottom top).right +
          Vec3.smul (m.sin angle) (addCylinderFrame m bottom top).up
        let normal := Vec3.normalize m circlePos
        let bottomPos := bottom + Vec3.smul radius circlePos
        let topPos := top + Vec3.smul radius circlePos
        [{ x := bottomPos.x, y := bottomPos.y, z := bottomPos.z, r := color.x, g := color.y,
           b := color.z, nx := normal.x, ny := normal.y, nz := normal.z,
           materialType := material },
         { x := topPos.x, y := topPos.y, z := topPos.z, r := color.x, g := color.y,
           b := color.z, nx := normal.x, ny := normal.y, nz := normal.z,
           materialType := material }] := rfl

/-- Position attribute of a vertex. -/
def Vertex.position (v : Vertex) : Vec3 := ⟨v.x, v.y, v.z⟩

/-- Normal attribute of a vertex. -/
def Vertex.normal (v : Vertex) : Vec3 := ⟨v.nx, v.ny, v.nz⟩

theorem getElem?_append_add {α : Type} (l₁ l₂ : List α) (k : Nat) :
    (l₁ ++ l₂)[l₁.length + k]? = l₂[k]? := by
  rw [List.getElem?_append_right (Nat.le_add_right _ _), Nat.add_sub_cancel_left]

/-- The `j`-th vertex emitted by `addDetailedCube` (face `j / 4`, corner `j % 4`). -/
theorem addDetailedCube_getVertex (obj : RenderObject) (center size color normal : Vec3)
    (material : ℚ) (j : Nat) (hj : j < 24) :
    ∃ v, (addDetailedCube obj center size color normal material).vertices[
        obj.vertices.length + j]? = some v ∧
      v.position = (cubePositions center (Vec3.smul 0.5 size)).getD
        ((cubeFaceIndices.getD (j / 4) []).getD (j % 4) 0) Vec3.zero ∧
      v.normal = cubeNormals.getD (j / 4) Vec3.zero := by
  have h : (addDetailedCube obj center size color normal material).vertices[
      obj.vertices.length + j]? = _ := getElem?_append_add _ _ j
  rw [h]
  interval_cases j <;> exact ⟨_, rfl, rfl, rfl⟩

/-- The `k`-th index emitted by `addDetailedCube`. -/
theorem addDetailedCube_getIndex (obj : RenderObject) (center size color normal : Vec3)
    (material : ℚ) (k : Nat) (hk : k < 36) :
    (addDetailedCube obj center size color normal material).indices[
        obj.indices.length + k]? =
      some (obj.vertices.length + ((k / 6) * 4 + [0, 1, 2, 0, 2, 3].getD (k % 6) 0)) := by
  have h : (addDetailedCube obj center size color normal material).indices[
      obj.indices.length + k]? = _ := getElem?_append_add _ _ k
  rw [h]
  interval_cases k <;> rfl


/-- C29: for every box with all three size components positive, for each of the six
faces of `addDetailedCube` and both triangles `(v0, v1, v2)` of the face, the three
vertices carry the face's table normal, that normal points away from the box centre
at each of them, and `(v1 - v0) x (v2 - v0)` is a negative multiple of it (the
triangle is wound clockwise seen from outside); the result does not depend on the
normal-hint argument. -/
theorem box_winding (obj : RenderObject) (center size color normal : Vec3) (material : ℚ)
    (hx : 0 < size.x) (hy : 0 < size.y) (hz : 0 < size.z) :
    (∀ hint : Vec3, addDetailedCube obj center size color hint material =
      addDetailedCube obj center size color normal material) ∧
    ∀ face, face < 6 → ∀ tri, tri < 2 →
      ∃ i0 i1 i2 v0 v1 v2,
        (addDetailedCube obj center size color normal material).indices[
          obj.indices.length + (6 * face + 3 * tri)]? = some i0 ∧
        (addDetailedCube obj center size color normal material).indices[
          obj.indices.length + (6 * face + 3 * tri + 1)]? = some i1 ∧
        (addDetailedCube obj center size color normal material).indices[
          obj.indices.length + (6 * face + 3 * tri + 2)]? = some i2 ∧
        (addDetailedCube obj center size color normal material).vertices[i0]? = some v0 ∧
        (addDetailedCube obj center size color normal material).vertices[i1]? = some v1 ∧
        (addDetailedCube obj center size color normal material).vertices[i2]? = some v2 ∧
        v0.normal = cubeNormals.getD face Vec3.zero ∧
        v1.normal = v0.normal ∧ v2.normal = v0.normal ∧
        0 < Vec3.dot v0.normal (v0.position - center) ∧
        0 < Vec3.dot v0.normal (v1.position - center) ∧
        0 < Vec3.dot v0.normal (v2.position - center) ∧
        ∃ c : ℚ, c < 0 ∧
          Vec3.cross (v1.position - v0.position) (v2.position - v0.position) =
            Vec3.smul c v0.normal := by
  refine ⟨fun _ => rfl, ?_⟩
  intro face hface tri htri
  have hxy := mul_pos hx hy
  have hyz := mul_pos hy hz
  have hxz := mul_pos hx hz
  obtain ⟨v0, hv0, hp0, hn0⟩ := addDetailedCube_getVertex obj center size color normal material
    ((6 * face + 3 * tri) / 6 * 4 + [0, 1, 2, 0, 2, 3].getD ((6 * face + 3 * tri) % 6) 0)
    (by interval_cases face <;> interval_cases tri <;> decide)
  obtain ⟨v1, hv1, hp1, hn1⟩ := addDetailedCube_getVertex obj center size color normal material
    ((6 * face + 3 * tri + 1) / 6 * 4 + [0, 1, 2, 0, 2, 3].getD ((6 * face + 3 * tri + 1) % 6) 0)
    (by interval_cases face <;> interval_cases tri <;> decide)
  obtain ⟨v2, hv2, hp2, hn2⟩ := addDetailedCube_getVertex obj center size color normal material
    ((6 * face + 3 * tri + 2) / 6 * 4 + [0, 1, 2, 0, 2, 3].getD ((6 * face + 3 * tri + 2) % 6) 0)
    (by interval_cases face <;> interval_cases tri <;> decide)
  refine ⟨_, _, _, v0, v1, v2,
    addDetailedCube_getIndex obj center size color normal material _ (by omega),
    addDetailedCube_getIndex obj center size color normal material _ (by omega),
    addDetailedCube_getIndex obj center size color normal material _ (by omega),
    hv0, hv1, hv2, ?_⟩
  rw [hn1, hn2, hn0, hp0, hp1, hp2]
  clear hv0 hv1 hv2 hp0 hp1 hp2 hn0 hn1 hn2
  interval_cases face <;> interval_cases tri <;>
    simp only [cubePositions, cubeFaceIndices, cubeNormals, List.getD_cons_zero,
      List.getD_cons_succ, Nat.reduceMul, Nat.reduceAdd, Nat.reduceDiv, Nat.reduceMod,
      Vec3.add_def, Vec3.sub_def, Vec3.dot, Vec3.cross, Vec3.smul, Vec3.mk.injEq, true_and]
  all_goals norm_num
  all_goals first
    | exact ⟨by assumption, -(size.x * size.y), by linarith, by ring⟩
    | exact ⟨by assumption, by nlinarith⟩

theorem box_winding_witness :
    ((0 : ℚ) < (Vec3.mk 2 1 3).x ∧ (0 : ℚ) < (Vec3.mk 2 1 3).y ∧ (0 : ℚ) < (Vec3.mk 2 1 3).z) ∧
    ∀ hint : Vec3, addDetailedCube {} ⟨0, 0, 0⟩ ⟨2, 1, 3⟩ ⟨1, 1, 1⟩ hint 4 =
      addDetailedCube {} ⟨0, 0, 0⟩ ⟨2, 1, 3⟩ ⟨1, 1, 1⟩ ⟨0, 1, 0⟩ 4 :=
  ⟨⟨by norm_num, by norm_num, by norm_num⟩,
    (box_winding {} ⟨0, 0, 0⟩ ⟨2, 1, 3⟩ ⟨1, 1, 1⟩ ⟨0, 1, 0⟩ 4 (by norm_num) (by norm_num)
      (by norm_num)).1⟩


/-! ## C24: the sensor-network mesh -/

end Farm
